import Mathlib

/-!
# The MeanShift façade of `ms/ms_c.c`

A shallow embedding of the façade object defined in `src/ms/ms_c.c` (the
`MeanShift` struct and its `MeanShift_*` methods) together with theorems about
its cache handling, kernel selection and error paths, its statistics and
bandwidth rules, its samplers and its clustering interface.

Conventions of the embedding

* C `float` values are exact rationals (`ℚ`), without rounding; `sqrt` and `pow`
  of libm are parameters of the environment. A division by zero, which in C
  gives an infinity or a NaN, gives 0 in `ℚ`: statements about such divisions
  have to speak about the divisor.
* Arrays are lists. A read outside a list gives 0 and a write outside it is
  dropped, where C has undefined behaviour; the loops of the source stay inside
  the arrays whenever the data matrix has as many scale entries as features.
* C strings (`char *`) are lists of characters without the terminating NUL.
* A pointer that may be `NULL` is an `Option`.
* Memory that the C code reads without having written it is a parameter of the
  method (`junk` for the tags of `set_data`, `high` for the upper half of
  `shape[0]` in `draws` and `bootstrap`). A loop whose end depends on such a
  value is followed for a bounded number of rounds and the call ends in a
  `Run`: returned, crashed, or still looping.
* Every method returns the pair of what the C function hands back to the
  interpreter (`Ret`: the returned object, `none` for `NULL`, and the error
  indicator that `PyErr_SetString` sets) and the state after the call, so that
  "unchanged on failure" is a statement about the code and not about a type.
* Functions, tables and types that `ms_c.c` uses but that live in other files of
  the repository (the data matrix, the kernels, the spatial and balls indices,
  `calc_weight`, `calc_norm`, `prob`) are fields of the environment `Env`.
-/

namespace Helit

/-! ## Data model -/

/-- C string: the characters before the terminating NUL. -/
abbrev CStr := List Char

/-- Values of the `DimType` enumeration as stored in memory. `DIM_OTHER` is any
stored value that is none of the three enumerators (the `default:` branch of
`MeanShift_get_dim_py`). -/
inductive DimType where
  | DIM_DATA
  | DIM_FEATURE
  | DIM_DUAL
  | DIM_OTHER (raw : Nat)
  deriving DecidableEq, Repr

/-- The part of a numpy array that `ms_c.c` looks at: the kind character of its
descriptor, its shape (`PyArray_NDIM` is the length of `dims`) and its elements
in row-major order, already converted by the `ToFloat` function of the kind. -/
structure PyArray where
  kind : Char
  dims : List Nat
  data : List ℚ
  deriving DecidableEq, Repr

/-- Number of dimensions of an array, `PyArray_NDIM`. -/
def PyArray_NDIM (a : PyArray) : Nat := a.dims.length

/-- Python objects handed to or returned by the methods modelled here. -/
inductive PyObj where
  | None
  | Int (v : Int)
  | Float (x : ℚ)
  | Str (s : CStr)
  | Array (a : PyArray)
  | Other
  deriving DecidableEq, Repr

/-- What a method hands back: the returned object (`none` is `NULL`) and the
error indicator of the interpreter as left by `PyErr_SetString`. -/
structure Ret where
  value : Option PyObj
  error : Option String
  deriving DecidableEq, Repr

/-- The return `Py_INCREF(Py_None); return Py_None;` with the error indicator
as it stands. -/
def Ret.none_with (err : Option String) : Ret := ⟨some PyObj.None, err⟩

/-- The return `PyErr_SetString(PyExc_RuntimeError, msg); return NULL;`. -/
def Ret.fail (msg : String) : Ret := ⟨none, some msg⟩

/-- A kernel configuration object on the heap: its share count, whether its
memory is still allocated, and the arguments `config_new` built it from. -/
structure ConfigCell where
  share : Nat
  live : Bool
  dims : Nat
  param : CStr
  deriving DecidableEq, Repr

/-- The heap of kernel configuration objects, indexed by address. -/
abbrev Heap := List ConfigCell

/-- The type `KernelConfig` of the source: a pointer to a configuration object,
or `NULL`. -/
abbrev KernelConfig := Option Nat

/-- The fields of the `Kernel` struct that `ms_c.c` reads or calls. The
configuration functions act on the heap of configuration objects. -/
structure Kernel where
  name : CStr
  description : CStr
  configuration : Option CStr
  config_verify : Nat → CStr → Option String
  config_new : Nat → CStr → Heap → KernelConfig × Heap
  config_acquire : KernelConfig → Heap → Heap
  config_release : KernelConfig → Heap → Heap

/-- The fields of a spatial indexing type that `ms_c.c` reads. -/
structure SpatialType where
  name : CStr
  description : CStr
  deriving DecidableEq, Repr

/-- The fields of a balls type that `ms_c.c` reads. -/
structure BallsType where
  name : CStr
  description : CStr
  deriving DecidableEq, Repr

/-- The fields of the `DataMatrix` struct that `ms_c.c` reads or writes. -/
structure DataMatrix where
  array : Option PyArray
  dt : List DimType
  weight_index : Int
  mult : List ℚ
  weight_scale : ℚ
  feats : Nat
  deriving DecidableEq, Repr

/-- A spatial index instance, identified by what `Spatial_new` built it from:
the indexing type and the contents of the data matrix at that moment. -/
structure Spatial where
  type : SpatialType
  dm : DataMatrix
  deriving DecidableEq, Repr

/-- A balls instance: what `Balls_new` built it from and the centres stored in
it since. -/
structure Balls where
  type : BallsType
  dims : Nat
  range : ℚ
  pos : List (List ℚ)
  deriving DecidableEq, Repr

/-- The `MeanShift` struct. -/
structure MeanShift where
  kernel : Kernel
  config : KernelConfig
  name : Option CStr
  spatial_type : SpatialType
  balls_type : BallsType
  dm : DataMatrix
  weight : ℚ
  norm : ℚ
  spatial : Option Spatial
  balls : Option Balls
  quality : ℚ
  epsilon : ℚ
  iter_cap : Int
  ident_dist : ℚ
  merge_range : ℚ
  merge_check_step : Int

/-- The `MultCache` struct of the product sampler: the fields `ms_c.c` fills
in, and the rest of its content kept as one value. -/
structure MultCache where
  rng_index0 : Nat
  rng_index1 : Nat
  gibbs_samples : Int
  mci_samples : Int
  mh_proposals : Int
  rest : Nat
  deriving DecidableEq, Repr

/-- Everything `ms_c.c` takes from the rest of the repository and from libm.
`DataMatrix_draw` and `draw` take the words of the rng index one by one;
`cluster` is given by the centres it adds to the balls it is handed and the
assignment it writes; `mult` returns the sample it writes and the cache as it
leaves it. -/
structure Env where
  ListKernel : List Kernel
  ListSpatial : List SpatialType
  ListBalls : List BallsType
  Uniform : Kernel
  KDTreeType : SpatialType
  BallsHashType : BallsType
  DataMatrix_init : DataMatrix
  DataMatrix_set : DataMatrix → PyArray → List DimType → Int → DataMatrix
  DataMatrix_set_scale : DataMatrix → List ℚ → ℚ → DataMatrix
  DataMatrix_features : DataMatrix → Nat
  DataMatrix_exemplars : DataMatrix → Nat
  DataMatrix_fv : DataMatrix → Nat → List ℚ × ℚ
  Spatial_new : SpatialType → DataMatrix → Spatial
  calc_weight : DataMatrix → ℚ
  calc_norm : Heap → DataMatrix → Kernel → KernelConfig → ℚ → ℚ
  prob : Heap → Spatial → Kernel → KernelConfig → List ℚ → ℚ → ℚ → ℚ
  loo_nll : Heap → Spatial → Kernel → KernelConfig → ℚ → ℚ → ℚ → ℚ
  sqrt : ℚ → ℚ
  pow : ℚ → ℚ → ℚ
  DataMatrix_draw : DataMatrix → Nat → Nat → Nat → Nat → Nat
  draw : Heap → DataMatrix → Kernel → KernelConfig → Nat → Nat → Nat → List ℚ
  assign_cluster : Heap → Spatial → Kernel → KernelConfig → Balls → List ℚ → ℚ → ℚ → Int →
    Int → Int
  cluster : Heap → Spatial → Kernel → KernelConfig → Balls → ℚ → ℚ → Int → ℚ → ℚ → Int →
    List (List ℚ) × List Int
  MultCache_new : MultCache
  mult : Heap → Kernel → KernelConfig → Nat → List Spatial → MultCache → ℚ → Int →
    List ℚ × MultCache

/-! ## Construction -/

/-- `MeanShift_new`. -/
def MeanShift_new (E : Env) : MeanShift :=
  { kernel := E.Uniform
    config := none
    name := none
    spatial_type := E.KDTreeType
    balls_type := E.BallsHashType
    dm := E.DataMatrix_init
    weight := -1
    norm := -1
    spatial := none
    balls := none
    quality := 1 / 2
    epsilon := 1 / 1000
    iter_cap := 1024
    ident_dist := 0
    merge_range := 1 / 2
    merge_check_step := 4 }

/-! ## Kernel selection -/

/-- `strncmp(a, b, n) == 0` on NUL-free strings: the first `n` characters
agree, a string that ends earlier differing from one that goes on. -/
def strncmp_eq0 (a b : CStr) (n : Nat) : Bool := a.take n == b.take n

/-- `strcmp(a, b) == 0`. -/
def strcmp_eq0 (a b : CStr) : Bool := a == b

/-- `MeanShift_get_kernel_py`. -/
def MeanShift_get_kernel_py (self : MeanShift) : Ret :=
  match self.name with
  | none => ⟨some (PyObj.Str self.kernel.name), none⟩
  | some n => ⟨some (PyObj.Str n), none⟩

/-- The body of the `if (strncmp(...)==0)` branch of `MeanShift_set_kernel_py`
for the table entry `k`: every path through it returns. -/
def set_kernel_found (E : Env) (kname : CStr) (h : Heap) (self : MeanShift) (k : Kernel) :
    Ret × Heap × MeanShift :=
  let klength := k.name.length
  let dims := E.DataMatrix_features self.dm
  match k.config_verify dims (kname.drop klength) with
  | some error => (Ret.fail error, h, self)
  | none =>
    let h1 := self.kernel.config_release self.config h
    let cn := k.config_new dims (kname.drop klength) h1
    let self1 := { self with kernel := k, config := cn.1, norm := -1 }
    let self2 := if self1.name ≠ none then { self1 with name := none } else self1
    let self3 :=
      if self2.kernel.configuration ≠ none then { self2 with name := some kname }
      else self2
    (Ret.none_with none, cn.2, self3)

/-- The `while (ListKernel[i]!=NULL)` loop of `MeanShift_set_kernel_py`, run
over the entries of the table that are still to be visited. -/
def set_kernel_loop (E : Env) (kname : CStr) (h : Heap) (self : MeanShift) :
    List Kernel → Ret × Heap × MeanShift
  | [] => (Ret.fail ("unrecognised kernel type"), h, self)
  | k :: rest =>
    if strncmp_eq0 k.name kname k.name.length then set_kernel_found E kname h self k
    else set_kernel_loop E kname h self rest

/-- `MeanShift_set_kernel_py`. -/
def MeanShift_set_kernel_py (E : Env) (h : Heap) (self : MeanShift) (kname : CStr) :
    Ret × Heap × MeanShift :=
  set_kernel_loop E kname h self E.ListKernel

/-- `MeanShift_copy_kernel_py`. The façades live in a store `mem` indexed by
address, so that `other` may be `self`; each statement reads the store as the
statements before it left it. -/
def MeanShift_copy_kernel_py (h : Heap) (mem : Nat → MeanShift) (self other : Nat) :
    Ret × Heap × (Nat → MeanShift) :=
  let h1 := (mem self).kernel.config_release (mem self).config h
  let mem1 :=
    if (mem self).name ≠ none then Function.update mem self { mem self with name := none }
    else mem
  let mem2 := Function.update mem1 self { mem1 self with kernel := (mem1 other).kernel }
  let mem3 := Function.update mem2 self { mem2 self with config := (mem2 other).config }
  let h2 := (mem3 self).kernel.config_acquire (mem3 self).config h1
  let mem4 :=
    if (mem3 other).name ≠ none then
      Function.update mem3 self { mem3 self with name := (mem3 other).name }
    else mem3
  (Ret.none_with none, h2, mem4)

/-! ## Spatial and balls type selection -/

/-- The `while (ListSpatial[i]!=NULL)` loop of `MeanShift_set_spatial_py`. -/
def set_spatial_loop (sname : CStr) (self : MeanShift) : List SpatialType → Ret × MeanShift
  | [] => (Ret.fail ("unrecognised spatial type"), self)
  | t :: rest =>
    if strcmp_eq0 t.name sname then
      let self1 := { self with spatial_type := t }
      let self2 := if self1.spatial ≠ none then { self1 with spatial := none } else self1
      (Ret.none_with none, self2)
    else set_spatial_loop sname self rest

/-- `MeanShift_set_spatial_py`. -/
def MeanShift_set_spatial_py (E : Env) (self : MeanShift) (sname : CStr) : Ret × MeanShift :=
  set_spatial_loop sname self E.ListSpatial

/-- The `while (ListBalls[i]!=NULL)` loop of `MeanShift_set_balls_py`. -/
def set_balls_loop (bname : CStr) (self : MeanShift) : List BallsType → Ret × MeanShift
  | [] => (Ret.fail ("unrecognised balls type"), self)
  | t :: rest =>
    if strcmp_eq0 t.name bname then
      let self1 := { self with balls_type := t }
      let self2 := if self1.balls ≠ none then { self1 with balls := none } else self1
      (Ret.none_with none, self2)
    else set_balls_loop bname self rest

/-- `MeanShift_set_balls_py`. -/
def MeanShift_set_balls_py (E : Env) (self : MeanShift) (bname : CStr) : Ret × MeanShift :=
  set_balls_loop bname self E.ListBalls

/-! ## Data and scale -/

/-- The test `(c!='d')&&(c!='f')&&(c!='b')` on a dimension type character. -/
def bad_dim_code (c : Char) : Bool := c != 'd' && c != 'f' && c != 'b'

/-- The conversion of the `long` that `PyInt_AsLong` returns to the `int`
variable `weight_i` (two's complement, 32 bits). -/
def int_of_long (v : Int) : Int := Int.bmod v (2 ^ 32)

/-- The loop that fills the freshly allocated `dt` array from the type string:
the `switch` has no `default`, so an entry whose code is none of 'd', 'f', 'b'
keeps what the allocated memory held (`junk`). -/
def fill_dt (junk : Nat → DimType) (dim_types : CStr) (ndim : Nat) : List DimType :=
  (List.range ndim).map fun i =>
    match dim_types.getD i ' ' with
    | 'd' => DimType.DIM_DATA
    | 'f' => DimType.DIM_FEATURE
    | 'b' => DimType.DIM_DUAL
    | _ => junk i

/-- The block "Trash the spatial ... Trash the cluster centers ... Trash the
weight record" that ends `MeanShift_set_data_py` and `MeanShift_set_scale_py`. -/
def trash_all (self : MeanShift) : MeanShift :=
  let self1 := if self.spatial ≠ none then { self with spatial := none } else self
  let self2 := if self1.balls ≠ none then { self1 with balls := none } else self1
  { self2 with weight := -1, norm := -1 }

/-- `MeanShift_set_data_py`. `junk` is the content of the memory that `malloc`
returns for `dt`; `weight_index` is `none` when the optional argument is left
out. -/
def MeanShift_set_data_py (E : Env) (junk : Nat → DimType) (self : MeanShift)
    (data : PyArray) (dim_types : CStr) (weight_index : Option PyObj) : Ret × MeanShift :=
  if dim_types.length ≠ PyArray_NDIM data then
    (Ret.fail ("dimension type string must be the same length as the number of dimensions in the data matrix"), self)
  else if data.kind ≠ 'b' ∧ data.kind ≠ 'i' ∧ data.kind ≠ 'u' ∧ data.kind ≠ 'f' then
    (Ret.fail ("provided data matrix is not of a supported type"), self)
  else
    -- the check loop sets the error indicator and goes on
    let err : Option String :=
      if ((List.range (PyArray_NDIM data)).any fun i => bad_dim_code (dim_types.getD i ' ')) then
        some ("dimension type string includes an unrecognised code")
      else none
    let go (weight_i : Int) : Ret × MeanShift :=
      let dt := fill_dt junk dim_types (PyArray_NDIM data)
      let self1 := { self with dm := E.DataMatrix_set self.dm data dt weight_i }
      (Ret.none_with err, trash_all self1)
    match weight_index with
    | none => go (-1)
    | some PyObj.None => go (-1)
    | some (PyObj.Int v) => go (int_of_long v)
    | some _ => (Ret.fail ("weight index must be an integer"), self)

/-- `MeanShift_set_scale_py`; `weight_scale` is 1 when the optional argument is
left out. -/
def MeanShift_set_scale_py (E : Env) (self : MeanShift) (scale : PyArray) (weight_scale : ℚ) :
    Ret × MeanShift :=
  if PyArray_NDIM scale ≠ 1 ∨ scale.dims.getD 0 0 ≠ E.DataMatrix_features self.dm then
    (Ret.fail ("scale vector must be a simple 1D numpy array with length matching the number of features."), self)
  else
    let s := (List.range (scale.dims.getD 0 0)).map fun i => scale.data.getD i 0
    let self1 := { self with dm := E.DataMatrix_set_scale self.dm s weight_scale }
    (Ret.none_with none, trash_all self1)

/-- `MeanShift_weight`: the state after the call and the returned weight. -/
def MeanShift_weight (E : Env) (this : MeanShift) : MeanShift × ℚ :=
  let this1 := if this.weight < 0 then { this with weight := E.calc_weight this.dm } else this
  (this1, this1.weight)

/-! ## Bandwidth heuristics -/

/-- The loop `for (i=0; i<features; i++) self->dm.mult[i] = 1.0;`. -/
def reset_mult (features : Nat) (mult : List ℚ) : List ℚ :=
  (List.range features).foldl (fun m i => m.set i 1) mult

/-- One round of the inner loop over the features for an exemplar `(fv, w)`:
from the running total `weight` and the arrays `mean` and `sd` to the new
`mean` and `sd`. `delta` and `r` are computed from the old `mean[i]`. -/
def accumulate (features : Nat) (weight : ℚ) (mean sd fv : List ℚ) (w : ℚ) :
    List ℚ × List ℚ :=
  let temp := weight + w
  ((List.range features).map fun i =>
      let delta := fv.getD i 0 - mean.getD i 0
      let r := delta * w / temp
      mean.getD i 0 + r,
   (List.range features).map fun i =>
      let delta := fv.getD i 0 - mean.getD i 0
      let r := delta * w / temp
      sd.getD i 0 + weight * delta * r)

/-- The single pass over the exemplars shared by `stats`, `scale_silverman` and
`scale_scott`: the accumulated weight, `mean` and (unfinished) `sd`. -/
def single_pass (E : Env) (dm : DataMatrix) (exemplars features : Nat) : ℚ × List ℚ × List ℚ :=
  (List.range exemplars).foldl
    (fun st j =>
      let fvw := E.DataMatrix_fv dm j
      let ms := accumulate features st.1 st.2.1 st.2.2 fvw.1 fvw.2
      (st.1 + fvw.2, ms.1, ms.2))
    (0, List.replicate features 0, List.replicate features 0)

/-- The end of `scale_silverman` and `scale_scott`: spatial and balls are
trashed, then "Trash the normalising constant". -/
def trash_scaled (self : MeanShift) : MeanShift :=
  let self1 := if self.spatial ≠ none then { self with spatial := none } else self
  let self2 := if self1.balls ≠ none then { self1 with balls := none } else self1
  { self2 with norm := -1 }

/-- The scale vector that a bandwidth rule installs, given the constant
`mult` of the rule as a function of the accumulated weight and the feature
count. -/
def rule_scale (E : Env) (rule : ℚ → Nat → ℚ) (dm1 : DataMatrix) (exemplars features : Nat) :
    List ℚ :=
  let st := single_pass E dm1 exemplars features
  let weight := st.1
  let sd1 := (List.range features).map fun i => E.sqrt (st.2.2.getD i 0 / weight)
  let mult := rule weight features
  (List.range features).map fun i => 1 / (sd1.getD i 0 * mult)

/-- The constant of Silverman's rule,
`pow(weight * (features + 2.0) / 4.0, -1.0 / (features + 4.0))`. -/
def silverman_mult (E : Env) (weight : ℚ) (features : Nat) : ℚ :=
  E.pow (weight * ((features : ℚ) + 2) / 4) (-1 / ((features : ℚ) + 4))

/-- The constant of Scott's rule, `pow(weight, -1.0 / (features + 4.0))`. -/
def scott_mult (E : Env) (weight : ℚ) (features : Nat) : ℚ :=
  E.pow weight (-1 / ((features : ℚ) + 4))

/-- `MeanShift_scale_silverman_py`. -/
def MeanShift_scale_silverman_py (E : Env) (self : MeanShift) : Ret × MeanShift :=
  let exemplars := E.DataMatrix_exemplars self.dm
  let features := E.DataMatrix_features self.dm
  let dm1 := { self.dm with mult := reset_mult features self.dm.mult }
  let sd := rule_scale E (silverman_mult E) dm1 exemplars features
  let self1 := { self with dm := E.DataMatrix_set_scale dm1 sd dm1.weight_scale }
  (Ret.none_with none, trash_scaled self1)

/-- `MeanShift_scale_scott_py`. -/
def MeanShift_scale_scott_py (E : Env) (self : MeanShift) : Ret × MeanShift :=
  let exemplars := E.DataMatrix_exemplars self.dm
  let features := E.DataMatrix_features self.dm
  let dm1 := { self.dm with mult := reset_mult features self.dm.mult }
  let sd := rule_scale E (scott_mult E) dm1 exemplars features
  let self1 := { self with dm := E.DataMatrix_set_scale dm1 sd dm1.weight_scale }
  (Ret.none_with none, trash_scaled self1)

/-! ## Density queries -/

/-- The spatial instance a query works with: the one in place, or the one
`Spatial_new` builds when there is none. -/
def the_spatial (E : Env) (self : MeanShift) : Spatial :=
  match self.spatial with
  | some sp => sp
  | none => E.Spatial_new self.spatial_type self.dm

/-- The block "If spatial is null create it...". -/
def ensure_spatial (E : Env) (self : MeanShift) : MeanShift :=
  { self with spatial := some (the_spatial E self) }

/-- The block "Calculate the normalising term if needed...". -/
def ensure_norm (E : Env) (h : Heap) (self : MeanShift) : MeanShift :=
  if self.norm < 0 then
    let ww := MeanShift_weight E self
    { ww.1 with norm := E.calc_norm h ww.1.dm ww.1.kernel ww.1.config ww.2 }
  else self

/-- `MeanShift_prob_py`. -/
def MeanShift_prob_py (E : Env) (h : Heap) (self : MeanShift) (start : PyArray) :
    Ret × MeanShift :=
  let feats := E.DataMatrix_features self.dm
  if PyArray_NDIM start ≠ 1 ∨ start.dims.getD 0 0 ≠ feats then
    (Ret.fail ("input vector must be 1D with the same length as the number of features."), self)
  else
    let self1 := ensure_spatial E self
    let self2 := ensure_norm E h self1
    let fv := (List.range feats).map fun i => start.data.getD i 0 * self2.dm.mult.getD i 0
    let p := E.prob h (the_spatial E self2) self2.kernel self2.config fv self2.norm self2.quality
    (⟨some (PyObj.Float p), none⟩, self2)

/-- `MeanShift_loo_nll_py`; `limit` is 1e-16 when the optional argument is left
out. -/
def MeanShift_loo_nll_py (E : Env) (h : Heap) (self : MeanShift) (limit : ℚ) :
    Ret × MeanShift :=
  let self1 := ensure_spatial E self
  let self2 := ensure_norm E h self1
  let nll := E.loo_nll h (the_spatial E self2) self2.kernel self2.config self2.norm
    self2.quality limit
  (⟨some (PyObj.Float nll), none⟩, self2)

/-! ## Reachable states -/

/-- The states a façade can be in: those that the methods of `ms_c.c` reach
from `MeanShift_new`. Heaps, argument values and the other façades involved are
arbitrary. The methods that are not embedded one by one enter through their
effect on the façade:
`density` is `probs`, which runs the two blocks of `prob`;
`indexed` is `mode`, `modes`, `modes_data`, `manifold`, `manifolds`,
`manifolds_data`, `assign_cluster`, `assign_clusters` and, for a multiplicand,
`mult`, which at most build the spatial;
`cluster` builds the spatial and replaces the balls;
`members` is an assignment to the members table (`quality` to
`merge_check_step`). -/
inductive Reachable (E : Env) : MeanShift → Prop where
  | new : Reachable E (MeanShift_new E)
  | set_kernel {s} (h : Heap) (kname : CStr) :
      Reachable E s → Reachable E (MeanShift_set_kernel_py E h s kname).2.2
  | copy_kernel {s} (h : Heap) (mem : Nat → MeanShift) (self other : Nat) :
      mem self = s → Reachable E s →
      Reachable E ((MeanShift_copy_kernel_py h mem self other).2.2 self)
  | set_spatial {s} (sname : CStr) :
      Reachable E s → Reachable E (MeanShift_set_spatial_py E s sname).2
  | set_balls {s} (bname : CStr) :
      Reachable E s → Reachable E (MeanShift_set_balls_py E s bname).2
  | set_data {s} (junk : Nat → DimType) (data : PyArray) (dim_types : CStr)
      (weight_index : Option PyObj) :
      Reachable E s → Reachable E (MeanShift_set_data_py E junk s data dim_types weight_index).2
  | set_scale {s} (scale : PyArray) (weight_scale : ℚ) :
      Reachable E s → Reachable E (MeanShift_set_scale_py E s scale weight_scale).2
  | weight {s} : Reachable E s → Reachable E (MeanShift_weight E s).1
  | scale_silverman {s} : Reachable E s → Reachable E (MeanShift_scale_silverman_py E s).2
  | scale_scott {s} : Reachable E s → Reachable E (MeanShift_scale_scott_py E s).2
  | prob {s} (h : Heap) (start : PyArray) :
      Reachable E s → Reachable E (MeanShift_prob_py E h s start).2
  | loo_nll {s} (h : Heap) (limit : ℚ) :
      Reachable E s → Reachable E (MeanShift_loo_nll_py E h s limit).2
  | density {s} (h : Heap) : Reachable E s → Reachable E (ensure_norm E h (ensure_spatial E s))
  | indexed {s} : Reachable E s → Reachable E (ensure_spatial E s)
  | cluster {s} (b : Balls) :
      Reachable E s → Reachable E { ensure_spatial E s with balls := some b }
  | members {s} (quality epsilon ident_dist merge_range : ℚ) (iter_cap merge_check_step : Int) :
      Reachable E s →
      Reachable E { s with quality := quality, epsilon := epsilon, iter_cap := iter_cap,
                           ident_dist := ident_dist, merge_range := merge_range,
                           merge_check_step := merge_check_step }

/-- Modelled from the spec: `calc_weight` is missing from the sources; the spec
gives the total weight as W = Σᵢ wᵢ · weight_scale, a value in which the scale
vector `mult` does not occur. The two fields say so for the two ways `ms_c.c`
changes `mult` alone: a direct write to `dm.mult`, and `DataMatrix_set_scale`
called with the weight scale already in force. -/
structure Env.WeightIgnoresMult (E : Env) : Prop where
  mult_write : ∀ (dm : DataMatrix) (m : List ℚ),
    E.calc_weight { dm with mult := m } = E.calc_weight dm
  set_scale : ∀ (dm : DataMatrix) (s : List ℚ),
    E.calc_weight (E.DataMatrix_set_scale dm s dm.weight_scale) = E.calc_weight dm

/-- The cached total weight is unset or is the total weight of the data matrix
in place. -/
def WeightCoherent (E : Env) (s : MeanShift) : Prop :=
  s.weight < 0 ∨ s.weight = E.calc_weight s.dm

/-! ## A small environment

A concrete instance of `Env`, used to run the methods on explicit inputs. Its
data matrix follows the data model of the spec in the simplest way; its
kernels are a parameterless `uniform` and a `fisher` that takes a bracketed
parameter. -/

/-- Modelled from the spec: `config_release` (decrement; free at zero). A
`NULL` configuration is left alone. -/
def Config_release (c : KernelConfig) (h : Heap) : Heap :=
  match c with
  | none => h
  | some a =>
    match h.get? a with
    | none => h
    | some cell =>
      if cell.share ≤ 1 then h.set a { cell with share := 0, live := false }
      else h.set a { cell with share := cell.share - 1 }

/-- Modelled from the spec: `config_acquire` (increment share). -/
def Config_acquire (c : KernelConfig) (h : Heap) : Heap :=
  match c with
  | none => h
  | some a =>
    match h.get? a with
    | none => h
    | some cell => h.set a { cell with share := cell.share + 1 }

/-- Modelled from the spec: `config_new(dims, parameter_string)` allocates a
configuration object held once. -/
def Config_new (dims : Nat) (param : CStr) (h : Heap) : KernelConfig × Heap :=
  (some h.length, h ++ [{ share := 1, live := true, dims := dims, param := param }])

/-- A kernel without configuration, as `Uniform` is ("We know this is valid for
the Uniform kernel": its config is `NULL`). -/
def sampleUniform : Kernel :=
  { name := ['u', 'n', 'i', 'f', 'o', 'r', 'm']
    description := []
    configuration := none
    config_verify := fun _ _ => none
    config_new := fun _ _ h => (none, h)
    config_acquire := fun _ h => h
    config_release := fun _ h => h }

/-- A kernel with a configuration, named as the `fisher(alpha)` of the
`set_kernel` doc string; it accepts a suffix that opens with a bracket. -/
def sampleFisher : Kernel :=
  { name := ['f', 'i', 's', 'h', 'e', 'r']
    description := []
    configuration := some ['(', 'a', 'l', 'p', 'h', 'a', ')']
    config_verify := fun _ s => if s.head? = some '(' then none else some ("bad parameter")
    config_new := Config_new
    config_acquire := Config_acquire
    config_release := Config_release }

/-- The k-d tree indexing type. -/
def sampleKDTree : SpatialType := { name := ['k', 'd', '_', 't', 'r', 'e', 'e'], description := [] }

/-- The brute force indexing type. -/
def sampleBrute : SpatialType :=
  { name := ['b', 'r', 'u', 't', 'e', '_', 'f', 'o', 'r', 'c', 'e'], description := [] }

/-- The hash balls type. -/
def sampleHash : BallsType := { name := ['h', 'a', 's', 'h'], description := [] }

/-- The list balls type. -/
def sampleList : BallsType := { name := ['l', 'i', 's', 't'], description := [] }

/-- Product of the lengths of the axes of the given tags. -/
def axes_product (dims : List Nat) (dt : List DimType) (keep : DimType → Bool) : Nat :=
  ((dims.zip dt).map fun p => if keep p.2 then p.1 else 1).prod

/-- The sample array of `sampleArray` below seen as two exemplars of two
features, at unit scale. -/
def sampleDataMatrix : DataMatrix :=
  { array := some { kind := 'f', dims := [2, 2], data := [0, 1, 2, 5] },
    dt := [DimType.DIM_DATA, DimType.DIM_FEATURE],
    weight_index := -1, mult := [1, 1], weight_scale := 1, feats := 2 }

/-- The sample environment. -/
def sampleEnv : Env :=
  { ListKernel := [sampleUniform, sampleFisher]
    ListSpatial := [sampleBrute, sampleKDTree]
    ListBalls := [sampleList, sampleHash]
    Uniform := sampleUniform
    KDTreeType := sampleKDTree
    BallsHashType := sampleHash
    DataMatrix_init :=
      { array := none, dt := [], weight_index := -1, mult := [], weight_scale := 1, feats := 0 }
    DataMatrix_set := fun _ a dt w =>
      let full := axes_product a.dims dt (fun t => t == DimType.DIM_FEATURE)
        + (dt.filter fun t => t == DimType.DIM_DUAL).length
      let feats := if 0 ≤ w ∧ w < full then full - 1 else full
      { array := some a, dt := dt, weight_index := w, mult := List.replicate feats 1,
        weight_scale := 1, feats := feats }
    DataMatrix_set_scale := fun dm s ws => { dm with mult := s.take dm.feats, weight_scale := ws }
    DataMatrix_features := fun dm => dm.feats
    DataMatrix_exemplars := fun dm =>
      match dm.array with
      | none => 0
      | some a => axes_product a.dims dm.dt (fun t => t != DimType.DIM_FEATURE)
    DataMatrix_fv := fun dm i =>
      match dm.array with
      | none => ([], dm.weight_scale)
      | some a =>
        ((List.range dm.feats).map fun j => a.data.getD (i * dm.feats + j) 0 * dm.mult.getD j 0,
          dm.weight_scale)
    Spatial_new := fun t dm => { type := t, dm := dm }
    calc_weight := fun dm =>
      match dm.array with
      | none => 0
      | some a => (axes_product a.dims dm.dt (fun t => t != DimType.DIM_FEATURE) : ℚ) * dm.weight_scale
    calc_norm := fun _ dm _ _ w => w * (dm.mult.map fun m => 1 / m).prod
    prob := fun _ _ _ _ _ norm _ => 1 / norm
    loo_nll := fun _ _ _ _ _ _ limit => limit
    sqrt := fun x => x
    pow := fun x _ => x
    DataMatrix_draw := fun dm _ _ _ k =>
      match dm.array with
      | none => 0
      | some a => k % axes_product a.dims dm.dt (fun t => t != DimType.DIM_FEATURE)
    draw := fun _ dm _ _ i0 i1 i2 =>
      match dm.array with
      | none => []
      | some a =>
        let i := i2 % axes_product a.dims dm.dt (fun t => t != DimType.DIM_FEATURE)
        (List.range dm.feats).map fun j =>
          a.data.getD (i * dm.feats + j) 0 + ((i0 + i1 + j : Nat) : ℚ) / 8 / dm.mult.getD j 0
    assign_cluster := fun _ _ _ _ b _ _ _ _ _ => if b.pos = [] then -1 else 0
    cluster := fun _ sp _ _ _ _ _ _ _ _ _ =>
      ([(List.range sp.dm.feats).map fun j => ((j + 1 : Nat) : ℚ)], [0, 0])
    MultCache_new :=
      { rng_index0 := 0, rng_index1 := 0, gibbs_samples := 16, mci_samples := 64,
        mh_proposals := 8, rest := 0 }
    mult := fun _ _ _ terms sl mc _ fake =>
      ((List.range (sl.headD { type := sampleKDTree, dm := sampleDataMatrix }).dm.feats).map
          fun j => ((terms + j + mc.rest : Nat) : ℚ) + fake,
        { mc with rest := mc.rest + 1 }) }

/-- A two by two array of floats. -/
def sampleArray : PyArray := { kind := 'f', dims := [2, 2], data := [0, 1, 2, 5] }

/-- A façade of the sample environment that holds `sampleArray` as two
exemplars of two features, after a density query and a clustering: spatial and
balls are in place, total weight and normaliser are cached. -/
def sampleState : MeanShift :=
  { kernel := sampleUniform
    config := none
    name := none
    spatial_type := sampleKDTree
    balls_type := sampleHash
    dm := { array := some sampleArray, dt := [DimType.DIM_DATA, DimType.DIM_FEATURE],
            weight_index := -1, mult := [1, 1], weight_scale := 1, feats := 2 }
    weight := 2
    norm := 2
    spatial := some { type := sampleKDTree,
                      dm := { array := some sampleArray,
                              dt := [DimType.DIM_DATA, DimType.DIM_FEATURE],
                              weight_index := -1, mult := [1, 1], weight_scale := 1, feats := 2 } }
    balls := some { type := sampleHash, dims := 2, range := 1 / 2, pos := [[1, 3]] }
    quality := 1 / 2
    epsilon := 1 / 1000
    iter_cap := 1024
    ident_dist := 0
    merge_range := 1 / 2
    merge_check_step := 4 }

/-- A façade that has had `set_kernel("fisher(4)")` applied on the empty heap:
it holds the configuration at address 0. -/
def sampleFisherState : MeanShift :=
  { sampleState with
    kernel := sampleFisher
    config := some 0
    name := some ['f', 'i', 's', 'h', 'e', 'r', '(', '4', ')']
    norm := -1 }

/-- The heap on which `sampleFisherState` holds its configuration. -/
def sampleHeap : Heap := [{ share := 1, live := true, dims := 2, param := ['(', '4', ')'] }]

/-- A store with `sampleState` at address 0 and `sampleFisherState` elsewhere. -/
def sampleMem : Nat → MeanShift := fun a => if a = 0 then sampleState else sampleFisherState

/-- The content of freshly allocated memory used on the explicit inputs. -/
def sampleJunk : Nat → DimType := fun i => DimType.DIM_OTHER i

/-- A scale vector of two entries. -/
def sampleScale : PyArray := { kind := 'f', dims := [2], data := [1, 2] }

/-- Written from the spec's words (`by_name`: "longest-prefix match on name";
"Matching is longest-registered-prefix"): among the registered kernels whose
name is a prefix of `s`, one whose name is longest, the earliest such in the
table. -/
def spec_by_name (L : List Kernel) (s : CStr) : Option Kernel :=
  (L.filter fun k => k.name.isPrefixOf s).foldl
    (fun best k =>
      match best with
      | none => some k
      | some b => if b.name.length < k.name.length then some k else some b)
    none

/-- A kernel named `gauss` that takes any parameter string and keeps it in its
configuration. -/
def sampleGauss : Kernel :=
  { name := ['g', 'a', 'u', 's', 's']
    description := []
    configuration := some ['(', 's', 'd', ')']
    config_verify := fun _ _ => none
    config_new := Config_new
    config_acquire := Config_acquire
    config_release := Config_release }

/-- A kernel named `gaussian` without parameters. -/
def sampleGaussian : Kernel :=
  { sampleUniform with name := ['g', 'a', 'u', 's', 's', 'i', 'a', 'n'] }

/-- The sample environment with a kernel table in which one registered name is
a prefix of a later one. -/
def nestedEnv : Env := { sampleEnv with ListKernel := [sampleGauss, sampleGaussian] }

/-- A one-dimensional array of two floats. -/
def sampleVector : PyArray := { kind := 'f', dims := [2], data := [1, 2] }

/-- The normaliser a façade computes when nothing is cached:
`calc_norm(dm, kernel, config, calc_weight(dm))` on the data matrix, kernel and
configuration in place. -/
def fresh_norm (E : Env) (h : Heap) (s : MeanShift) : ℚ :=
  E.calc_norm h s.dm s.kernel s.config (E.calc_weight s.dm)

/-- The feature vector `prob` hands to the density: the entries of `start`
times the scale. -/
def scaled_query (E : Env) (s : MeanShift) (start : PyArray) : List ℚ :=
  (List.range (E.DataMatrix_features s.dm)).map fun i =>
    start.data.getD i 0 * s.dm.mult.getD i 0

/-- What a `prob` call in state `s` does about the normaliser when it finds it
unset and recomputes the fresh one: the normaliser is unset in `s`, the call
leaves `fresh_norm` cached, and the returned probability is the density
evaluated with `fresh_norm`. -/
def ProbRecomputesNorm (E : Env) (hp : Heap) (s : MeanShift) (start : PyArray) : Prop :=
  s.norm < 0 ∧
  (MeanShift_prob_py E hp s start).2.norm = fresh_norm E hp s ∧
  (MeanShift_prob_py E hp s start).1 =
    ⟨some (PyObj.Float (E.prob hp (the_spatial E s) s.kernel s.config (scaled_query E s start)
      (fresh_norm E hp s) s.quality)), none⟩

/-- The argument check of `prob`: a one-dimensional array as long as the
feature count. -/
def ProbAccepts (E : Env) (s : MeanShift) (start : PyArray) : Prop :=
  PyArray_NDIM start = 1 ∧ start.dims.getD 0 0 = E.DataMatrix_features s.dm

/-- The sample façade as reached from a new one: the sample array is set as
two exemplars of two features and a density is queried, which leaves the
spatial, the total weight and the normaliser cached. -/
def sampleReached : MeanShift :=
  (MeanShift_prob_py sampleEnv []
    (MeanShift_set_data_py sampleEnv sampleJunk (MeanShift_new sampleEnv) sampleArray
      ['d', 'f'] none).2 sampleVector).2

/-! ## Statistics -/

/-- `MeanShift_stats_py`: the arrays `mean` and `sd` of the returned tuple. The
method has no failing path and leaves the façade as it is. -/
def MeanShift_stats_py (E : Env) (self : MeanShift) : List ℚ × List ℚ :=
  let exemplars := E.DataMatrix_exemplars self.dm
  let features := E.DataMatrix_features self.dm
  let st := single_pass E self.dm exemplars features
  -- Safety, for if they are all outliers.
  let total := if st.1 < 1 / 1000000 then 1 / 1000000 else st.1
  ((List.range features).map fun j => st.2.1.getD j 0 / self.dm.mult.getD j 0,
   (List.range features).map fun j => E.sqrt (st.2.2.getD j 0 / total) / self.dm.mult.getD j 0)

/-- The recurrence of the single pass for one feature: from the values `x i` of
the feature and the weights `w i` of the first `n` exemplars to the running
total, the running mean and the running sum of squares. -/
def welford (x w : Nat → ℚ) : Nat → ℚ × ℚ × ℚ
  | 0 => (0, 0, 0)
  | n + 1 =>
    let st := welford x w n
    let temp := st.1 + w n
    let delta := x n - st.2.1
    let r := delta * w n / temp
    (temp, st.2.1 + r, st.2.2 + st.1 * delta * r)

/-- Written from the spec's words ("naïve two-pass computation"): the total
weight of the first `n` exemplars. -/
def two_pass_total (w : Nat → ℚ) (n : Nat) : ℚ := ∑ i ∈ Finset.range n, w i

/-- Written from the spec's words: the weighted mean of a feature, first pass. -/
def two_pass_mean (x w : Nat → ℚ) (n : Nat) : ℚ :=
  (∑ i ∈ Finset.range n, w i * x i) / two_pass_total w n

/-- Written from the spec's words: the weighted population variance of a
feature, second pass around the mean of the first. -/
def two_pass_var (x w : Nat → ℚ) (n : Nat) : ℚ :=
  (∑ i ∈ Finset.range n, w i * (x i - two_pass_mean x w n) ^ 2) / two_pass_total w n

/-- Value `j` of the feature vector of exemplar `i`, as `DataMatrix_fv` presents
it. -/
def fv_at (E : Env) (dm : DataMatrix) (j i : Nat) : ℚ := (E.DataMatrix_fv dm i).1.getD j 0

/-- Weight of exemplar `i`, as `DataMatrix_fv` returns it. -/
def weight_at (E : Env) (dm : DataMatrix) (i : Nat) : ℚ := (E.DataMatrix_fv dm i).2

/-- The data matrix on which the bandwidth rules run their pass: the scale has
been reset to 1 for the features. -/
def unit_scaled (E : Env) (dm : DataMatrix) : DataMatrix :=
  { dm with mult := reset_mult (E.DataMatrix_features dm) dm.mult }

/-- Modelled from the spec: `DataMatrix_set_scale` is missing from the sources;
the spec gives it as `set_scale(mult[], weight_scale)`, which stores the scale
vector and the weight scale it is handed. -/
structure Env.SetScaleStores (E : Env) : Prop where
  mult : ∀ (dm : DataMatrix) (s : List ℚ) (ws : ℚ), (E.DataMatrix_set_scale dm s ws).mult = s
  weight_scale : ∀ (dm : DataMatrix) (s : List ℚ) (ws : ℚ),
    (E.DataMatrix_set_scale dm s ws).weight_scale = ws

/-! ## Sampling -/

/-- The entry `PyArray_GETPTR2(a, k, j)` of a two-dimensional array whose rows
have `cols` entries. -/
def PyArray_GETPTR2 (a : PyArray) (cols k j : Nat) : ℚ := a.data.getD (k * cols + j) 0

/-- The value of a C `unsigned int` counter that has been incremented `k`
times from 0. -/
def uint_of (k : Nat) : Nat := k % 4294967296

/-- The `feats` floats that a callee writes through the pointer `out`. -/
def written (feats : Nat) (out : List ℚ) : List ℚ := (List.range feats).map fun j => out.getD j 0

/-- `MeanShift_draw_py`: the returned array; the second and third index words
are 0 when left out. -/
def MeanShift_draw_py (E : Env) (h : Heap) (self : MeanShift) (i0 i1 i2 : Nat) : PyArray :=
  let feats := E.DataMatrix_features self.dm
  { kind := 'f', dims := [feats],
    data := written feats (E.draw h self.dm self.kernel self.config i0 i1 i2) }

/-- How a call ends when its loop is followed for a bounded number of rounds:
it returns, it dereferences a `NULL` pointer, or the loop has not ended within
the rounds allowed. -/
inductive Run (α : Type) where
  | done (a : α)
  | crash
  | out_of_fuel
  deriving DecidableEq

/-- The value of `npy_intp shape[0]` after `PyArg_ParseTuple` has stored the
count through `&shape[0]` with the format `i`. `shape` is a local array that is
not initialised; `i` stores a C `int`, four bytes, where `npy_intp` has eight
(a 64-bit build, low bytes first): the low half of the word is `n` in two's
complement, the high half is `high`, what the stack held, and the word is read
as a signed integer. -/
def parse_i_into_intp (high : Nat) (n : Int) : Int :=
  let word := (high % 4294967296) * 4294967296 + (n % 4294967296).toNat
  if word < 9223372036854775808 then (word : Int) else (word : Int) - 18446744073709551616

/-- `PyArray_SimpleNew(2, shape, NPY_FLOAT32)` as its caller sees it: `NULL`
when `shape[0]` is negative or when the allocator cannot supply the
`shape[0] * shape[1]` floats (it has `avail`), else a new array of that shape,
whose memory is taken as zeros. -/
def PyArray_SimpleNew2 (avail : Nat) (shape0 : Int) (shape1 : Nat) : Option PyArray :=
  if shape0 < 0 ∨ avail < shape0.toNat * shape1 then none
  else some { kind := 'f', dims := [shape0.toNat, shape1],
              data := List.replicate (shape0.toNat * shape1) 0 }

/-- The loop `for (c=0; c<shape[0]; c++)` of `MeanShift_draws_py` (the counter
is `index[2]`) and of `MeanShift_bootstrap_py` (`index[3]`), followed for at
most `fuel` tests of its condition, from the counter `c` and the rows `rows`
of `ret`. The counter is an `unsigned int`, so `c++` wraps at 2^32; the
condition compares it with the `npy_intp` `shape[0]`. A round writes `row c`
to row `c`; with `deref_null` it reads through a `NULL` pointer instead. -/
def rows_loop (row : Nat → List ℚ) (deref_null : Bool) (shape0 : Int) :
    Nat → Nat → (Nat → List ℚ) → Run (Nat → List ℚ)
  | 0, _, _ => Run.out_of_fuel
  | fuel + 1, c, rows =>
    if (c : Int) < shape0 then
      if deref_null then Run.crash
      else rows_loop row deref_null shape0 fuel (uint_of (c + 1)) (Function.update rows c (row c))
    else Run.done rows

/-- `MeanShift_draws_py`: how the call ends, and the array it returns (`none`
is `NULL`), for the count `n` of the caller, the upper half `high` of the slot
of `shape[0]`, `avail` floats of memory and `fuel` rounds of the loop. The
format `i` refuses a count outside the range of `int`. `PyArray_GETPTR2(ret,
index[2], 0)` is evaluated in each round. -/
def MeanShift_draws_py (E : Env) (h : Heap) (self : MeanShift) (fuel avail high : Nat) (n : Int)
    (i0 i1 : Nat) : Run (Option PyArray) :=
  if n < -2147483648 ∨ 2147483647 < n then Run.done none
  else
    let shape0 := parse_i_into_intp high n
    let feats := E.DataMatrix_features self.dm
    let ret := PyArray_SimpleNew2 avail shape0 feats
    match rows_loop (fun k => written feats (E.draw h self.dm self.kernel self.config i0 i1 k))
        ret.isNone shape0 fuel 0 (fun _ => List.replicate feats 0) with
    | Run.done rows =>
      Run.done (ret.map fun a => { a with data := (List.range shape0.toNat).flatMap rows })
    | Run.crash => Run.crash
    | Run.out_of_fuel => Run.out_of_fuel

/-- `MeanShift_bootstrap_py`: how the call ends, and the array it returns, with
the parameters of `MeanShift_draws_py`. The loop counter is the fourth word of
the rng index; `ret` is read in the inner loop over the features only. -/
def MeanShift_bootstrap_py (E : Env) (self : MeanShift) (fuel avail high : Nat) (n : Int)
    (i0 i1 i2 : Nat) : Run (Option PyArray) :=
  if n < -2147483648 ∨ 2147483647 < n then Run.done none
  else
    let shape0 := parse_i_into_intp high n
    let feats := E.DataMatrix_features self.dm
    let ret := PyArray_SimpleNew2 avail shape0 feats
    match rows_loop
        (fun k =>
          let ind := E.DataMatrix_draw self.dm i0 i1 i2 k
          let fv := (E.DataMatrix_fv self.dm ind).1
          (List.range feats).map fun i => fv.getD i 0 / self.dm.mult.getD i 0)
        (ret.isNone && decide (0 < feats)) shape0 fuel 0 (fun _ => List.replicate feats 0) with
    | Run.done rows =>
      Run.done (ret.map fun a => { a with data := (List.range shape0.toNat).flatMap rows })
    | Run.crash => Run.crash
    | Run.out_of_fuel => Run.out_of_fuel

/-! ## Product of densities -/

/-- An entry of the Python list handed to `mult`: a `MeanShift` object, given
by its address in the store, or an object of another type. -/
inductive ListItem where
  | MeanShift (addr : Nat)
  | Other
  deriving DecidableEq, Repr

/-- The checks of the loop `for (i=1; i<terms; i++)` of `MeanShift_mult_py` on
the entries still to be visited: the message of the first error, if any. The
variable `longest`, which only sizes scratch memory, is left out. -/
def mult_check_rest (E : Env) (mem : Nat → MeanShift) (dims : Nat) :
    List ListItem → Option String
  | [] => none
  | ListItem.Other :: _ =>
    some ("Multiplicand list contains an entity that is not a MeanShift object")
  | ListItem.MeanShift a :: rest =>
    if E.DataMatrix_features (mem a).dm ≠ dims then
      some ("All the input KDEs must have the same number of features (dimensions)")
    else if E.DataMatrix_exemplars (mem a).dm = 0 then
      some ("Item in multiplicand list has no exemplars in its KDE")
    else mult_check_rest E mem dims rest

/-- The part "Verify the parameters are all good..." of `MeanShift_mult_py`: the
message of the first check that fails, `none` when all pass. Each failing check
is `PyErr_SetString(...); return NULL;` and nothing is written before the last
one has passed. -/
def mult_check (E : Env) (mem : Nat → MeanShift) (multiplicands : List ListItem)
    (output : PyArray) (gibbs mci mh fake : Int) : Option String :=
  match multiplicands with
  | [] => some ("Need some MeanShift objects to multiply")
  | ListItem.Other :: _ => some ("First item in multiplicand list is not a MeanShift object")
  | ListItem.MeanShift a0 :: rest =>
    let dims := E.DataMatrix_features (mem a0).dm
    if E.DataMatrix_exemplars (mem a0).dm = 0 then
      some ("First item in multiplicand list has no exemplars in its KDE")
    else
      match mult_check_rest E mem dims rest with
      | some e => some e
      | none =>
        if PyArray_NDIM output ≠ 2 then some ("Output array must have two dimensions")
        else if output.dims.getD 1 0 ≠ dims then
          some ("Output array must have the same number of colums as the input KDEs have features")
        else if gibbs < 1 then some ("gibbs sampling count must be positive")
        else if mci < 1 then some ("monte carlo integration sampling count must be positive")
        else if mh < 1 then some ("Metropolis Hastings proposal count must be positive")
        else if fake < 0 ∨ fake > 2 then some ("fake parameter must be 0, 1 or 2")
        else none

/-- The loop "Make sure all the MeanShift objects have a Spatial initialised;
create the list of Spatials": the store after it and the list `sl`. -/
def mult_spatials (E : Env) : (Nat → MeanShift) → List ListItem → (Nat → MeanShift) × List Spatial
  | mem, [] => (mem, [])
  | mem, ListItem.Other :: rest => mult_spatials E mem rest
  | mem, ListItem.MeanShift a :: rest =>
    let mem1 := Function.update mem a (ensure_spatial E (mem a))
    let r := mult_spatials E mem1 rest
    (r.1, the_spatial E (mem a) :: r.2)

/-- The loop that calls `mult` once for each row of the output: the rows
written so far and the cache, after `n` rows. -/
def mult_rows (E : Env) (h : Heap) (self : MeanShift) (terms : Nat) (sl : List Spatial)
    (fake : Int) (feats : Nat) (mc : MultCache) : Nat → List ℚ × MultCache
  | 0 => ([], mc)
  | n + 1 =>
    let st := mult_rows E h self terms sl fake feats mc n
    let r := E.mult h self.kernel self.config terms sl st.2 self.quality fake
    (st.1 ++ written feats r.1, r.2)

/-- `MeanShift_mult_py`: what it returns, the store of façades and the output
array after the call. The output array is two-dimensional with rows of floats
once the checks have passed; every row of it is written. Within the method
`self` is the first entry of the list. The row loops are taken to end: their
counters are an `unsigned int` and an `int`, which reach the row count of the
output when it is below 2^31. -/
def MeanShift_mult_py (E : Env) (h : Heap) (mem : Nat → MeanShift)
    (multiplicands : List ListItem) (output : PyArray) (rng0 rng1 : Nat)
    (gibbs mci mh fake : Int) : Ret × (Nat → MeanShift) × PyArray :=
  match mult_check E mem multiplicands output gibbs mci mh fake with
  | some e => (Ret.fail e, mem, output)
  | none =>
    let terms := multiplicands.length
    let self :=
      match multiplicands.head? with
      | some (ListItem.MeanShift a0) => mem a0
      | _ => mem 0
    let dims := E.DataMatrix_features self.dm
    if terms = 1 then
      let rows := (List.range (output.dims.getD 0 0)).flatMap fun k =>
        written dims (E.draw h self.dm self.kernel self.config rng0 rng1 (uint_of k))
      (Ret.none_with none, mem, { output with data := rows })
    else
      let mc := { E.MultCache_new with
        rng_index0 := rng0, rng_index1 := rng1, gibbs_samples := gibbs, mci_samples := mci,
        mh_proposals := mh }
      let sp := mult_spatials E mem multiplicands
      let rows := mult_rows E h self terms sp.2 fake dims mc (output.dims.getD 0 0)
      (Ret.none_with none, sp.1, { output with data := rows.1 })

/-- Modelled from the spec: `Balls_new` is missing from the sources; a balls
index is made for a type, a dimension and a merge range and holds no point. -/
def Balls_new (type : BallsType) (dims : Nat) (range : ℚ) : Balls :=
  { type := type, dims := dims, range := range, pos := [] }

/-- Modelled from the spec: `count()` of the balls index. -/
def Balls_count (b : Balls) : Nat := b.pos.length

/-- Modelled from the spec: `dims() → F` of the balls index. -/
def Balls_dims (b : Balls) : Nat := b.dims

/-- Modelled from the spec: `pos(id) → stored vector` of the balls index. -/
def Balls_pos (b : Balls) (i : Nat) : List ℚ := b.pos.getD i []

/-- The two loops of `cluster`, `modes_data` and `manifolds_data` over the
dimensions of the array of the data matrix: the lengths of those that are not
feature dimensions, in order. Without an array the source reads through
`NULL`; the model then sees no dimension. -/
def non_feature_dims (dm : DataMatrix) : List Nat :=
  match dm.array with
  | none => []
  | some a =>
    (List.range (PyArray_NDIM a)).filterMap fun i =>
      if dm.dt.getD i DimType.DIM_DATA ≠ DimType.DIM_FEATURE then some (a.dims.getD i 0) else none

/-- `MeanShift_cluster_py`: the arrays `modes` and `index` of the returned tuple
and the façade after the call. The method has no failing path. -/
def MeanShift_cluster_py (E : Env) (h : Heap) (self : MeanShift) :
    (PyArray × PyArray) × MeanShift :=
  let self1 := ensure_spatial E self
  let dims := non_feature_dims self1.dm
  -- Create the balls: the old ones are deleted
  let balls0 := Balls_new self1.balls_type self1.dm.feats self1.merge_range
  let r := E.cluster h (the_spatial E self1) self1.kernel self1.config balls0 self1.quality
    self1.epsilon self1.iter_cap self1.ident_dist self1.merge_range self1.merge_check_step
  let balls := { balls0 with pos := r.1 }
  let self2 := { self1 with balls := some balls }
  let index : PyArray := { kind := 'i', dims := dims, data := r.2.map fun c => (c : ℚ) }
  let dims0 := Balls_count balls
  let dims1 := Balls_dims balls
  let modes : PyArray :=
    { kind := 'f', dims := [dims0, dims1],
      data := (List.range dims0).flatMap fun i =>
        (List.range dims1).map fun j => (Balls_pos balls i).getD j 0 / self2.dm.mult.getD j 0 }
  ((modes, index), self2)

/-- `MeanShift_assign_cluster_py`. -/
def MeanShift_assign_cluster_py (E : Env) (h : Heap) (self : MeanShift) (start : PyArray) :
    Ret × MeanShift :=
  let feats := E.DataMatrix_features self.dm
  if PyArray_NDIM start ≠ 1 ∨ start.dims.getD 0 0 ≠ feats then
    (Ret.fail ("input vector must be 1D with the same length as the number of features."), self)
  else
    match self.balls with
    | none =>
      (Ret.fail ("the cluster method must be run before the assign_cluster method."), self)
    | some balls =>
      let fv := (List.range feats).map fun i => start.data.getD i 0 * self.dm.mult.getD i 0
      let self1 := ensure_spatial E self
      let cluster := E.assign_cluster h (the_spatial E self1) self1.kernel self1.config balls fv
        self1.quality self1.epsilon self1.iter_cap self1.merge_check_step
      (⟨some (PyObj.Int cluster), none⟩, self1)

/-- `MeanShift_assign_clusters_py`. -/
def MeanShift_assign_clusters_py (E : Env) (h : Heap) (self : MeanShift) (start : PyArray) :
    Ret × MeanShift :=
  let feats := E.DataMatrix_features self.dm
  if PyArray_NDIM start ≠ 2 ∨ start.dims.getD 1 0 ≠ feats then
    (Ret.fail ("input vector must be 2D with the second dimension the same length as the number of features."), self)
  else
    match self.balls with
    | none =>
      (Ret.fail ("the cluster method must be run before the assign_cluster method."), self)
    | some balls =>
      let self1 := ensure_spatial E self
      let out := (List.range (start.dims.getD 0 0)).map fun i =>
        let fv := (List.range feats).map fun j =>
          PyArray_GETPTR2 start feats i j * self1.dm.mult.getD j 0
        let c := E.assign_cluster h (the_spatial E self1) self1.kernel self1.config balls fv
          self1.quality self1.epsilon self1.iter_cap self1.merge_check_step
        (c : ℚ)
      (⟨some (PyObj.Array { kind := 'i', dims := [start.dims.getD 0 0], data := out }), none⟩,
        self1)

/-- Written from the spec's words ("shaped by the DATA/DUAL axes of the source
array"): the lengths of the axes of an array whose tag is not FEATURE, in their
original order. -/
def spec_assignment_shape : List Nat → List DimType → List Nat
  | d :: ds, t :: ts =>
    if t = DimType.DIM_FEATURE then spec_assignment_shape ds ts
    else d :: spec_assignment_shape ds ts
  | _, _ => []

/-- An output array of two rows and two columns for `mult`. -/
def sampleOutput : PyArray := { kind := 'f', dims := [2, 2], data := [9, 9, 9, 9] }

/-- A square root on the rationals that is exact at 0, 1, 4, 9 and 16, for use
on explicit inputs. -/
def sample_sqrt (y : ℚ) : ℚ :=
  if y = 4 then 2 else if y = 9 then 3 else if y = 16 then 4 else y

/-- The sample environment with that square root and with a
`DataMatrix_set_scale` that stores the whole vector it is handed. -/
def exactEnv : Env :=
  { sampleEnv with
    DataMatrix_set_scale := fun dm s ws => { dm with mult := s, weight_scale := ws }
    sqrt := sample_sqrt }

/-- The sample façade with the scale 2 for the first feature and 1/2 for the
second. -/
def sampleScaled : MeanShift :=
  { sampleState with
    dm := { sampleDataMatrix with mult := [2, 1 / 2] }
    spatial := none, balls := none, weight := -1, norm := -1 }

/-- The raw value of feature `j` of exemplar `i` of the sample array. -/
def sampleRaw (j i : Nat) : ℚ := sampleArray.data.getD (i * 2 + j) 0

/-! ## Weight channel, scratch buffers and coherence predicates -/

/-- `MeanShift_get_weight_dim_py`. The source builds the result with
`Py_BuildValue("f", self->dm.weight_index)`: the format `f` reads a C `double`
from the variadic arguments where an `int` has been passed, so the value of the
Python float that comes out is not given by the index. `va_double` stands for
what that read produces. -/
def MeanShift_get_weight_dim_py (va_double : Int → ℚ) (self : MeanShift) : Ret :=
  if self.dm.weight_index ≥ 0 then
    ⟨some (PyObj.Float (va_double self.dm.weight_index)), none⟩
  else Ret.none_with none

/-- The array `dims` that `modes_data` and `manifolds_data` fill in "Work out
the output matrix size": the lengths of the dimensions that are not feature
dimensions, then the feature count. Its length is the final `nd`. -/
def data_dims (E : Env) (dm : DataMatrix) : List Nat :=
  non_feature_dims dm ++ [E.DataMatrix_features dm]

/-- The number of floats of the scratch buffer `temp` of
`MeanShift_modes_data_py`, `dims[nd-1]`. -/
def modes_data_temp (E : Env) (self : MeanShift) : Nat :=
  (data_dims E self.dm).getD ((data_dims E self.dm).length - 1) 0

/-- The entry `dims[1]` by which `MeanShift_manifolds_data_py` sizes its scratch
buffers; `none` when `dims` has no entry of index 1, in which case the source
reads behind the allocated array. -/
def manifolds_data_dims1 (E : Env) (self : MeanShift) : Option Nat :=
  (data_dims E self.dm).get? 1

/-- The numbers of floats of the scratch buffers `grad`, `hess`, `eigen_vec` and
`eigen_val` that `MeanShift_manifolds_data_py` allocates. -/
def manifolds_data_scratch (E : Env) (self : MeanShift) : Option (Nat × Nat × Nat × Nat) :=
  (manifolds_data_dims1 E self).map fun d => (d, d * d, d * d, d)

/-- The divisor of the step of the single pass for exemplar `k`, the variable
`new_total` of `stats` and `temp` of the bandwidth rules: the running total so
far plus the weight of the exemplar. -/
def pass_divisor (E : Env) (dm : DataMatrix) (F k : Nat) : ℚ :=
  (single_pass E dm k F).1 + (E.DataMatrix_fv dm k).2

/-- A spatial instance, if there is one, is the one `Spatial_new` builds from
the spatial type and the data matrix in place. -/
def SpatialCoherent (E : Env) (s : MeanShift) : Prop :=
  ∀ sp, s.spatial = some sp → sp = E.Spatial_new s.spatial_type s.dm

/-- Modelled from the spec: `DataMatrix_set_scale` is missing from the sources;
`set_scale(mult[], weight_scale)` replaces the scale vector and the weight
scale of the data matrix and nothing else. -/
structure Env.SetScaleOnly (E : Env) : Prop where
  eq : ∀ (dm : DataMatrix) (s : List ℚ) (ws : ℚ),
    E.DataMatrix_set_scale dm s ws = { dm with mult := s, weight_scale := ws }

/-- Modelled from the spec: `DataMatrix_features` and `DataMatrix_exemplars` are
missing from the sources; F and the exemplar count are given by the array, the
tags and the weight channel, so they agree on data matrices that differ in the
scale vector alone. -/
structure Env.ShapeIgnoresMult (E : Env) : Prop where
  features : ∀ (dm : DataMatrix) (m : List ℚ),
    E.DataMatrix_features { dm with mult := m } = E.DataMatrix_features dm
  exemplars : ∀ (dm : DataMatrix) (m : List ℚ),
    E.DataMatrix_exemplars { dm with mult := m } = E.DataMatrix_exemplars dm

/-- The feature vector and the weight of an exemplar for a data matrix with a
weight channel: the rows of the array have `feats + 1` slots, the slot
`weight_index` gives the weight and is taken out of the feature vector. -/
def weighted_fv (dm : DataMatrix) (i : Nat) : List ℚ × ℚ :=
  match dm.array with
  | none => ([], dm.weight_scale)
  | some a =>
    let full := dm.feats + 1
    let wi := dm.weight_index.toNat
    let row := (List.range full).map fun j => a.data.getD (i * full + j) 0
    ((List.range dm.feats).map fun j => (row.eraseIdx wi).getD j 0 * dm.mult.getD j 0,
      row.getD wi 0 * dm.weight_scale)

/-- The sample environment for data with a weight channel. -/
def weightedEnv : Env := { sampleEnv with DataMatrix_fv := weighted_fv }

/-- The sample array with its first column as weight channel: an exemplar of
weight 0 and feature 1, then an exemplar of weight 2 and feature 5. -/
def sampleWeighted : MeanShift :=
  (MeanShift_set_data_py weightedEnv sampleJunk (MeanShift_new weightedEnv) sampleArray
    ['d', 'f'] (some (PyObj.Int 0))).2

/-- An array of two by three exemplars of four features. -/
def sampleImage : PyArray := { kind := 'f', dims := [2, 3, 4], data := List.replicate 24 1 }

/-- A façade that holds `sampleImage` with two DATA axes and a FEATURE axis. -/
def sampleImageState : MeanShift :=
  (MeanShift_set_data_py sampleEnv sampleJunk (MeanShift_new sampleEnv) sampleImage
    ['d', 'd', 'f'] none).2

/-- A façade that holds one exemplar of four features: an array with a single,
FEATURE, axis. -/
def samplePointState : MeanShift :=
  (MeanShift_set_data_py sampleEnv sampleJunk (MeanShift_new sampleEnv)
    { kind := 'f', dims := [4], data := [1, 2, 3, 4] } ['f'] none).2

/-- A scale vector with a negative and a zero entry. -/
def sampleBadScale : PyArray := { kind := 'f', dims := [2], data := [-1, 0] }

/-- The state reached from a new façade of `exactEnv` by `set_data` with the
sample array and `set_scale` with `sampleBadScale` and the weight scale -2. -/
def sampleBadScaled : MeanShift :=
  (MeanShift_set_scale_py exactEnv
    (MeanShift_set_data_py exactEnv sampleJunk (MeanShift_new exactEnv) sampleArray ['d', 'f']
      none).2 sampleBadScale (-2)).2

/-! ## Lemmas on the trashing blocks -/

theorem trash_all_spatial (s : MeanShift) : (trash_all s).spatial = none := by
  unfold trash_all
  by_cases h : s.spatial = none <;> simp [h] <;> split <;> simp [h]

theorem trash_all_balls (s : MeanShift) : (trash_all s).balls = none := by
  unfold trash_all
  by_cases h : s.balls = none <;> by_cases h2 : s.spatial = none <;> simp [h, h2]

theorem trash_all_weight (s : MeanShift) : (trash_all s).weight = -1 := by
  simp [trash_all]

theorem trash_all_norm (s : MeanShift) : (trash_all s).norm = -1 := by
  simp [trash_all]

theorem trash_all_dm (s : MeanShift) : (trash_all s).dm = s.dm := by
  unfold trash_all
  by_cases h : s.balls = none <;> by_cases h2 : s.spatial = none <;> simp [h, h2]

theorem trash_scaled_spatial (s : MeanShift) : (trash_scaled s).spatial = none := by
  unfold trash_scaled
  by_cases h : s.spatial = none <;> simp [h] <;> split <;> simp [h]

theorem trash_scaled_balls (s : MeanShift) : (trash_scaled s).balls = none := by
  unfold trash_scaled
  by_cases h : s.balls = none <;> by_cases h2 : s.spatial = none <;> simp [h, h2]

theorem trash_scaled_norm (s : MeanShift) : (trash_scaled s).norm = -1 := by
  simp [trash_scaled]

theorem trash_scaled_weight (s : MeanShift) : (trash_scaled s).weight = s.weight := by
  unfold trash_scaled
  by_cases h : s.balls = none <;> by_cases h2 : s.spatial = none <;> simp [h, h2]

theorem trash_scaled_dm (s : MeanShift) : (trash_scaled s).dm = s.dm := by
  unfold trash_scaled
  by_cases h : s.balls = none <;> by_cases h2 : s.spatial = none <;> simp [h, h2]

theorem trash_scaled_kernel (s : MeanShift) :
    (trash_scaled s).kernel = s.kernel ∧ (trash_scaled s).config = s.config := by
  unfold trash_scaled
  by_cases h : s.balls = none <;> by_cases h2 : s.spatial = none <;> simp [h, h2]

theorem trash_all_kernel (s : MeanShift) :
    (trash_all s).kernel = s.kernel ∧ (trash_all s).config = s.config := by
  unfold trash_all
  by_cases h : s.balls = none <;> by_cases h2 : s.spatial = none <;> simp [h, h2]

/-- A call of `set_data` that does not return `NULL` has installed the data and
run the trashing block. -/
theorem set_data_value (E : Env) (junk : Nat → DimType) (self : MeanShift) (data : PyArray)
    (dim_types : CStr) (wi : Option PyObj)
    (hv : (MeanShift_set_data_py E junk self data dim_types wi).1.value ≠ none) :
    ∃ w, (MeanShift_set_data_py E junk self data dim_types wi).2 =
      trash_all { self with
        dm := (E.DataMatrix_set self.dm data (fill_dt junk dim_types (PyArray_NDIM data)) w) } := by
  unfold MeanShift_set_data_py at hv ⊢
  by_cases h1 : dim_types.length ≠ PyArray_NDIM data
  · rw [if_pos h1] at hv; simp [Ret.fail] at hv
  · rw [if_neg h1] at hv ⊢
    by_cases h2 : data.kind ≠ 'b' ∧ data.kind ≠ 'i' ∧ data.kind ≠ 'u' ∧ data.kind ≠ 'f'
    · rw [if_pos h2] at hv; simp [Ret.fail] at hv
    · rw [if_neg h2] at hv ⊢
      cases wi with
      | none => exact ⟨_, rfl⟩
      | some o =>
        cases o with
        | None => exact ⟨_, rfl⟩
        | Int v => exact ⟨_, rfl⟩
        | Float x => simp [Ret.fail] at hv
        | Str x => simp [Ret.fail] at hv
        | Array x => simp [Ret.fail] at hv
        | Other => simp [Ret.fail] at hv

/-- A call of `set_scale` that does not return `NULL` has installed the scale
and run the trashing block. -/
theorem set_scale_value (E : Env) (self : MeanShift) (scale : PyArray) (ws : ℚ)
    (hv : (MeanShift_set_scale_py E self scale ws).1.value ≠ none) :
    (MeanShift_set_scale_py E self scale ws).2 =
      trash_all { self with
        dm := (E.DataMatrix_set_scale self.dm
          ((List.range (scale.dims.getD 0 0)).map fun i => scale.data.getD i 0) ws) } := by
  unfold MeanShift_set_scale_py at hv ⊢
  split_ifs at hv ⊢ with h1
  · simp [Ret.fail] at hv
  · rfl

/-! ## Cache invalidation by the setters -/

/-- C1: whenever `set_data` or `set_scale` returns without failing (the
returned object is not `NULL`), the façade is left without spatial instance,
without balls instance, with the cached total weight unset (`weight < 0`) and
the cached normaliser unset (`norm < 0`). -/
theorem set_data_set_scale_drop_caches (E : Env) (junk : Nat → DimType) (self : MeanShift)
    (data : PyArray) (dim_types : CStr) (wi : Option PyObj) (scale : PyArray) (ws : ℚ) :
    ((MeanShift_set_data_py E junk self data dim_types wi).1.value ≠ none →
      (MeanShift_set_data_py E junk self data dim_types wi).2.spatial = none ∧
      (MeanShift_set_data_py E junk self data dim_types wi).2.balls = none ∧
      (MeanShift_set_data_py E junk self data dim_types wi).2.weight < 0 ∧
      (MeanShift_set_data_py E junk self data dim_types wi).2.norm < 0) ∧
    ((MeanShift_set_scale_py E self scale ws).1.value ≠ none →
      (MeanShift_set_scale_py E self scale ws).2.spatial = none ∧
      (MeanShift_set_scale_py E self scale ws).2.balls = none ∧
      (MeanShift_set_scale_py E self scale ws).2.weight < 0 ∧
      (MeanShift_set_scale_py E self scale ws).2.norm < 0) := by
  constructor
  · intro hv
    obtain ⟨w, hw⟩ := set_data_value E junk self data dim_types wi hv
    rw [hw]
    refine ⟨trash_all_spatial _, trash_all_balls _, ?_, ?_⟩
    · rw [trash_all_weight]; norm_num
    · rw [trash_all_norm]; norm_num
  · intro hv
    rw [set_scale_value E self scale ws hv]
    refine ⟨trash_all_spatial _, trash_all_balls _, ?_, ?_⟩
    · rw [trash_all_weight]; norm_num
    · rw [trash_all_norm]; norm_num

/-- Witness of C1: `set_data` and `set_scale` succeed on the sample façade,
which holds a spatial, balls and both cached values, and leave none of them. -/
theorem set_data_set_scale_drop_caches_witness :
    (MeanShift_set_data_py sampleEnv sampleJunk sampleState sampleArray ['d', 'f'] none).1.value
      ≠ none ∧
    (MeanShift_set_scale_py sampleEnv sampleState sampleScale 1).1.value ≠ none ∧
    ((MeanShift_set_data_py sampleEnv sampleJunk sampleState sampleArray ['d', 'f'] none).2.spatial
        = none ∧
      (MeanShift_set_data_py sampleEnv sampleJunk sampleState sampleArray ['d', 'f'] none).2.balls
        = none ∧
      (MeanShift_set_data_py sampleEnv sampleJunk sampleState sampleArray ['d', 'f'] none).2.weight
        < 0 ∧
      (MeanShift_set_data_py sampleEnv sampleJunk sampleState sampleArray ['d', 'f'] none).2.norm
        < 0) ∧
    ((MeanShift_set_scale_py sampleEnv sampleState sampleScale 1).2.spatial = none ∧
      (MeanShift_set_scale_py sampleEnv sampleState sampleScale 1).2.balls = none ∧
      (MeanShift_set_scale_py sampleEnv sampleState sampleScale 1).2.weight < 0 ∧
      (MeanShift_set_scale_py sampleEnv sampleState sampleScale 1).2.norm < 0) :=
  have hd : (MeanShift_set_data_py sampleEnv sampleJunk sampleState sampleArray
      ['d', 'f'] none).1.value ≠ none := by decide
  have hs : (MeanShift_set_scale_py sampleEnv sampleState sampleScale 1).1.value ≠ none := by
    decide
  ⟨hd, hs,
    (set_data_set_scale_drop_caches sampleEnv sampleJunk sampleState sampleArray ['d', 'f'] none
      sampleScale 1).1 hd,
    (set_data_set_scale_drop_caches sampleEnv sampleJunk sampleState sampleArray ['d', 'f'] none
      sampleScale 1).2 hs⟩

/-! ## Lemmas on kernel selection -/

/-- The branch taken for a matching table entry touches, of the façade, only
the kernel, the configuration, the name and the normaliser; when it does not
fail it has installed the entry and unset the normaliser. -/
theorem set_kernel_found_frame (E : Env) (kname : CStr) (h : Heap) (self : MeanShift)
    (k : Kernel) :
    (set_kernel_found E kname h self k).2.2.spatial = self.spatial ∧
    (set_kernel_found E kname h self k).2.2.balls = self.balls ∧
    (set_kernel_found E kname h self k).2.2.weight = self.weight ∧
    (set_kernel_found E kname h self k).2.2.dm = self.dm ∧
    ((set_kernel_found E kname h self k).1.value ≠ none →
      (set_kernel_found E kname h self k).2.2.norm = -1 ∧
      (set_kernel_found E kname h self k).2.2.kernel = k) := by
  unfold set_kernel_found
  cases hv : k.config_verify (E.DataMatrix_features self.dm) (List.drop k.name.length kname) with
  | some e => simp [hv, Ret.fail]
  | none =>
    by_cases hn : self.name = none <;> by_cases hc : k.configuration = none <;>
      simp [hv, hn, hc, Ret.none_with]

theorem set_kernel_loop_frame (E : Env) (kname : CStr) (h : Heap) (self : MeanShift)
    (L : List Kernel) :
    (set_kernel_loop E kname h self L).2.2.spatial = self.spatial ∧
    (set_kernel_loop E kname h self L).2.2.balls = self.balls ∧
    (set_kernel_loop E kname h self L).2.2.weight = self.weight ∧
    (set_kernel_loop E kname h self L).2.2.dm = self.dm ∧
    ((set_kernel_loop E kname h self L).1.value ≠ none →
      (set_kernel_loop E kname h self L).2.2.norm = -1) := by
  induction L with
  | nil => simp [set_kernel_loop, Ret.fail]
  | cons k rest ih =>
    unfold set_kernel_loop
    split_ifs with hm
    · have := set_kernel_found_frame E kname h self k
      exact ⟨this.1, this.2.1, this.2.2.1, this.2.2.2.1, fun hv => (this.2.2.2.2 hv).1⟩
    · exact ih

/-- Both bandwidth rules keep the cached total weight as it was. -/
theorem scale_rules_weight (E : Env) (self : MeanShift) :
    (MeanShift_scale_silverman_py E self).2.weight = self.weight ∧
    (MeanShift_scale_scott_py E self).2.weight = self.weight := by
  constructor
  · simp [MeanShift_scale_silverman_py, trash_scaled_weight]
  · simp [MeanShift_scale_scott_py, trash_scaled_weight]

/-- C2, counterexample: on the sample façade, which holds a spatial, balls and a
cached total weight, `set_kernel("uniform")` succeeds and the spatial, the
balls and the cached total weight are all still there. -/
theorem set_kernel_keeps_spatial_balls_weight :
    (MeanShift_set_kernel_py sampleEnv [] sampleState sampleUniform.name).1.value ≠ none ∧
    (MeanShift_set_kernel_py sampleEnv [] sampleState sampleUniform.name).2.2.spatial ≠ none ∧
    (MeanShift_set_kernel_py sampleEnv [] sampleState sampleUniform.name).2.2.balls ≠ none ∧
    ¬ (MeanShift_set_kernel_py sampleEnv [] sampleState sampleUniform.name).2.2.weight < 0 := by
  have hf := set_kernel_loop_frame sampleEnv sampleUniform.name [] sampleState
    sampleEnv.ListKernel
  refine ⟨by decide, ?_, ?_, ?_⟩
  · unfold MeanShift_set_kernel_py; rw [hf.1]; simp [sampleState]
  · unfold MeanShift_set_kernel_py; rw [hf.2.1]; simp [sampleState]
  · unfold MeanShift_set_kernel_py; rw [hf.2.2.1]; norm_num [sampleState]

/-- C2, amended: whenever `set_kernel` does not fail, the cached normaliser is
unset (`norm < 0`), and the spatial instance, the balls instance and the cached
total weight are what they were before the call. -/
theorem set_kernel_unsets_norm_only (E : Env) (h : Heap) (self : MeanShift) (kname : CStr)
    (hv : (MeanShift_set_kernel_py E h self kname).1.value ≠ none) :
    (MeanShift_set_kernel_py E h self kname).2.2.norm < 0 ∧
    (MeanShift_set_kernel_py E h self kname).2.2.spatial = self.spatial ∧
    (MeanShift_set_kernel_py E h self kname).2.2.balls = self.balls ∧
    (MeanShift_set_kernel_py E h self kname).2.2.weight = self.weight := by
  have hf := set_kernel_loop_frame E kname h self E.ListKernel
  unfold MeanShift_set_kernel_py at hv ⊢
  refine ⟨?_, hf.1, hf.2.1, hf.2.2.1⟩
  rw [hf.2.2.2.2 hv]; norm_num

/-- Witness of the amended C2 on the sample façade with the kernel string
`fisher(4)`. -/
theorem set_kernel_unsets_norm_only_witness :
    (MeanShift_set_kernel_py sampleEnv [] sampleState
      ['f', 'i', 's', 'h', 'e', 'r', '(', '4', ')']).1.value ≠ none ∧
    (MeanShift_set_kernel_py sampleEnv [] sampleState
      ['f', 'i', 's', 'h', 'e', 'r', '(', '4', ')']).2.2.norm < 0 ∧
    (MeanShift_set_kernel_py sampleEnv [] sampleState
      ['f', 'i', 's', 'h', 'e', 'r', '(', '4', ')']).2.2.spatial = sampleState.spatial ∧
    (MeanShift_set_kernel_py sampleEnv [] sampleState
      ['f', 'i', 's', 'h', 'e', 'r', '(', '4', ')']).2.2.balls = sampleState.balls ∧
    (MeanShift_set_kernel_py sampleEnv [] sampleState
      ['f', 'i', 's', 'h', 'e', 'r', '(', '4', ')']).2.2.weight = sampleState.weight :=
  have hv : (MeanShift_set_kernel_py sampleEnv [] sampleState
      ['f', 'i', 's', 'h', 'e', 'r', '(', '4', ')']).1.value ≠ none := by decide
  ⟨hv, set_kernel_unsets_norm_only sampleEnv [] sampleState
    ['f', 'i', 's', 'h', 'e', 'r', '(', '4', ')'] hv⟩

/-- C3, counterexample: on the sample façade, whose cached total weight is 2,
`scale_silverman` and `scale_scott` return with the cached total weight still
2, not unset. -/
theorem scale_rules_keep_weight_cached :
    (MeanShift_scale_silverman_py sampleEnv sampleState).1.value ≠ none ∧
    (MeanShift_scale_silverman_py sampleEnv sampleState).2.weight = 2 ∧
    ¬ (MeanShift_scale_silverman_py sampleEnv sampleState).2.weight < 0 ∧
    (MeanShift_scale_scott_py sampleEnv sampleState).1.value ≠ none ∧
    (MeanShift_scale_scott_py sampleEnv sampleState).2.weight = 2 ∧
    ¬ (MeanShift_scale_scott_py sampleEnv sampleState).2.weight < 0 := by
  have hw := scale_rules_weight sampleEnv sampleState
  rw [hw.1, hw.2]
  refine ⟨?_, rfl, by norm_num [sampleState], ?_, rfl, by norm_num [sampleState]⟩
  · simp [MeanShift_scale_silverman_py, Ret.none_with]
  · simp [MeanShift_scale_scott_py, Ret.none_with]

/-- C3, amended: `scale_silverman` and `scale_scott` each return with the
spatial instance dropped, the balls instance dropped and the cached normaliser
unset (`norm < 0`); the cached total weight is what it was before the call. -/
theorem scale_rules_drop_spatial_balls_norm (E : Env) (self : MeanShift) :
    ((MeanShift_scale_silverman_py E self).2.spatial = none ∧
      (MeanShift_scale_silverman_py E self).2.balls = none ∧
      (MeanShift_scale_silverman_py E self).2.norm < 0 ∧
      (MeanShift_scale_silverman_py E self).2.weight = self.weight) ∧
    ((MeanShift_scale_scott_py E self).2.spatial = none ∧
      (MeanShift_scale_scott_py E self).2.balls = none ∧
      (MeanShift_scale_scott_py E self).2.norm < 0 ∧
      (MeanShift_scale_scott_py E self).2.weight = self.weight) := by
  refine ⟨⟨?_, ?_, ?_, (scale_rules_weight E self).1⟩, ⟨?_, ?_, ?_, (scale_rules_weight E self).2⟩⟩
  · simp [MeanShift_scale_silverman_py, trash_scaled_spatial]
  · simp [MeanShift_scale_silverman_py, trash_scaled_balls]
  · simp [MeanShift_scale_silverman_py, trash_scaled_norm]
  · simp [MeanShift_scale_scott_py, trash_scaled_spatial]
  · simp [MeanShift_scale_scott_py, trash_scaled_balls]
  · simp [MeanShift_scale_scott_py, trash_scaled_norm]

/-! ## Copying a kernel -/

/-- `copy_kernel` does not write the cached normaliser of `self`. -/
theorem copy_kernel_frame (h : Heap) (mem : Nat → MeanShift) (self other : Nat) :
    ((MeanShift_copy_kernel_py h mem self other).2.2 self).norm = (mem self).norm ∧
    ((MeanShift_copy_kernel_py h mem self other).2.2 self).weight = (mem self).weight ∧
    ((MeanShift_copy_kernel_py h mem self other).2.2 self).dm = (mem self).dm ∧
    ((MeanShift_copy_kernel_py h mem self other).2.2 self).spatial = (mem self).spatial ∧
    ((MeanShift_copy_kernel_py h mem self other).2.2 self).balls = (mem self).balls := by
  unfold MeanShift_copy_kernel_py
  by_cases h1 : (mem self).name = none <;> by_cases ho : other = self <;>
    by_cases h2 : (mem other).name = none <;> simp [h1, h2, ho, Function.update]

/-- C4, the code at the failing input: `self` (address 0 of the sample store)
has the normaliser 2 cached for the uniform kernel, `other` (address 1) has the
fisher kernel with the configuration at address 0 held once. After
`copy_kernel`, `self` has the kernel and the configuration of `other`, the
configuration is held twice, and the cached normaliser of `self` is still 2. -/
theorem copy_kernel_keeps_norm_cached :
    (MeanShift_copy_kernel_py sampleHeap sampleMem 0 1).1.value ≠ none ∧
    ((MeanShift_copy_kernel_py sampleHeap sampleMem 0 1).2.2 0).kernel = (sampleMem 1).kernel ∧
    ((MeanShift_copy_kernel_py sampleHeap sampleMem 0 1).2.2 0).config = (sampleMem 1).config ∧
    (MeanShift_copy_kernel_py sampleHeap sampleMem 0 1).2.1 =
      [{ share := 2, live := true, dims := 2, param := ['(', '4', ')'] }] ∧
    ((MeanShift_copy_kernel_py sampleHeap sampleMem 0 1).2.2 0).norm = 2 ∧
    ¬ ((MeanShift_copy_kernel_py sampleHeap sampleMem 0 1).2.2 0).norm < 0 := by
  have hf := copy_kernel_frame sampleHeap sampleMem 0 1
  rw [hf.1]
  refine ⟨by simp [MeanShift_copy_kernel_py, Ret.none_with], rfl, rfl, ?_, rfl,
    by norm_num [sampleMem, sampleState]⟩
  decide

/-! ## Spatial and balls selection -/

theorem set_spatial_loop_find (sname : CStr) (self : MeanShift) (L : List SpatialType)
    (t : SpatialType) (hf : L.find? (fun u => strcmp_eq0 u.name sname) = some t) :
    set_spatial_loop sname self L =
      (Ret.none_with none, { self with spatial_type := t, spatial := none }) := by
  induction L with
  | nil => simp at hf
  | cons u rest ih =>
    unfold set_spatial_loop
    by_cases hm : strcmp_eq0 u.name sname = true
    · simp only [List.find?, hm] at hf
      cases hf
      by_cases hs : self.spatial = none <;> simp [hm, hs]
    · simp only [List.find?, hm] at hf
      rw [if_neg hm]
      exact ih hf

theorem set_balls_loop_find (bname : CStr) (self : MeanShift) (L : List BallsType)
    (t : BallsType) (hf : L.find? (fun u => strcmp_eq0 u.name bname) = some t) :
    set_balls_loop bname self L =
      (Ret.none_with none, { self with balls_type := t, balls := none }) := by
  induction L with
  | nil => simp at hf
  | cons u rest ih =>
    unfold set_balls_loop
    by_cases hm : strcmp_eq0 u.name bname = true
    · simp only [List.find?, hm] at hf
      cases hf
      by_cases hs : self.balls = none <;> simp [hm, hs]
    · simp only [List.find?, hm] at hf
      rw [if_neg hm]
      exact ih hf

/-- A name that is registered is found by the search the loops perform. -/
theorem find_registered {α : Type} (nm : α → CStr) (L : List α) (t : α) (ht : t ∈ L) :
    ∃ u, u ∈ L ∧ nm u = nm t ∧ L.find? (fun u => strcmp_eq0 (nm u) (nm t)) = some u := by
  cases hf : L.find? (fun u => strcmp_eq0 (nm u) (nm t)) with
  | none =>
    have := List.find?_eq_none.mp hf t ht
    simp [strcmp_eq0] at this
  | some u =>
    refine ⟨u, List.mem_of_find?_eq_some hf, ?_, rfl⟩
    have := List.find?_some hf
    simpa [strcmp_eq0] using this

/-- C5: for a registered spatial type `t`, `set_spatial(t.name)` succeeds and
leaves the façade as it was except that the spatial type is the table entry of
that name (the first one, should the table repeat a name) and the spatial
instance is dropped: balls instance, cached total weight, cached normaliser,
data matrix, kernel and configuration are unchanged. Symmetrically
`set_balls(b.name)` for a registered balls type sets the balls type and drops
the balls instance and changes nothing else. -/
theorem set_spatial_set_balls_frame (E : Env) (self : MeanShift) (t : SpatialType)
    (b : BallsType) :
    (t ∈ E.ListSpatial →
      ∃ u, u ∈ E.ListSpatial ∧ u.name = t.name ∧
        E.ListSpatial.find? (fun v => strcmp_eq0 v.name t.name) = some u ∧
        MeanShift_set_spatial_py E self t.name =
          (Ret.none_with none, { self with spatial_type := u, spatial := none })) ∧
    (b ∈ E.ListBalls →
      ∃ u, u ∈ E.ListBalls ∧ u.name = b.name ∧
        E.ListBalls.find? (fun v => strcmp_eq0 v.name b.name) = some u ∧
        MeanShift_set_balls_py E self b.name =
          (Ret.none_with none, { self with balls_type := u, balls := none })) := by
  constructor
  · intro ht
    obtain ⟨u, hu, hn, hf⟩ := find_registered SpatialType.name E.ListSpatial t ht
    exact ⟨u, hu, hn, hf, set_spatial_loop_find t.name self E.ListSpatial u hf⟩
  · intro hb
    obtain ⟨u, hu, hn, hf⟩ := find_registered BallsType.name E.ListBalls b hb
    exact ⟨u, hu, hn, hf, set_balls_loop_find b.name self E.ListBalls u hf⟩

/-- Witness of C5 on the sample façade with the registered types `brute_force`
and `list`. -/
theorem set_spatial_set_balls_frame_witness :
    sampleBrute ∈ sampleEnv.ListSpatial ∧ sampleList ∈ sampleEnv.ListBalls ∧
    (∃ u, u ∈ sampleEnv.ListSpatial ∧ u.name = sampleBrute.name ∧
        sampleEnv.ListSpatial.find? (fun v => strcmp_eq0 v.name sampleBrute.name) = some u ∧
        MeanShift_set_spatial_py sampleEnv sampleState sampleBrute.name =
          (Ret.none_with none, { sampleState with spatial_type := u, spatial := none })) ∧
    (∃ u, u ∈ sampleEnv.ListBalls ∧ u.name = sampleList.name ∧
        sampleEnv.ListBalls.find? (fun v => strcmp_eq0 v.name sampleList.name) = some u ∧
        MeanShift_set_balls_py sampleEnv sampleState sampleList.name =
          (Ret.none_with none, { sampleState with balls_type := u, balls := none })) :=
  have hs : sampleBrute ∈ sampleEnv.ListSpatial := by decide
  have hb : sampleList ∈ sampleEnv.ListBalls := by decide
  ⟨hs, hb, (set_spatial_set_balls_frame sampleEnv sampleState sampleBrute sampleList).1 hs,
    (set_spatial_set_balls_frame sampleEnv sampleState sampleBrute sampleList).2 hb⟩

/-! ## Which kernel `set_kernel` selects -/

/-- The test of the loop, `strncmp(name, kname, strlen(name))==0`, holds exactly
when the registered name is a prefix of the given string. -/
theorem strncmp_eq0_iff (a b : CStr) : strncmp_eq0 a b a.length = true ↔ a <+: b := by
  unfold strncmp_eq0
  rw [List.take_length, beq_iff_eq, List.prefix_iff_eq_take]

/-- The loop runs the branch of the first table entry whose name is a prefix of
the given string. -/
theorem set_kernel_loop_first (E : Env) (kname : CStr) (h : Heap) (self : MeanShift)
    (pre post : List Kernel) (k : Kernel) (hpre : ∀ k' ∈ pre, ¬ k'.name <+: kname)
    (hk : k.name <+: kname) :
    set_kernel_loop E kname h self (pre ++ k :: post) = set_kernel_found E kname h self k := by
  induction pre with
  | nil =>
    simp only [List.nil_append, set_kernel_loop]
    rw [if_pos ((strncmp_eq0_iff _ _).mpr hk)]
  | cons a rest ih =>
    simp only [List.cons_append, set_kernel_loop]
    have ha : ¬ strncmp_eq0 a.name kname a.name.length = true := fun hc =>
      hpre a (List.mem_cons_self _ _) ((strncmp_eq0_iff _ _).mp hc)
    rw [if_neg ha]
    exact ih fun k' hk' => hpre k' (List.mem_cons_of_mem _ hk')

/-- When no table entry has a name that is a prefix of the given string the loop
falls through to the error and changes nothing. -/
theorem set_kernel_loop_none (E : Env) (kname : CStr) (h : Heap) (self : MeanShift)
    (L : List Kernel) (hL : ∀ k ∈ L, ¬ k.name <+: kname) :
    set_kernel_loop E kname h self L = (Ret.fail ("unrecognised kernel type"), h, self) := by
  induction L with
  | nil => rfl
  | cons a rest ih =>
    simp only [set_kernel_loop]
    have ha : ¬ strncmp_eq0 a.name kname a.name.length = true := fun hc =>
      hL a (List.mem_cons_self _ _) ((strncmp_eq0_iff _ _).mp hc)
    rw [if_neg ha]
    exact ih fun k' hk' => hL k' (List.mem_cons_of_mem _ hk')

/-- C7, counterexample: in a table that registers `gauss` before `gaussian`, the
longest registered name that is a prefix of the string `gaussian` is
`gaussian`, yet `set_kernel("gaussian")` selects the kernel `gauss` and hands
the remainder `ian` to its `config_new` (the new configuration records it). -/
theorem set_kernel_not_longest_match :
    (spec_by_name nestedEnv.ListKernel ['g', 'a', 'u', 's', 's', 'i', 'a', 'n']).map Kernel.name
      = some ['g', 'a', 'u', 's', 's', 'i', 'a', 'n'] ∧
    (MeanShift_set_kernel_py nestedEnv [] sampleState
      ['g', 'a', 'u', 's', 's', 'i', 'a', 'n']).1.value ≠ none ∧
    (MeanShift_set_kernel_py nestedEnv [] sampleState
      ['g', 'a', 'u', 's', 's', 'i', 'a', 'n']).2.2.kernel.name = ['g', 'a', 'u', 's', 's'] ∧
    (MeanShift_set_kernel_py nestedEnv [] sampleState
      ['g', 'a', 'u', 's', 's', 'i', 'a', 'n']).2.1 =
        [{ share := 1, live := true, dims := 2, param := ['i', 'a', 'n'] }] := by
  refine ⟨by decide, by decide, by decide, by decide⟩

/-- C7, amended: `set_kernel(s)` selects the first registered kernel, in table
order, whose name is a prefix of `s`, and passes the remainder of `s` after
that name to its `config_verify`: when that reports an error the call fails
with it and changes nothing, and when it accepts, the kernel is installed with
the configuration that its `config_new` makes of the same remainder (on the
heap from which the old configuration has been released). -/
theorem set_kernel_selects_first_match (E : Env) (h : Heap) (self : MeanShift) (kname : CStr)
    (pre post : List Kernel) (k : Kernel) (hL : E.ListKernel = pre ++ k :: post)
    (hpre : ∀ k' ∈ pre, ¬ k'.name <+: kname) (hk : k.name <+: kname) :
    (∀ e, k.config_verify (E.DataMatrix_features self.dm) (kname.drop k.name.length) = some e →
      MeanShift_set_kernel_py E h self kname = (Ret.fail e, h, self)) ∧
    (k.config_verify (E.DataMatrix_features self.dm) (kname.drop k.name.length) = none →
      (MeanShift_set_kernel_py E h self kname).1 = Ret.none_with none ∧
      (MeanShift_set_kernel_py E h self kname).2.2.kernel = k ∧
      ((MeanShift_set_kernel_py E h self kname).2.2.config,
        (MeanShift_set_kernel_py E h self kname).2.1) =
          k.config_new (E.DataMatrix_features self.dm) (kname.drop k.name.length)
            (self.kernel.config_release self.config h)) := by
  unfold MeanShift_set_kernel_py
  rw [hL, set_kernel_loop_first E kname h self pre post k hpre hk]
  unfold set_kernel_found
  constructor
  · intro e he
    simp [he]
  · intro hn
    by_cases h1 : self.name = none <;> by_cases hc : k.configuration = none <;>
      simp [hn, h1, hc]

/-- Witness of the amended C7: in the table `gauss`, `gaussian` the string
`gaussian` selects `gauss`. -/
theorem set_kernel_selects_first_match_witness :
    nestedEnv.ListKernel = [] ++ sampleGauss :: [sampleGaussian] ∧
    (∀ k' ∈ ([] : List Kernel), ¬ k'.name <+: ['g', 'a', 'u', 's', 's', 'i', 'a', 'n']) ∧
    sampleGauss.name <+: ['g', 'a', 'u', 's', 's', 'i', 'a', 'n'] ∧
    ((∀ e, sampleGauss.config_verify (nestedEnv.DataMatrix_features sampleState.dm)
        ((['g', 'a', 'u', 's', 's', 'i', 'a', 'n'] : CStr).drop sampleGauss.name.length) = some e →
      MeanShift_set_kernel_py nestedEnv [] sampleState ['g', 'a', 'u', 's', 's', 'i', 'a', 'n']
        = (Ret.fail e, [], sampleState)) ∧
    (sampleGauss.config_verify (nestedEnv.DataMatrix_features sampleState.dm)
        ((['g', 'a', 'u', 's', 's', 'i', 'a', 'n'] : CStr).drop sampleGauss.name.length) = none →
      (MeanShift_set_kernel_py nestedEnv [] sampleState
        ['g', 'a', 'u', 's', 's', 'i', 'a', 'n']).1 = Ret.none_with none ∧
      (MeanShift_set_kernel_py nestedEnv [] sampleState
        ['g', 'a', 'u', 's', 's', 'i', 'a', 'n']).2.2.kernel = sampleGauss ∧
      ((MeanShift_set_kernel_py nestedEnv [] sampleState
          ['g', 'a', 'u', 's', 's', 'i', 'a', 'n']).2.2.config,
        (MeanShift_set_kernel_py nestedEnv [] sampleState
          ['g', 'a', 'u', 's', 's', 'i', 'a', 'n']).2.1) =
          sampleGauss.config_new (nestedEnv.DataMatrix_features sampleState.dm)
            ((['g', 'a', 'u', 's', 's', 'i', 'a', 'n'] : CStr).drop sampleGauss.name.length)
            (sampleState.kernel.config_release sampleState.config []))) :=
  have h1 : nestedEnv.ListKernel = [] ++ sampleGauss :: [sampleGaussian] := rfl
  have h2 : ∀ k' ∈ ([] : List Kernel), ¬ k'.name <+: ['g', 'a', 'u', 's', 's', 'i', 'a', 'n'] :=
    fun _ hk => absurd hk (List.not_mem_nil _)
  have h3 : sampleGauss.name <+: ['g', 'a', 'u', 's', 's', 'i', 'a', 'n'] := by decide
  ⟨h1, h2, h3, set_kernel_selects_first_match nestedEnv [] sampleState
    ['g', 'a', 'u', 's', 's', 'i', 'a', 'n'] [] [sampleGaussian] sampleGauss h1 h2 h3⟩

/-! ## Failures that change nothing -/

/-- C8: when no registered kernel name is a prefix of the string, or the kernel
that `set_kernel` matches (the first registered one whose name is a prefix)
has its `config_verify` reject the remainder, `set_kernel` returns `NULL` with
the error indicator set, and the heap of configurations (hence every share
count) and the whole façade (kernel, configuration, name, cached normaliser
and total weight, spatial, balls) are what they were. -/
theorem set_kernel_failure_atomic (E : Env) (h : Heap) (self : MeanShift) (kname : CStr)
    (hbad : (∀ k ∈ E.ListKernel, ¬ k.name <+: kname) ∨
      ∃ pre k post e, E.ListKernel = pre ++ k :: post ∧
        (∀ k' ∈ pre, ¬ k'.name <+: kname) ∧ k.name <+: kname ∧
        k.config_verify (E.DataMatrix_features self.dm) (kname.drop k.name.length) = some e) :
    (MeanShift_set_kernel_py E h self kname).1.value = none ∧
    (MeanShift_set_kernel_py E h self kname).1.error ≠ none ∧
    (MeanShift_set_kernel_py E h self kname).2.1 = h ∧
    (MeanShift_set_kernel_py E h self kname).2.2 = self := by
  rcases hbad with hno | ⟨pre, k, post, e, hL, hpre, hk, he⟩
  · unfold MeanShift_set_kernel_py
    rw [set_kernel_loop_none E kname h self E.ListKernel hno]
    simp [Ret.fail]
  · unfold MeanShift_set_kernel_py
    rw [hL, set_kernel_loop_first E kname h self pre post k hpre hk]
    unfold set_kernel_found
    simp [he, Ret.fail]

/-- Witness of C8: the string `fisher4` matches the kernel `fisher` of the sample
table, whose `config_verify` rejects the remainder `4`. -/
theorem set_kernel_failure_atomic_witness :
    ((∀ k ∈ sampleEnv.ListKernel, ¬ k.name <+: ['f', 'i', 's', 'h', 'e', 'r', '4']) ∨
      ∃ pre k post e, sampleEnv.ListKernel = pre ++ k :: post ∧
        (∀ k' ∈ pre, ¬ k'.name <+: ['f', 'i', 's', 'h', 'e', 'r', '4']) ∧
        k.name <+: ['f', 'i', 's', 'h', 'e', 'r', '4'] ∧
        k.config_verify (sampleEnv.DataMatrix_features sampleFisherState.dm)
          ((['f', 'i', 's', 'h', 'e', 'r', '4'] : CStr).drop k.name.length) = some e) ∧
    (MeanShift_set_kernel_py sampleEnv sampleHeap sampleFisherState
      ['f', 'i', 's', 'h', 'e', 'r', '4']).1.value = none ∧
    (MeanShift_set_kernel_py sampleEnv sampleHeap sampleFisherState
      ['f', 'i', 's', 'h', 'e', 'r', '4']).1.error ≠ none ∧
    (MeanShift_set_kernel_py sampleEnv sampleHeap sampleFisherState
      ['f', 'i', 's', 'h', 'e', 'r', '4']).2.1 = sampleHeap ∧
    (MeanShift_set_kernel_py sampleEnv sampleHeap sampleFisherState
      ['f', 'i', 's', 'h', 'e', 'r', '4']).2.2 = sampleFisherState :=
  have hbad : (∀ k ∈ sampleEnv.ListKernel, ¬ k.name <+: ['f', 'i', 's', 'h', 'e', 'r', '4']) ∨
      ∃ pre k post e, sampleEnv.ListKernel = pre ++ k :: post ∧
        (∀ k' ∈ pre, ¬ k'.name <+: ['f', 'i', 's', 'h', 'e', 'r', '4']) ∧
        k.name <+: ['f', 'i', 's', 'h', 'e', 'r', '4'] ∧
        k.config_verify (sampleEnv.DataMatrix_features sampleFisherState.dm)
          ((['f', 'i', 's', 'h', 'e', 'r', '4'] : CStr).drop k.name.length) = some e :=
    Or.inr ⟨[sampleUniform], sampleFisher, [], "bad parameter", rfl, by decide, by decide,
      by decide⟩
  ⟨hbad, set_kernel_failure_atomic sampleEnv sampleHeap sampleFisherState
    ['f', 'i', 's', 'h', 'e', 'r', '4'] hbad⟩

/-- C9: when the type string is not as long as the array has dimensions, or the
kind of the array is none of bool, signed integer, unsigned integer and
float, `set_data` returns `NULL` with the error indicator set and the façade
(data matrix, spatial, balls, cached total weight and normaliser included) is
what it was. -/
theorem set_data_shape_kind_failure (E : Env) (junk : Nat → DimType) (self : MeanShift)
    (data : PyArray) (dim_types : CStr) (wi : Option PyObj)
    (hbad : dim_types.length ≠ PyArray_NDIM data ∨
      (data.kind ≠ 'b' ∧ data.kind ≠ 'i' ∧ data.kind ≠ 'u' ∧ data.kind ≠ 'f')) :
    (MeanShift_set_data_py E junk self data dim_types wi).1.value = none ∧
    (MeanShift_set_data_py E junk self data dim_types wi).1.error ≠ none ∧
    (MeanShift_set_data_py E junk self data dim_types wi).2 = self := by
  unfold MeanShift_set_data_py
  by_cases h1 : dim_types.length ≠ PyArray_NDIM data
  · rw [if_pos h1]; simp [Ret.fail]
  · rw [if_neg h1]
    rcases hbad with hb | hb
    · exact absurd hb h1
    · rw [if_pos hb]; simp [Ret.fail]

/-- Witness of C9: a type string of one character for the two-dimensional
sample array. -/
theorem set_data_shape_kind_failure_witness :
    ((['d'] : CStr).length ≠ PyArray_NDIM sampleArray ∨
      (sampleArray.kind ≠ 'b' ∧ sampleArray.kind ≠ 'i' ∧ sampleArray.kind ≠ 'u' ∧
        sampleArray.kind ≠ 'f')) ∧
    (MeanShift_set_data_py sampleEnv sampleJunk sampleState sampleArray ['d'] none).1.value = none ∧
    (MeanShift_set_data_py sampleEnv sampleJunk sampleState sampleArray ['d'] none).1.error
      ≠ none ∧
    (MeanShift_set_data_py sampleEnv sampleJunk sampleState sampleArray ['d'] none).2
      = sampleState :=
  have hbad : (['d'] : CStr).length ≠ PyArray_NDIM sampleArray ∨
      (sampleArray.kind ≠ 'b' ∧ sampleArray.kind ≠ 'i' ∧ sampleArray.kind ≠ 'u' ∧
        sampleArray.kind ≠ 'f') := Or.inl (by decide)
  ⟨hbad, set_data_shape_kind_failure sampleEnv sampleJunk sampleState sampleArray ['d'] none hbad⟩

/-- C10, the code at the failing input: the sample façade is given the
one-dimensional float array `sampleVector` with the type string `x`, whose
length matches the rank and whose only character is none of 'd', 'f', 'b'.
The error indicator is set, but the call goes on: it returns `None`, not
`NULL`, `DataMatrix_set` has been called (with the uninitialised entry of `dt`),
the spatial and the balls are dropped and both cached values are unset. -/
theorem set_data_unrecognised_code_goes_on :
    (['x'] : CStr).length = PyArray_NDIM sampleVector ∧
    bad_dim_code 'x' = true ∧
    (MeanShift_set_data_py sampleEnv sampleJunk sampleState sampleVector ['x'] none).1 =
      ⟨some PyObj.None, some ("dimension type string includes an unrecognised code")⟩ ∧
    (MeanShift_set_data_py sampleEnv sampleJunk sampleState sampleVector ['x'] none).2.dm =
      sampleEnv.DataMatrix_set sampleState.dm sampleVector [sampleJunk 0] (-1) ∧
    (MeanShift_set_data_py sampleEnv sampleJunk sampleState sampleVector ['x'] none).2.dm
      ≠ sampleState.dm ∧
    sampleState.spatial ≠ none ∧
    (MeanShift_set_data_py sampleEnv sampleJunk sampleState sampleVector ['x'] none).2.spatial
      = none ∧
    sampleState.balls ≠ none ∧
    (MeanShift_set_data_py sampleEnv sampleJunk sampleState sampleVector ['x'] none).2.balls
      = none ∧
    sampleState.weight = 2 ∧
    (MeanShift_set_data_py sampleEnv sampleJunk sampleState sampleVector ['x'] none).2.weight
      = -1 ∧
    sampleState.norm = 2 ∧
    (MeanShift_set_data_py sampleEnv sampleJunk sampleState sampleVector ['x'] none).2.norm
      = -1 := by
  refine ⟨by decide, by decide, by decide, by decide, by decide, by decide, by decide, by decide,
    by decide, rfl, ?_, rfl, ?_⟩
  · simp [MeanShift_set_data_py, PyArray_NDIM, sampleVector, trash_all_weight]
  · simp [MeanShift_set_data_py, PyArray_NDIM, sampleVector, trash_all_norm]

/-! ## Coherence of the cached total weight and of the normaliser -/

theorem set_spatial_loop_frame (sname : CStr) (self : MeanShift) (L : List SpatialType) :
    (set_spatial_loop sname self L).2.weight = self.weight ∧
    (set_spatial_loop sname self L).2.dm = self.dm := by
  induction L with
  | nil => simp [set_spatial_loop]
  | cons u rest ih =>
    unfold set_spatial_loop
    by_cases hm : strcmp_eq0 u.name sname = true
    · by_cases hs : self.spatial = none <;> simp [hm, hs]
    · rw [if_neg hm]; exact ih

theorem set_balls_loop_frame (bname : CStr) (self : MeanShift) (L : List BallsType) :
    (set_balls_loop bname self L).2.weight = self.weight ∧
    (set_balls_loop bname self L).2.dm = self.dm := by
  induction L with
  | nil => simp [set_balls_loop]
  | cons u rest ih =>
    unfold set_balls_loop
    by_cases hm : strcmp_eq0 u.name bname = true
    · by_cases hs : self.balls = none <;> simp [hm, hs]
    · rw [if_neg hm]; exact ih

/-- `set_data` either fails and changes nothing or ends in the trashing block. -/
theorem set_data_cases (E : Env) (junk : Nat → DimType) (self : MeanShift) (data : PyArray)
    (dim_types : CStr) (wi : Option PyObj) :
    (MeanShift_set_data_py E junk self data dim_types wi).2 = self ∨
    ∃ s', (MeanShift_set_data_py E junk self data dim_types wi).2 = trash_all s' := by
  by_cases hv : (MeanShift_set_data_py E junk self data dim_types wi).1.value ≠ none
  · obtain ⟨w, hw⟩ := set_data_value E junk self data dim_types wi hv
    exact Or.inr ⟨_, hw⟩
  · left
    unfold MeanShift_set_data_py at hv ⊢
    by_cases h1 : dim_types.length ≠ PyArray_NDIM data
    · rw [if_pos h1]
    · rw [if_neg h1] at hv ⊢
      by_cases h2 : data.kind ≠ 'b' ∧ data.kind ≠ 'i' ∧ data.kind ≠ 'u' ∧ data.kind ≠ 'f'
      · rw [if_pos h2]
      · rw [if_neg h2] at hv ⊢
        cases wi with
        | none => simp [Ret.none_with] at hv
        | some o =>
          cases o with
          | None => simp [Ret.none_with] at hv
          | Int v => simp [Ret.none_with] at hv
          | Float x => rfl
          | Str x => rfl
          | Array x => rfl
          | Other => rfl

/-- `set_scale` either fails and changes nothing or ends in the trashing block. -/
theorem set_scale_cases (E : Env) (self : MeanShift) (scale : PyArray) (ws : ℚ) :
    (MeanShift_set_scale_py E self scale ws).2 = self ∨
    ∃ s', (MeanShift_set_scale_py E self scale ws).2 = trash_all s' := by
  unfold MeanShift_set_scale_py
  split_ifs with h1
  · exact Or.inl rfl
  · exact Or.inr ⟨_, rfl⟩

theorem weightCoherent_trash_all (E : Env) (s : MeanShift) :
    WeightCoherent E (trash_all s) := by
  left; rw [trash_all_weight]; norm_num

theorem weightCoherent_weight (E : Env) (s : MeanShift) (hc : WeightCoherent E s) :
    WeightCoherent E (MeanShift_weight E s).1 ∧ (MeanShift_weight E s).1.dm = s.dm ∧
    (MeanShift_weight E s).2 = E.calc_weight s.dm ∧
    (MeanShift_weight E s).1.kernel = s.kernel ∧ (MeanShift_weight E s).1.config = s.config ∧
    (MeanShift_weight E s).1.spatial = s.spatial ∧
    (MeanShift_weight E s).1.quality = s.quality := by
  by_cases hw : s.weight < 0
  · simp [MeanShift_weight, hw, WeightCoherent]
  · rcases hc with hc | hc
    · exact absurd hc hw
    · simp only [MeanShift_weight, if_neg hw, and_true, true_and]
      exact ⟨Or.inr hc, hc⟩

theorem weightCoherent_ensure_spatial (E : Env) (s : MeanShift) (hc : WeightCoherent E s) :
    WeightCoherent E (ensure_spatial E s) := hc

theorem weightCoherent_ensure_norm (E : Env) (h : Heap) (s : MeanShift)
    (hc : WeightCoherent E s) : WeightCoherent E (ensure_norm E h s) := by
  unfold ensure_norm
  split_ifs with hn
  · have hw := weightCoherent_weight E s hc
    exact hw.1
  · exact hc

/-- `prob` either fails and changes nothing or runs the two blocks. -/
theorem prob_cases (E : Env) (h : Heap) (self : MeanShift) (start : PyArray) :
    (MeanShift_prob_py E h self start).2 = self ∨
    (MeanShift_prob_py E h self start).2 = ensure_norm E h (ensure_spatial E self) := by
  by_cases h1 : PyArray_NDIM start ≠ 1 ∨ start.dims.getD 0 0 ≠ E.DataMatrix_features self.dm
  · left; simp only [MeanShift_prob_py, if_pos h1]
  · right; simp only [MeanShift_prob_py, if_neg h1]

theorem weightCoherent_scaled (E : Env) (hE : E.WeightIgnoresMult) (s : MeanShift)
    (m sd : List ℚ) (hc : WeightCoherent E s) :
    WeightCoherent E (trash_scaled { s with
      dm := (E.DataMatrix_set_scale { s.dm with mult := m } sd
        ({ s.dm with mult := m } : DataMatrix).weight_scale) }) := by
  unfold WeightCoherent at hc ⊢
  rw [trash_scaled_weight, trash_scaled_dm]
  rcases hc with hc | hc
  · exact Or.inl hc
  · right
    show s.weight = _
    rw [hE.set_scale, hE.mult_write]
    exact hc

/-- In every state a façade can reach, the cached total weight is unset or is
the total weight of the data matrix in place, when the total weight does not
depend on the scale vector. -/
theorem reachable_weightCoherent (E : Env) (hE : E.WeightIgnoresMult) (s : MeanShift)
    (hs : Reachable E s) : WeightCoherent E s := by
  induction hs with
  | new => left; simp [MeanShift_new]
  | @set_kernel s0 h kname _ ih =>
    have hf := set_kernel_loop_frame E kname h s0 E.ListKernel
    unfold WeightCoherent MeanShift_set_kernel_py at *
    rw [hf.2.2.1, hf.2.2.2.1]; exact ih
  | @copy_kernel s0 h mem self other hm _ ih =>
    have hf := copy_kernel_frame h mem self other
    unfold WeightCoherent at *
    rw [hf.2.1, hf.2.2.1, hm]; exact ih
  | @set_spatial s0 sname _ ih =>
    have hf := set_spatial_loop_frame sname s0 E.ListSpatial
    unfold WeightCoherent MeanShift_set_spatial_py at *
    rw [hf.1, hf.2]; exact ih
  | @set_balls s0 bname _ ih =>
    have hf := set_balls_loop_frame bname s0 E.ListBalls
    unfold WeightCoherent MeanShift_set_balls_py at *
    rw [hf.1, hf.2]; exact ih
  | @set_data s0 junk data dim_types wi _ ih =>
    rcases set_data_cases E junk s0 data dim_types wi with hc | ⟨s', hc⟩
    · rw [hc]; exact ih
    · rw [hc]; exact weightCoherent_trash_all E s'
  | @set_scale s0 scale ws _ ih =>
    rcases set_scale_cases E s0 scale ws with hc | ⟨s', hc⟩
    · rw [hc]; exact ih
    · rw [hc]; exact weightCoherent_trash_all E s'
  | @weight s0 _ ih => exact (weightCoherent_weight E s0 ih).1
  | @scale_silverman s0 _ ih => exact weightCoherent_scaled E hE s0 _ _ ih
  | @scale_scott s0 _ ih => exact weightCoherent_scaled E hE s0 _ _ ih
  | @prob s0 h start _ ih =>
    rcases prob_cases E h s0 start with hc | hc
    · rw [hc]; exact ih
    · rw [hc]; exact weightCoherent_ensure_norm E h _ (weightCoherent_ensure_spatial E s0 ih)
  | @loo_nll s0 h limit _ ih =>
    exact weightCoherent_ensure_norm E h _ (weightCoherent_ensure_spatial E s0 ih)
  | @density s0 h _ ih =>
    exact weightCoherent_ensure_norm E h _ (weightCoherent_ensure_spatial E s0 ih)
  | @indexed s0 _ ih => exact ih
  | @cluster s0 b _ ih => exact ih
  | @members s0 _ _ _ _ _ _ _ ih => exact ih

/-- A `prob` call that passes the argument check in a state whose normaliser is
unset and whose cached total weight is coherent recomputes the fresh
normaliser and uses it. -/
theorem prob_of_unset_norm (E : Env) (hp : Heap) (s : MeanShift) (start : PyArray)
    (hn : s.norm < 0) (hc : WeightCoherent E s) (ha : ProbAccepts E s start) :
    ProbRecomputesNorm E hp s start := by
  have hw := weightCoherent_weight E (ensure_spatial E s) hc
  have hcheck : ¬ (PyArray_NDIM start ≠ 1 ∨ start.dims.getD 0 0 ≠ E.DataMatrix_features s.dm) := by
    rintro (h1 | h1)
    · exact h1 ha.1
    · exact h1 ha.2
  have hn' : (ensure_spatial E s).norm < 0 := hn
  refine ⟨hn, ?_, ?_⟩
  · unfold MeanShift_prob_py
    rw [if_neg hcheck]
    simp only [ensure_norm, if_pos hn']
    rw [hw.2.2.1, hw.2.1, hw.2.2.2.1, hw.2.2.2.2.1]
    rfl
  · unfold MeanShift_prob_py
    rw [if_neg hcheck]
    simp only [ensure_norm, if_pos hn', the_spatial, scaled_query]
    rw [hw.2.2.1, hw.2.1, hw.2.2.2.1, hw.2.2.2.2.1, hw.2.2.2.2.2.1, hw.2.2.2.2.2.2]
    rfl

/-- The total weight of the sample environment does not depend on the scale
vector. -/
theorem sampleEnv_weightIgnoresMult : sampleEnv.WeightIgnoresMult :=
  ⟨fun _ _ => rfl, fun _ _ => rfl⟩

/-- The sample façade `sampleReached` is a reachable state. -/
theorem sampleReached_reachable : Reachable sampleEnv sampleReached :=
  Reachable.prob [] sampleVector
    (Reachable.set_data sampleJunk sampleArray ['d', 'f'] none Reachable.new)

/-- C6: in every state a façade can be in (reachable from a new façade by the
methods), after `set_data`, `set_scale` or `set_kernel` has returned without
failing, or `scale_silverman` or `scale_scott` has returned, a `prob` call that
passes its argument check finds the normaliser unset, leaves
`calc_norm(dm, kernel, config, calc_weight(dm))` of the data matrix, kernel and
configuration in place cached, and evaluates the density with that value, which
is the value a façade with nothing cached computes. Where the setter leaves
the total weight cached (`set_kernel` and the two bandwidth rules) the cached
value is the freshly computed one; this rests on the total weight not
depending on the scale vector (`Env.WeightIgnoresMult`). -/
theorem prob_after_setter_uses_fresh_norm (E : Env) (hE : E.WeightIgnoresMult) (s : MeanShift)
    (hs : Reachable E s) (h hp : Heap) (junk : Nat → DimType) (data : PyArray)
    (dim_types : CStr) (wi : Option PyObj) (scale : PyArray) (ws : ℚ) (kname : CStr)
    (start : PyArray) :
    ((MeanShift_set_data_py E junk s data dim_types wi).1.value ≠ none →
      ProbAccepts E (MeanShift_set_data_py E junk s data dim_types wi).2 start →
      ProbRecomputesNorm E hp (MeanShift_set_data_py E junk s data dim_types wi).2 start) ∧
    ((MeanShift_set_scale_py E s scale ws).1.value ≠ none →
      ProbAccepts E (MeanShift_set_scale_py E s scale ws).2 start →
      ProbRecomputesNorm E hp (MeanShift_set_scale_py E s scale ws).2 start) ∧
    ((MeanShift_set_kernel_py E h s kname).1.value ≠ none →
      ProbAccepts E (MeanShift_set_kernel_py E h s kname).2.2 start →
      ProbRecomputesNorm E hp (MeanShift_set_kernel_py E h s kname).2.2 start) ∧
    (ProbAccepts E (MeanShift_scale_silverman_py E s).2 start →
      ProbRecomputesNorm E hp (MeanShift_scale_silverman_py E s).2 start) ∧
    (ProbAccepts E (MeanShift_scale_scott_py E s).2 start →
      ProbRecomputesNorm E hp (MeanShift_scale_scott_py E s).2 start) := by
  refine ⟨?_, ?_, ?_, ?_, ?_⟩
  · intro hv ha
    refine prob_of_unset_norm E hp _ start ?_
      (reachable_weightCoherent E hE _ (Reachable.set_data junk data dim_types wi hs)) ha
    obtain ⟨w, hw⟩ := set_data_value E junk s data dim_types wi hv
    rw [hw, trash_all_norm]; norm_num
  · intro hv ha
    refine prob_of_unset_norm E hp _ start ?_
      (reachable_weightCoherent E hE _ (Reachable.set_scale scale ws hs)) ha
    rw [set_scale_value E s scale ws hv, trash_all_norm]; norm_num
  · intro hv ha
    refine prob_of_unset_norm E hp _ start ?_
      (reachable_weightCoherent E hE _ (Reachable.set_kernel h kname hs)) ha
    have hf := set_kernel_loop_frame E kname h s E.ListKernel
    unfold MeanShift_set_kernel_py at hv ⊢
    rw [hf.2.2.2.2 hv]; norm_num
  · intro ha
    refine prob_of_unset_norm E hp _ start ?_
      (reachable_weightCoherent E hE _ (Reachable.scale_silverman hs)) ha
    simp [MeanShift_scale_silverman_py, trash_scaled_norm]
  · intro ha
    refine prob_of_unset_norm E hp _ start ?_
      (reachable_weightCoherent E hE _ (Reachable.scale_scott hs)) ha
    simp [MeanShift_scale_scott_py, trash_scaled_norm]

/-- Witness of C6 on `sampleReached`, a reachable state of the sample
environment in which the total weight and the normaliser are cached. -/
theorem prob_after_setter_uses_fresh_norm_witness :
    sampleEnv.WeightIgnoresMult ∧ Reachable sampleEnv sampleReached ∧
    ProbRecomputesNorm sampleEnv []
      (MeanShift_set_data_py sampleEnv sampleJunk sampleReached sampleArray ['d', 'f'] none).2
      sampleVector ∧
    ProbRecomputesNorm sampleEnv []
      (MeanShift_set_scale_py sampleEnv sampleReached sampleScale 1).2 sampleVector ∧
    ProbRecomputesNorm sampleEnv []
      (MeanShift_set_kernel_py sampleEnv [] sampleReached
        ['f', 'i', 's', 'h', 'e', 'r', '(', '4', ')']).2.2 sampleVector ∧
    ProbRecomputesNorm sampleEnv [] (MeanShift_scale_silverman_py sampleEnv sampleReached).2
      sampleVector ∧
    ProbRecomputesNorm sampleEnv [] (MeanShift_scale_scott_py sampleEnv sampleReached).2
      sampleVector :=
  have hthm := prob_after_setter_uses_fresh_norm sampleEnv sampleEnv_weightIgnoresMult
    sampleReached sampleReached_reachable [] [] sampleJunk sampleArray ['d', 'f'] none
    sampleScale 1 ['f', 'i', 's', 'h', 'e', 'r', '(', '4', ')'] sampleVector
  ⟨sampleEnv_weightIgnoresMult, sampleReached_reachable,
    hthm.1 (by decide) ⟨by decide, by decide⟩,
    hthm.2.1 (by decide) ⟨by decide, by decide⟩,
    hthm.2.2.1 (by decide) ⟨by decide, by decide⟩,
    hthm.2.2.2.1 ⟨by decide, by decide⟩,
    hthm.2.2.2.2 ⟨by decide, by decide⟩⟩

/-! ## The weight index of `set_data` -/

/-- When every character of the type string is one of 'd', 'f', 'b', the check
loop of `set_data` leaves the error indicator alone. -/
theorem no_bad_code (dim_types : CStr) (n : Nat) (hn : n ≤ dim_types.length)
    (htags : ∀ c ∈ dim_types, bad_dim_code c = false) :
    ((List.range n).any fun i => bad_dim_code (dim_types.getD i ' ')) = false := by
  rw [List.any_eq_false]
  intro i hi
  have hlt : i < dim_types.length := lt_of_lt_of_le (List.mem_range.mp hi) hn
  rw [List.getD_eq_getElem _ _ hlt]
  simp [htags _ (List.getElem_mem hlt)]

/-- C11, counterexample: the sample array with the type string `df` has two
feature slots; with the weight index 7, and with the weight index -3,
`set_data` returns `None` with no error set and the data matrix of the façade
holds the array with that weight index. -/
theorem set_data_takes_any_weight_index :
    (MeanShift_set_data_py sampleEnv sampleJunk sampleState sampleArray ['d', 'f']
      (some (PyObj.Int 7))).1 = ⟨some PyObj.None, none⟩ ∧
    (MeanShift_set_data_py sampleEnv sampleJunk sampleState sampleArray ['d', 'f']
      (some (PyObj.Int 7))).2.dm.array = some sampleArray ∧
    (MeanShift_set_data_py sampleEnv sampleJunk sampleState sampleArray ['d', 'f']
      (some (PyObj.Int 7))).2.dm.weight_index = 7 ∧
    (MeanShift_set_data_py sampleEnv sampleJunk sampleState sampleArray ['d', 'f']
      (some (PyObj.Int (-3)))).1 = ⟨some PyObj.None, none⟩ ∧
    (MeanShift_set_data_py sampleEnv sampleJunk sampleState sampleArray ['d', 'f']
      (some (PyObj.Int (-3)))).2.dm.array = some sampleArray ∧
    (MeanShift_set_data_py sampleEnv sampleJunk sampleState sampleArray ['d', 'f']
      (some (PyObj.Int (-3)))).2.dm.weight_index = -3 := by
  refine ⟨by decide, by decide, by decide, by decide, by decide, by decide⟩

/-- C11, amended: for an array and a type string that pass the checks (length
equal to the rank, a supported kind, every tag one of 'd', 'f', 'b'),
`set_data` does not look at the value of an integer weight index: whatever it
is, the call hands it as a C `int` to `DataMatrix_set`, runs the trashing block
and returns `None` with no error. The call fails, and leaves the façade as it
was, when the weight index is neither `None` nor an integer. -/
theorem set_data_weight_index_unchecked (E : Env) (junk : Nat → DimType) (self : MeanShift)
    (data : PyArray) (dim_types : CStr) (v : Int) (o : PyObj)
    (hlen : dim_types.length = PyArray_NDIM data)
    (hkind : data.kind = 'b' ∨ data.kind = 'i' ∨ data.kind = 'u' ∨ data.kind = 'f')
    (htags : ∀ c ∈ dim_types, bad_dim_code c = false) :
    MeanShift_set_data_py E junk self data dim_types (some (PyObj.Int v)) =
      (⟨some PyObj.None, none⟩,
        trash_all { self with
          dm := (E.DataMatrix_set self.dm data (fill_dt junk dim_types (PyArray_NDIM data))
            (int_of_long v)) }) ∧
    (o ≠ PyObj.None → (∀ u, o ≠ PyObj.Int u) →
      MeanShift_set_data_py E junk self data dim_types (some o) =
        (Ret.fail ("weight index must be an integer"), self)) := by
  have h1 : ¬ dim_types.length ≠ PyArray_NDIM data := fun hc => hc hlen
  have h2 : ¬ (data.kind ≠ 'b' ∧ data.kind ≠ 'i' ∧ data.kind ≠ 'u' ∧ data.kind ≠ 'f') := by
    rintro ⟨hb, hi, hu, hf⟩
    rcases hkind with hk | hk | hk | hk
    · exact hb hk
    · exact hi hk
    · exact hu hk
    · exact hf hk
  have h3 := no_bad_code dim_types (PyArray_NDIM data) (le_of_eq hlen.symm) htags
  constructor
  · unfold MeanShift_set_data_py
    rw [if_neg h1, if_neg h2]
    simp only [h3, Ret.none_with]
    rfl
  · intro hnone hint
    unfold MeanShift_set_data_py
    rw [if_neg h1, if_neg h2]
    cases o with
    | None => exact absurd rfl hnone
    | Int u => exact absurd rfl (hint u)
    | Float x => rfl
    | Str x => rfl
    | Array x => rfl
    | Other => rfl

/-- Witness of the amended C11: the sample array with the type string `df`, the
weight index 7 and, for the failing case, a float as weight index. -/
theorem set_data_weight_index_unchecked_witness :
    (['d', 'f'] : CStr).length = PyArray_NDIM sampleArray ∧
    (sampleArray.kind = 'b' ∨ sampleArray.kind = 'i' ∨ sampleArray.kind = 'u' ∨
      sampleArray.kind = 'f') ∧
    (∀ c ∈ (['d', 'f'] : CStr), bad_dim_code c = false) ∧
    MeanShift_set_data_py sampleEnv sampleJunk sampleState sampleArray ['d', 'f']
        (some (PyObj.Int 7)) =
      (⟨some PyObj.None, none⟩,
        trash_all { sampleState with
          dm := (sampleEnv.DataMatrix_set sampleState.dm sampleArray
            (fill_dt sampleJunk ['d', 'f'] (PyArray_NDIM sampleArray)) (int_of_long 7)) }) ∧
    (PyObj.Float 1 ≠ PyObj.None → (∀ u, PyObj.Float 1 ≠ PyObj.Int u) →
      MeanShift_set_data_py sampleEnv sampleJunk sampleState sampleArray ['d', 'f']
          (some (PyObj.Float 1)) =
        (Ret.fail ("weight index must be an integer"), sampleState)) :=
  have hlen : (['d', 'f'] : CStr).length = PyArray_NDIM sampleArray := by decide
  have hkind : sampleArray.kind = 'b' ∨ sampleArray.kind = 'i' ∨ sampleArray.kind = 'u' ∨
      sampleArray.kind = 'f' := by decide
  have htags : ∀ c ∈ (['d', 'f'] : CStr), bad_dim_code c = false := by decide
  ⟨hlen, hkind, htags,
    set_data_weight_index_unchecked sampleEnv sampleJunk sampleState sampleArray ['d', 'f'] 7
      (PyObj.Float 1) hlen hkind htags⟩

/-! ## Unknown spatial and balls names, and queries without balls -/

theorem set_spatial_loop_none (sname : CStr) (self : MeanShift) (L : List SpatialType)
    (hL : ∀ t ∈ L, t.name ≠ sname) :
    set_spatial_loop sname self L = (Ret.fail ("unrecognised spatial type"), self) := by
  induction L with
  | nil => rfl
  | cons u rest ih =>
    unfold set_spatial_loop
    have hu : ¬ strcmp_eq0 u.name sname = true := by
      simpa [strcmp_eq0] using hL u (List.mem_cons_self _ _)
    rw [if_neg hu]
    exact ih fun t ht => hL t (List.mem_cons_of_mem _ ht)

theorem set_balls_loop_none (bname : CStr) (self : MeanShift) (L : List BallsType)
    (hL : ∀ t ∈ L, t.name ≠ bname) :
    set_balls_loop bname self L = (Ret.fail ("unrecognised balls type"), self) := by
  induction L with
  | nil => rfl
  | cons u rest ih =>
    unfold set_balls_loop
    have hu : ¬ strcmp_eq0 u.name bname = true := by
      simpa [strcmp_eq0] using hL u (List.mem_cons_self _ _)
    rw [if_neg hu]
    exact ih fun t ht => hL t (List.mem_cons_of_mem _ ht)

/-- C20: for a string that equals no registered spatial name, `set_spatial`
returns `NULL` with the error indicator set and leaves the façade, the spatial
type and the spatial instance included, as it was; for a string that equals
no registered balls name, `set_balls` does the same with the balls type and
the balls instance. -/
theorem set_spatial_set_balls_unknown_name (E : Env) (self : MeanShift) (sname bname : CStr) :
    ((∀ t ∈ E.ListSpatial, t.name ≠ sname) →
      (MeanShift_set_spatial_py E self sname).1.value = none ∧
      (MeanShift_set_spatial_py E self sname).1.error ≠ none ∧
      (MeanShift_set_spatial_py E self sname).2 = self) ∧
    ((∀ t ∈ E.ListBalls, t.name ≠ bname) →
      (MeanShift_set_balls_py E self bname).1.value = none ∧
      (MeanShift_set_balls_py E self bname).1.error ≠ none ∧
      (MeanShift_set_balls_py E self bname).2 = self) := by
  constructor
  · intro hs
    unfold MeanShift_set_spatial_py
    rw [set_spatial_loop_none sname self E.ListSpatial hs]
    simp [Ret.fail]
  · intro hb
    unfold MeanShift_set_balls_py
    rw [set_balls_loop_none bname self E.ListBalls hb]
    simp [Ret.fail]

/-- Witness of C20: the string `kd` is a proper prefix of the registered
spatial name `kd_tree`, and `hash ` with a trailing blank is no balls name. -/
theorem set_spatial_set_balls_unknown_name_witness :
    (∀ t ∈ sampleEnv.ListSpatial, t.name ≠ ['k', 'd']) ∧
    (∀ t ∈ sampleEnv.ListBalls, t.name ≠ ['h', 'a', 's', 'h', ' ']) ∧
    ((MeanShift_set_spatial_py sampleEnv sampleState ['k', 'd']).1.value = none ∧
      (MeanShift_set_spatial_py sampleEnv sampleState ['k', 'd']).1.error ≠ none ∧
      (MeanShift_set_spatial_py sampleEnv sampleState ['k', 'd']).2 = sampleState) ∧
    ((MeanShift_set_balls_py sampleEnv sampleState ['h', 'a', 's', 'h', ' ']).1.value = none ∧
      (MeanShift_set_balls_py sampleEnv sampleState ['h', 'a', 's', 'h', ' ']).1.error ≠ none ∧
      (MeanShift_set_balls_py sampleEnv sampleState ['h', 'a', 's', 'h', ' ']).2 = sampleState) :=
  have hs : ∀ t ∈ sampleEnv.ListSpatial, t.name ≠ ['k', 'd'] := by decide
  have hb : ∀ t ∈ sampleEnv.ListBalls, t.name ≠ ['h', 'a', 's', 'h', ' '] := by decide
  ⟨hs, hb,
    (set_spatial_set_balls_unknown_name sampleEnv sampleState ['k', 'd']
      ['h', 'a', 's', 'h', ' ']).1 hs,
    (set_spatial_set_balls_unknown_name sampleEnv sampleState ['k', 'd']
      ['h', 'a', 's', 'h', ' ']).2 hb⟩

/-- C16: on a façade without balls instance, `assign_cluster` and
`assign_clusters` return `NULL` with the error indicator set for every
argument and leave the façade as it was, the absent spatial index included;
for a vector that passes the argument check of `assign_cluster` (one dimension
of length F) the error is the one that asks for `cluster` to be run first. -/
theorem assign_cluster_without_balls (E : Env) (h : Heap) (self : MeanShift) (start : PyArray)
    (hb : self.balls = none) :
    ((MeanShift_assign_cluster_py E h self start).1.value = none ∧
      (MeanShift_assign_cluster_py E h self start).1.error ≠ none ∧
      (MeanShift_assign_cluster_py E h self start).2 = self) ∧
    ((MeanShift_assign_clusters_py E h self start).1.value = none ∧
      (MeanShift_assign_clusters_py E h self start).1.error ≠ none ∧
      (MeanShift_assign_clusters_py E h self start).2 = self) ∧
    (ProbAccepts E self start →
      MeanShift_assign_cluster_py E h self start =
        (Ret.fail ("the cluster method must be run before the assign_cluster method."), self)) := by
  refine ⟨?_, ?_, ?_⟩
  · by_cases hc : PyArray_NDIM start ≠ 1 ∨ start.dims.getD 0 0 ≠ E.DataMatrix_features self.dm
    · simp only [MeanShift_assign_cluster_py, if_pos hc, Ret.fail]
      simp
    · simp only [MeanShift_assign_cluster_py, if_neg hc, hb, Ret.fail]
      simp
  · by_cases hc : PyArray_NDIM start ≠ 2 ∨ start.dims.getD 1 0 ≠ E.DataMatrix_features self.dm
    · simp only [MeanShift_assign_clusters_py, if_pos hc, Ret.fail]
      simp
    · simp only [MeanShift_assign_clusters_py, if_neg hc, hb, Ret.fail]
      simp
  · intro ha
    have hc : ¬ (PyArray_NDIM start ≠ 1 ∨
        start.dims.getD 0 0 ≠ E.DataMatrix_features self.dm) := by
      rintro (h1 | h1)
      · exact h1 ha.1
      · exact h1 ha.2
    unfold MeanShift_assign_cluster_py
    simp only [if_neg hc, hb]

/-- Witness of C16: the sample façade after `set_data`, which has dropped the
balls and the spatial, queried with a vector of two entries. -/
theorem assign_cluster_without_balls_witness :
    (MeanShift_set_data_py sampleEnv sampleJunk sampleState sampleArray ['d', 'f'] none).2.balls
      = none ∧
    (((MeanShift_assign_cluster_py sampleEnv []
          (MeanShift_set_data_py sampleEnv sampleJunk sampleState sampleArray ['d', 'f'] none).2
          sampleVector).1.value = none ∧
      (MeanShift_assign_cluster_py sampleEnv []
          (MeanShift_set_data_py sampleEnv sampleJunk sampleState sampleArray ['d', 'f'] none).2
          sampleVector).1.error ≠ none ∧
      (MeanShift_assign_cluster_py sampleEnv []
          (MeanShift_set_data_py sampleEnv sampleJunk sampleState sampleArray ['d', 'f'] none).2
          sampleVector).2 =
        (MeanShift_set_data_py sampleEnv sampleJunk sampleState sampleArray ['d', 'f'] none).2) ∧
    ((MeanShift_assign_clusters_py sampleEnv []
          (MeanShift_set_data_py sampleEnv sampleJunk sampleState sampleArray ['d', 'f'] none).2
          sampleVector).1.value = none ∧
      (MeanShift_assign_clusters_py sampleEnv []
          (MeanShift_set_data_py sampleEnv sampleJunk sampleState sampleArray ['d', 'f'] none).2
          sampleVector).1.error ≠ none ∧
      (MeanShift_assign_clusters_py sampleEnv []
          (MeanShift_set_data_py sampleEnv sampleJunk sampleState sampleArray ['d', 'f'] none).2
          sampleVector).2 =
        (MeanShift_set_data_py sampleEnv sampleJunk sampleState sampleArray ['d', 'f'] none).2) ∧
    (ProbAccepts sampleEnv
        (MeanShift_set_data_py sampleEnv sampleJunk sampleState sampleArray ['d', 'f'] none).2
        sampleVector →
      MeanShift_assign_cluster_py sampleEnv []
          (MeanShift_set_data_py sampleEnv sampleJunk sampleState sampleArray ['d', 'f'] none).2
          sampleVector =
        (Ret.fail ("the cluster method must be run before the assign_cluster method."),
          (MeanShift_set_data_py sampleEnv sampleJunk sampleState sampleArray ['d', 'f']
            none).2))) :=
  have hb : (MeanShift_set_data_py sampleEnv sampleJunk sampleState sampleArray ['d', 'f']
      none).2.balls = none := by decide
  ⟨hb, assign_cluster_without_balls sampleEnv []
    (MeanShift_set_data_py sampleEnv sampleJunk sampleState sampleArray ['d', 'f'] none).2
    sampleVector hb⟩

/-! ## Rows of sampled arrays -/

/-- A loop that writes one row of `F` entries after the other fills `n * F`
entries. -/
theorem flatMap_rows_length (F n : Nat) (f : Nat → List ℚ) (hf : ∀ k, (f k).length = F) :
    ((List.range n).flatMap f).length = n * F := by
  induction n with
  | zero => simp
  | succ n ih =>
    rw [List.range_succ, List.flatMap_append, List.length_append, ih]
    simp [hf, Nat.succ_mul]

/-- Entry `j` of row `k` of an array written row by row is entry `j` of the
row written in round `k`. -/
theorem flatMap_rows_getD (F n : Nat) (f : Nat → List ℚ) (hf : ∀ k, (f k).length = F)
    (k j : Nat) (hk : k < n) (hj : j < F) :
    ((List.range n).flatMap f).getD (k * F + j) 0 = (f k).getD j 0 := by
  induction n with
  | zero => exact absurd hk (Nat.not_lt_zero _)
  | succ n ih =>
    rw [List.range_succ, List.flatMap_append]
    rcases Nat.lt_succ_iff_lt_or_eq.mp hk with hlt | heq
    · rw [List.getD_append _ _ _ _ ?_]
      · exact ih hlt
      · rw [flatMap_rows_length F n f hf]
        calc k * F + j < k * F + F := by omega
          _ = (k + 1) * F := by ring
          _ ≤ n * F := Nat.mul_le_mul_right F hlt
    · subst heq
      rw [List.getD_append_right _ _ _ _ ?_]
      · rw [flatMap_rows_length F k f hf]
        simp
      · rw [flatMap_rows_length F k f hf]
        omega

/-- Entry `j` of a list computed for the indices below `F`. -/
theorem getD_map_range (F : Nat) (g : Nat → ℚ) (j : Nat) (hj : j < F) :
    ((List.range F).map g).getD j 0 = g j := by
  rw [List.getD_eq_getElem _ _ (by simpa using hj)]
  simp

theorem written_length (F : Nat) (out : List ℚ) : (written F out).length = F := by
  simp [written]

/-- A counter that stays below 2^32 is not changed by the 32 bit wrap-around. -/
theorem uint_of_small (k n : Nat) (hk : k < n) (hn : n ≤ 4294967296) : uint_of k = k := by
  unfold uint_of
  exact Nat.mod_eq_of_lt (by omega)

/-- A loop counter that starts below 2^32 never reaches a bound of 2^32 or
more: however many rounds are followed, the loop does not end. -/
theorem rows_loop_no_end (row : Nat → List ℚ) (dn : Bool) (shape0 : Int)
    (hbig : 4294967296 ≤ shape0) :
    ∀ (fuel c : Nat) (rows r : Nat → List ℚ), c < 4294967296 →
      rows_loop row dn shape0 fuel c rows ≠ Run.done r := by
  intro fuel
  induction fuel with
  | zero => intro c rows r _; simp [rows_loop]
  | succ fuel ih =>
    intro c rows r hc
    have hlt : (c : Int) < shape0 := by omega
    unfold rows_loop
    rw [if_pos hlt]
    cases dn with
    | true => simp
    | false =>
      simp only [Bool.false_eq_true, if_false]
      exact ih _ _ r (Nat.mod_lt _ (by decide))

/-- With a bound `N` below 2^32 and `ret` allocated, the loop ends once it is
followed for more than the rounds still to go, and it has then written the
rows from the counter up to `N`. -/
theorem rows_loop_done (row : Nat → List ℚ) (N : Nat) (hN : N < 4294967296) :
    ∀ (d c : Nat) (rows : Nat → List ℚ) (fuel : Nat), c + d = N → d < fuel →
      rows_loop row false (N : Int) fuel c rows =
        Run.done (fun k => if c ≤ k ∧ k < N then row k else rows k) := by
  intro d
  induction d with
  | zero =>
    intro c rows fuel hc hf
    obtain ⟨f, rfl⟩ : ∃ f, fuel = f + 1 := ⟨fuel - 1, by omega⟩
    have hnlt : ¬ ((c : Int) < (N : Int)) := by omega
    unfold rows_loop
    rw [if_neg hnlt]
    congr 1
    funext k
    have : ¬ (c ≤ k ∧ k < N) := by omega
    rw [if_neg this]
  | succ d ih =>
    intro c rows fuel hc hf
    obtain ⟨f, rfl⟩ : ∃ f, fuel = f + 1 := ⟨fuel - 1, by omega⟩
    have hlt : (c : Int) < (N : Int) := by omega
    have hu : uint_of (c + 1) = c + 1 := by
      unfold uint_of
      exact Nat.mod_eq_of_lt (by omega)
    unfold rows_loop
    rw [if_pos hlt]
    simp only [Bool.false_eq_true, if_false]
    rw [hu, ih (c + 1) _ f (by omega) (by omega)]
    congr 1
    funext k
    by_cases hk : k = c
    · subst hk
      have h1 : ¬ (k + 1 ≤ k ∧ k < N) := by omega
      have h2 : k ≤ k ∧ k < N := by omega
      rw [if_neg h1, if_pos h2]
      simp
    · by_cases hr : c ≤ k ∧ k < N
      · have h1 : c + 1 ≤ k ∧ k < N := by omega
        rw [if_pos h1, if_pos hr]
      · have h1 : ¬ (c + 1 ≤ k ∧ k < N) := by omega
        rw [if_neg h1, if_neg hr, Function.update_noteq hk]

theorem flatMap_range_congr (n : Nat) (f g : Nat → List ℚ) (hfg : ∀ k, k < n → f k = g k) :
    (List.range n).flatMap f = (List.range n).flatMap g := by
  induction n with
  | zero => rfl
  | succ n ih =>
    rw [List.range_succ, List.flatMap_append, List.flatMap_append,
      ih (fun k hk => hfg k (by omega))]
    simp [hfg n (by omega)]

/-- With the upper half of the slot zero, the word parsed is the count. -/
theorem parse_i_zero_high (high N : Nat) (hh : high % 4294967296 = 0) (hN : N ≤ 2147483647) :
    parse_i_into_intp high (N : Int) = (N : Int) := by
  have hmod : ((N : Int) % 4294967296) = (N : Int) := Int.emod_eq_of_lt (by omega) (by omega)
  unfold parse_i_into_intp
  simp only [hh, hmod, Int.toNat_ofNat, Nat.zero_mul, Nat.zero_add]
  rw [if_pos (by omega)]

/-- When the upper half of the slot of `shape[0]` is zero, the count is a
non-negative `int`, the memory is to be had and the loop is followed for more
than `N` rounds, `draws` returns the `N` by F array whose row `k` holds the
floats of `draw(i0, i1, k)`. -/
theorem draws_returns (E : Env) (h : Heap) (self : MeanShift) (fuel avail high N i0 i1 : Nat)
    (hh : high % 4294967296 = 0) (hN : N ≤ 2147483647)
    (hav : N * E.DataMatrix_features self.dm ≤ avail) (hf : N < fuel) :
    MeanShift_draws_py E h self fuel avail high (N : Int) i0 i1 =
      Run.done (some
        { kind := 'f', dims := [N, E.DataMatrix_features self.dm],
          data := (List.range N).flatMap fun k =>
            written (E.DataMatrix_features self.dm)
              (E.draw h self.dm self.kernel self.config i0 i1 k) }) := by
  have hr : ¬ ((N : Int) < -2147483648 ∨ 2147483647 < (N : Int)) := by omega
  have hnew : PyArray_SimpleNew2 avail (N : Int) (E.DataMatrix_features self.dm) =
      some { kind := 'f', dims := [N, E.DataMatrix_features self.dm],
             data := List.replicate (N * E.DataMatrix_features self.dm) 0 } := by
    unfold PyArray_SimpleNew2
    rw [if_neg]
    · simp
    · simp only [Int.toNat_ofNat]
      omega
  unfold MeanShift_draws_py
  rw [if_neg hr]
  simp only [parse_i_zero_high high N hh hN, hnew, Option.isNone_some]
  rw [rows_loop_done _ N (by omega) N 0 _ fuel (by omega) hf]
  simp only [Option.map_some', Int.toNat_ofNat]
  congr 3
  exact flatMap_range_congr N _ _ (fun k hk => by simp [hk])

/-- When the word parsed into `shape[0]` is 2^32 or more, `draws` does not
return, however long the loop is followed and whatever memory there is. -/
theorem draws_no_return (E : Env) (h : Heap) (self : MeanShift) (high : Nat) (n : Int)
    (i0 i1 : Nat) (hr : ¬ (n < -2147483648 ∨ 2147483647 < n))
    (hbig : 4294967296 ≤ parse_i_into_intp high n) (fuel avail : Nat) (r : Option PyArray) :
    MeanShift_draws_py E h self fuel avail high n i0 i1 ≠ Run.done r := by
  unfold MeanShift_draws_py
  rw [if_neg hr]
  simp only
  have hloop := rows_loop_no_end
    (fun k => written (E.DataMatrix_features self.dm)
      (E.draw h self.dm self.kernel self.config i0 i1 k))
    (PyArray_SimpleNew2 avail (parse_i_into_intp high n) (E.DataMatrix_features self.dm)).isNone
    (parse_i_into_intp high n) hbig fuel 0
    (fun _ => List.replicate (E.DataMatrix_features self.dm) 0)
  generalize rows_loop _ _ _ fuel 0 _ = res at hloop ⊢
  cases res with
  | done rows => exact absurd rfl (hloop rows (by decide))
  | crash => simp
  | out_of_fuel => simp

/-- When the upper half of the slot of `shape[0]` is zero, the count is a
non-negative `int`, the memory is to be had and the loop is followed for more
than `N` rounds, `bootstrap` returns the `N` by F array whose row `k` holds
the feature vector of the exemplar drawn for the counter `k`, each entry
divided by its scale. -/
theorem bootstrap_returns (E : Env) (self : MeanShift) (fuel avail high N i0 i1 i2 : Nat)
    (hh : high % 4294967296 = 0) (hN : N ≤ 2147483647)
    (hav : N * E.DataMatrix_features self.dm ≤ avail) (hf : N < fuel) :
    MeanShift_bootstrap_py E self fuel avail high (N : Int) i0 i1 i2 =
      Run.done (some
        { kind := 'f', dims := [N, E.DataMatrix_features self.dm],
          data := (List.range N).flatMap fun k =>
            (List.range (E.DataMatrix_features self.dm)).map fun i =>
              (E.DataMatrix_fv self.dm (E.DataMatrix_draw self.dm i0 i1 i2 k)).1.getD i 0 /
                self.dm.mult.getD i 0 }) := by
  have hr : ¬ ((N : Int) < -2147483648 ∨ 2147483647 < (N : Int)) := by omega
  have hnew : PyArray_SimpleNew2 avail (N : Int) (E.DataMatrix_features self.dm) =
      some { kind := 'f', dims := [N, E.DataMatrix_features self.dm],
             data := List.replicate (N * E.DataMatrix_features self.dm) 0 } := by
    unfold PyArray_SimpleNew2
    rw [if_neg]
    · simp
    · simp only [Int.toNat_ofNat]
      omega
  unfold MeanShift_bootstrap_py
  rw [if_neg hr]
  simp only [parse_i_zero_high high N hh hN, hnew, Option.isNone_some, Bool.false_and]
  rw [rows_loop_done _ N (by omega) N 0 _ fuel (by omega) hf]
  simp only [Option.map_some', Int.toNat_ofNat]
  congr 3
  exact flatMap_range_congr N _ _ (fun k hk => by simp [hk])

/-- When the word parsed into `shape[0]` is 2^32 or more, `bootstrap` does not
return, however long the loop is followed and whatever memory there is. -/
theorem bootstrap_no_return (E : Env) (self : MeanShift) (high : Nat) (n : Int)
    (i0 i1 i2 : Nat) (hr : ¬ (n < -2147483648 ∨ 2147483647 < n))
    (hbig : 4294967296 ≤ parse_i_into_intp high n) (fuel avail : Nat) (r : Option PyArray) :
    MeanShift_bootstrap_py E self fuel avail high n i0 i1 i2 ≠ Run.done r := by
  unfold MeanShift_bootstrap_py
  rw [if_neg hr]
  simp only
  have hloop := rows_loop_no_end
    (fun k => (List.range (E.DataMatrix_features self.dm)).map fun i =>
      (E.DataMatrix_fv self.dm (E.DataMatrix_draw self.dm i0 i1 i2 k)).1.getD i 0 /
        self.dm.mult.getD i 0)
    ((PyArray_SimpleNew2 avail (parse_i_into_intp high n)
      (E.DataMatrix_features self.dm)).isNone && decide (0 < E.DataMatrix_features self.dm))
    (parse_i_into_intp high n) hbig fuel 0
    (fun _ => List.replicate (E.DataMatrix_features self.dm) 0)
  generalize rows_loop _ _ _ fuel 0 _ = res at hloop ⊢
  cases res with
  | done rows => exact absurd rfl (hloop rows (by decide))
  | crash => simp
  | out_of_fuel => simp

/-- Row `k` of an array written row by row, read entry by entry, is the row
written in round `k`. -/
theorem array_row (a : PyArray) (F n : Nat) (f : Nat → List ℚ) (hf : ∀ k, (f k).length = F)
    (ha : a.data = (List.range n).flatMap f) (k : Nat) (hk : k < n) :
    ((List.range F).map fun j => PyArray_GETPTR2 a F k j) = f k := by
  apply List.ext_getElem (by simp [hf])
  intro j h1 h2
  have hj : j < F := by simpa using h1
  rw [List.getElem_map, List.getElem_range]
  unfold PyArray_GETPTR2
  rw [ha, flatMap_rows_getD F n f hf k j hk hj, List.getD_eq_getElem _ _ h2]

/-- C17, the code at the failing input: `draws(3, 7, 0)` on the sample façade
when the upper half of the stack slot of `shape[0]` holds 1. The format `i`
fills the lower half only, so `shape[0]` is 2^32 + 3, a bound that the
`unsigned int` counter never reaches: the call does not return, however long
the loop is followed and whatever memory there is, and without the memory the
first round reads through `NULL`. With all bits of the upper half set,
`shape[0]` is negative and the call returns `NULL`. With the upper half zero
the call returns the 3 by F array whose row `k` is the array of
`draw(7, 0, k)`. -/
theorem draws_count_reads_stack :
    parse_i_into_intp 1 3 = 4294967299 ∧
    (∀ (fuel avail : Nat) (r : Option PyArray),
      MeanShift_draws_py sampleEnv [] sampleReached fuel avail 1 3 7 0 ≠ Run.done r) ∧
    MeanShift_draws_py sampleEnv [] sampleReached 1 0 1 3 7 0 = Run.crash ∧
    parse_i_into_intp 4294967295 3 = -4294967293 ∧
    MeanShift_draws_py sampleEnv [] sampleReached 4 6 4294967295 3 7 0 = Run.done none ∧
    sampleEnv.DataMatrix_features sampleReached.dm = 2 ∧
    MeanShift_draws_py sampleEnv [] sampleReached 4 6 0 3 7 0 =
      Run.done (some
        { kind := 'f', dims := [3, 2],
          data := (List.range 3).flatMap fun k =>
            (MeanShift_draw_py sampleEnv [] sampleReached 7 0 k).data }) := by
  have hp : parse_i_into_intp 1 3 = 4294967299 := by decide
  refine ⟨hp, ?_, by decide, by decide, by decide, by decide, ?_⟩
  · intro fuel avail r
    exact draws_no_return sampleEnv [] sampleReached 1 3 7 0 (by decide) (by rw [hp]; decide)
      fuel avail r
  · exact draws_returns sampleEnv [] sampleReached 4 6 0 3 7 0 (by decide) (by decide)
      (by decide) (by decide)

/-- C18, the code at the failing input: `bootstrap(4, 7, 0, 0)` on the sample
façade, whose scale entries are not zero, when the upper half of the stack slot
of `shape[0]` holds 1. `shape[0]` is 2^32 + 4 and the call does not return,
however long the loop is followed and whatever memory there is. With the upper
half zero the call returns the 4 by F array whose row `k` is the feature
vector of the exemplar `DataMatrix_draw(dm, (7, 0, 0, k))`, each entry divided
by its scale, with nothing added. -/
theorem bootstrap_count_reads_stack :
    (∀ j, j < sampleEnv.DataMatrix_features sampleState.dm →
      sampleState.dm.mult.getD j 0 ≠ 0) ∧
    parse_i_into_intp 1 4 = 4294967300 ∧
    (∀ (fuel avail : Nat) (r : Option PyArray),
      MeanShift_bootstrap_py sampleEnv sampleState fuel avail 1 4 7 0 0 ≠ Run.done r) ∧
    MeanShift_bootstrap_py sampleEnv sampleState 1 0 1 4 7 0 0 = Run.crash ∧
    sampleEnv.DataMatrix_features sampleState.dm = 2 ∧
    MeanShift_bootstrap_py sampleEnv sampleState 5 8 0 4 7 0 0 =
      Run.done (some
        { kind := 'f', dims := [4, 2],
          data := (List.range 4).flatMap fun k =>
            (List.range 2).map fun j =>
              fv_at sampleEnv sampleState.dm j (sampleEnv.DataMatrix_draw sampleState.dm 7 0 0 k) /
                sampleState.dm.mult.getD j 0 }) := by
  have hp : parse_i_into_intp 1 4 = 4294967300 := by decide
  refine ⟨by decide, hp, ?_, by decide, by decide, ?_⟩
  · intro fuel avail r
    exact bootstrap_no_return sampleEnv sampleState 1 4 7 0 0 (by decide) (by rw [hp]; decide)
      fuel avail r
  · exact bootstrap_returns sampleEnv sampleState 5 8 0 4 7 0 0 (by decide) (by decide)
      (by decide) (by decide)

/-! ## The checks of `mult` -/

/-- What `mult` does on a list of one façade that has at least one exemplar,
with an output array of two dimensions, F columns and fewer than 2^32 rows and
accepted sampling parameters: it returns `None`, leaves the façades as they
are, and row `k` of the output holds the floats of `draw(rng0, rng1, k)`. -/
theorem mult_single_output (E : Env) (h : Heap) (mem : Nat → MeanShift) (a : Nat)
    (output : PyArray) (rng0 rng1 : Nat) (gibbs mci mh fake : Int)
    (hex : E.DataMatrix_exemplars (mem a).dm ≠ 0) (hnd : PyArray_NDIM output = 2)
    (hcols : output.dims.getD 1 0 = E.DataMatrix_features (mem a).dm)
    (hg : 1 ≤ gibbs) (hmci : 1 ≤ mci) (hmh : 1 ≤ mh) (hf0 : 0 ≤ fake) (hf2 : fake ≤ 2)
    (hn : output.dims.getD 0 0 < 4294967296) :
    MeanShift_mult_py E h mem [ListItem.MeanShift a] output rng0 rng1 gibbs mci mh fake =
      (Ret.none_with none, mem,
        { output with
          data := (List.range (output.dims.getD 0 0)).flatMap fun k =>
            (MeanShift_draw_py E h (mem a) rng0 rng1 k).data }) := by
  have hc : mult_check E mem [ListItem.MeanShift a] output gibbs mci mh fake = none := by
    unfold mult_check
    simp only [if_neg hex, mult_check_rest]
    rw [if_neg (not_not.mpr hnd), if_neg (not_not.mpr hcols), if_neg (not_lt.mpr hg),
      if_neg (not_lt.mpr hmci), if_neg (not_lt.mpr hmh)]
    rw [if_neg]
    rintro (hc | hc) <;> omega
  have hrows : ((List.range (output.dims.getD 0 0)).flatMap fun k =>
      written (E.DataMatrix_features (mem a).dm)
        (E.draw h (mem a).dm (mem a).kernel (mem a).config rng0 rng1 (uint_of k))) =
      (List.range (output.dims.getD 0 0)).flatMap fun k =>
        (MeanShift_draw_py E h (mem a) rng0 rng1 k).data := by
    apply flatMap_range_congr
    intro k hk
    rw [uint_of_small k _ hk (le_of_lt hn)]
    rfl
  unfold MeanShift_mult_py
  simp only [hc]
  rw [← hrows]
  rfl

/-- C14, the code at the failing input: `mult` on the list of the sample façade
alone, with an output of two rows and the rng words 7 and 0, returns `None`
and writes into row `k` the array of `draw(7, 0, k)`; `draws(2, 7, 0)` on the
same façade returns that matrix when the upper half of the stack slot of its
`shape[0]` is zero, and does not return at all when that half holds 1, however
long its loop is followed and whatever memory there is. -/
theorem mult_single_against_draws :
    (MeanShift_mult_py sampleEnv sampleHeap sampleMem [ListItem.MeanShift 0] sampleOutput 7 0
      16 64 8 0).1 = ⟨some PyObj.None, none⟩ ∧
    (∀ k, k < 2 →
      ((List.range 2).map fun j =>
        PyArray_GETPTR2
          (MeanShift_mult_py sampleEnv sampleHeap sampleMem [ListItem.MeanShift 0] sampleOutput
            7 0 16 64 8 0).2.2 2 k j) =
        (MeanShift_draw_py sampleEnv sampleHeap (sampleMem 0) 7 0 k).data) ∧
    MeanShift_draws_py sampleEnv sampleHeap (sampleMem 0) 3 4 0 2 7 0 =
      Run.done (some (MeanShift_mult_py sampleEnv sampleHeap sampleMem [ListItem.MeanShift 0]
        sampleOutput 7 0 16 64 8 0).2.2) ∧
    (∀ (fuel avail : Nat) (r : Option PyArray),
      MeanShift_draws_py sampleEnv sampleHeap (sampleMem 0) fuel avail 1 2 7 0 ≠ Run.done r) := by
  have hm := mult_single_output sampleEnv sampleHeap sampleMem 0 sampleOutput 7 0 16 64 8 0
    (by decide) (by decide) (by decide) (by decide) (by decide) (by decide) (by decide)
    (by decide) (by decide)
  have hd := draws_returns sampleEnv sampleHeap (sampleMem 0) 3 4 0 2 7 0 (by decide)
    (by decide) (by decide) (by decide)
  have hp : parse_i_into_intp 1 2 = 4294967298 := by decide
  rw [hm]
  refine ⟨rfl, ?_, hd, ?_⟩
  · intro k hk
    exact array_row _ 2 2 (fun k => (MeanShift_draw_py sampleEnv sampleHeap (sampleMem 0) 7 0 k).data)
      (fun k => written_length _ _) rfl k hk
  · intro fuel avail r
    exact draws_no_return sampleEnv sampleHeap (sampleMem 0) 1 2 7 0 (by decide)
      (by rw [hp]; decide) fuel avail r

/-! ## The result of `cluster` -/

/-- The index loop over the dimensions of the array collects the lengths of the
axes that are not tagged FEATURE, in order, when there is one tag for each
axis. -/
theorem non_feature_loop (ds : List Nat) (ts : List DimType) (hlen : ts.length = ds.length) :
    ((List.range ds.length).filterMap fun i =>
      if ts.getD i DimType.DIM_DATA ≠ DimType.DIM_FEATURE then some (ds.getD i 0) else none)
      = spec_assignment_shape ds ts := by
  induction ds generalizing ts with
  | nil => cases ts <;> simp [spec_assignment_shape]
  | cons d ds ih =>
    cases ts with
    | nil => simp at hlen
    | cons t ts =>
      have hlen' : ts.length = ds.length := by simpa using hlen
      rw [List.length_cons, List.range_succ_eq_map, List.filterMap_cons, List.filterMap_map]
      have hrest : List.filterMap ((fun i =>
          if (t :: ts).getD i DimType.DIM_DATA ≠ DimType.DIM_FEATURE then
            some ((d :: ds).getD i 0) else none) ∘ Nat.succ) (List.range ds.length)
          = spec_assignment_shape ds ts := by
        rw [← ih ts hlen']
        apply List.filterMap_congr
        intro i _
        simp
      rw [hrest]
      by_cases ht : t = DimType.DIM_FEATURE
      · simp [spec_assignment_shape, ht]
      · simp [spec_assignment_shape, ht]

theorem non_feature_dims_eq (dm : DataMatrix) (a : PyArray) (ha : dm.array = some a)
    (hdt : dm.dt.length = a.dims.length) :
    non_feature_dims dm = spec_assignment_shape a.dims dm.dt := by
  unfold non_feature_dims
  rw [ha]
  exact non_feature_loop a.dims dm.dt hdt

/-- C19: on a façade that holds an array with one tag for each axis, `cluster`
returns the same whatever balls instance was in place, and leaves a balls
instance of the current balls type, of dimension F and of range `merge_range`
(here F is `features()`, which is the field `feats` of the data matrix). The
array `modes` has `Balls_count` rows and F columns, its entry `(i, j)` is
`Balls_pos(i)[j] / mult[j]`, and the shape of the assignment array is the list
of the lengths of the axes of the source array that are not FEATURE axes, in
their order. -/
theorem cluster_result_shape (E : Env) (h : Heap) (self : MeanShift) (a : PyArray)
    (ha : self.dm.array = some a) (hdt : self.dm.dt.length = a.dims.length)
    (hF : E.DataMatrix_features self.dm = self.dm.feats) :
    MeanShift_cluster_py E h { self with balls := none } = MeanShift_cluster_py E h self ∧
    ∃ b, (MeanShift_cluster_py E h self).2.balls = some b ∧
      b.type = self.balls_type ∧ Balls_dims b = E.DataMatrix_features self.dm ∧
      b.range = self.merge_range ∧
      (MeanShift_cluster_py E h self).1.1.dims = [Balls_count b, E.DataMatrix_features self.dm] ∧
      (∀ i, i < Balls_count b → ∀ j, j < E.DataMatrix_features self.dm →
        PyArray_GETPTR2 (MeanShift_cluster_py E h self).1.1 (E.DataMatrix_features self.dm) i j
          = (Balls_pos b i).getD j 0 / self.dm.mult.getD j 0) ∧
      (MeanShift_cluster_py E h self).1.2.dims = spec_assignment_shape a.dims self.dm.dt := by
  refine ⟨rfl, ?_⟩
  unfold MeanShift_cluster_py
  simp only
  refine ⟨_, rfl, rfl, ?_, rfl, ?_, ?_, ?_⟩
  · rw [hF]; rfl
  · rw [hF]; rfl
  · intro i hi j hj
    unfold PyArray_GETPTR2
    simp only
    rw [hF] at hj ⊢
    rw [flatMap_rows_getD self.dm.feats _ _ (fun _ => by simp [Balls_dims, Balls_new, ensure_spatial])
      i j hi hj]
    exact getD_map_range _ _ j hj
  · exact non_feature_dims_eq self.dm a ha hdt

/-- Witness of C19 on the sample façade, whose array has a DATA and a FEATURE
axis. -/
theorem cluster_result_shape_witness :
    sampleState.dm.array = some sampleArray ∧
    sampleState.dm.dt.length = sampleArray.dims.length ∧
    sampleEnv.DataMatrix_features sampleState.dm = sampleState.dm.feats ∧
    (MeanShift_cluster_py sampleEnv [] { sampleState with balls := none } =
      MeanShift_cluster_py sampleEnv [] sampleState ∧
    ∃ b, (MeanShift_cluster_py sampleEnv [] sampleState).2.balls = some b ∧
      b.type = sampleState.balls_type ∧
      Balls_dims b = sampleEnv.DataMatrix_features sampleState.dm ∧
      b.range = sampleState.merge_range ∧
      (MeanShift_cluster_py sampleEnv [] sampleState).1.1.dims =
        [Balls_count b, sampleEnv.DataMatrix_features sampleState.dm] ∧
      (∀ i, i < Balls_count b → ∀ j, j < sampleEnv.DataMatrix_features sampleState.dm →
        PyArray_GETPTR2 (MeanShift_cluster_py sampleEnv [] sampleState).1.1
            (sampleEnv.DataMatrix_features sampleState.dm) i j
          = (Balls_pos b i).getD j 0 / sampleState.dm.mult.getD j 0) ∧
      (MeanShift_cluster_py sampleEnv [] sampleState).1.2.dims =
        spec_assignment_shape sampleArray.dims sampleState.dm.dt) :=
  ⟨rfl, rfl, rfl, cluster_result_shape sampleEnv [] sampleState sampleArray rfl rfl rfl⟩

/-! ## The single pass and the two-pass computation -/

theorem getD_replicate_zero (F j : Nat) : (List.replicate F (0 : ℚ)).getD j 0 = 0 := by
  by_cases hj : j < F
  · rw [List.getD_eq_getElem _ _ (by simpa using hj)]
    simp
  · rw [List.getD_eq_default _ _ (by simpa using hj)]

/-- One more exemplar in the single pass. -/
theorem single_pass_succ (E : Env) (dm : DataMatrix) (n F : Nat) :
    single_pass E dm (n + 1) F =
      ((single_pass E dm n F).1 + (E.DataMatrix_fv dm n).2,
        (accumulate F (single_pass E dm n F).1 (single_pass E dm n F).2.1
          (single_pass E dm n F).2.2 (E.DataMatrix_fv dm n).1 (E.DataMatrix_fv dm n).2).1,
        (accumulate F (single_pass E dm n F).1 (single_pass E dm n F).2.1
          (single_pass E dm n F).2.2 (E.DataMatrix_fv dm n).1 (E.DataMatrix_fv dm n).2).2) := by
  unfold single_pass
  rw [List.range_succ, List.foldl_append]
  rfl

/-- For each feature the single pass over the arrays is the scalar recurrence
`welford` on the values of that feature. -/
theorem single_pass_component (E : Env) (dm : DataMatrix) (F j : Nat) (hj : j < F) (n : Nat) :
    (single_pass E dm n F).1 = (welford (fv_at E dm j) (weight_at E dm) n).1 ∧
    (single_pass E dm n F).2.1.getD j 0 = (welford (fv_at E dm j) (weight_at E dm) n).2.1 ∧
    (single_pass E dm n F).2.2.getD j 0 = (welford (fv_at E dm j) (weight_at E dm) n).2.2 := by
  induction n with
  | zero =>
    unfold single_pass
    simp [welford, getD_replicate_zero]
  | succ n ih =>
    rw [single_pass_succ]
    obtain ⟨h1, h2, h3⟩ := ih
    refine ⟨?_, ?_, ?_⟩
    · simp only [welford, weight_at, h1]
    · simp only [accumulate]
      rw [getD_map_range _ _ j hj, h1, h2]
      simp only [welford, weight_at, fv_at]
    · simp only [accumulate]
      rw [getD_map_range _ _ j hj, h1, h2, h3]
      simp only [welford, weight_at, fv_at]

theorem single_pass_lengths (E : Env) (dm : DataMatrix) (F n : Nat) :
    (single_pass E dm n F).2.1.length = F ∧ (single_pass E dm n F).2.2.length = F := by
  cases n with
  | zero => simp [single_pass]
  | succ n => rw [single_pass_succ]; simp [accumulate]

theorem two_pass_total_nonneg (w : Nat → ℚ) (n : Nat) (hw : ∀ i, i < n → 0 < w i) :
    0 ≤ two_pass_total w n := by
  unfold two_pass_total
  exact Finset.sum_nonneg fun i hi => le_of_lt (hw i (Finset.mem_range.mp hi))

theorem two_pass_total_pos (w : Nat → ℚ) (n : Nat) (hn : 0 < n)
    (hw : ∀ i, i < n → 0 < w i) : 0 < two_pass_total w n := by
  unfold two_pass_total
  exact Finset.sum_pos (fun i hi => hw i (Finset.mem_range.mp hi))
    (Finset.nonempty_range_iff.mpr (Nat.pos_iff_ne_zero.mp hn))

/-- The invariant of the recurrence under positive weights: the running total
is the sum of the weights, total times mean is the weighted sum of the values,
and the running sum of squares is the weighted sum of the squared values less
total times the squared mean. -/
theorem welford_invariant (x w : Nat → ℚ) (n : Nat) (hw : ∀ i, i < n → 0 < w i) :
    (welford x w n).1 = two_pass_total w n ∧
    (welford x w n).1 * (welford x w n).2.1 = ∑ i ∈ Finset.range n, w i * x i ∧
    (welford x w n).2.2 =
      (∑ i ∈ Finset.range n, w i * x i ^ 2) - (welford x w n).1 * (welford x w n).2.1 ^ 2 := by
  induction n with
  | zero => simp [welford, two_pass_total]
  | succ n ih =>
    obtain ⟨h1, h2, h3⟩ := ih fun i hi => hw i (Nat.lt_succ_of_lt hi)
    have hT : 0 ≤ (welford x w n).1 := by
      rw [h1]
      exact two_pass_total_nonneg w n fun i hi => hw i (Nat.lt_succ_of_lt hi)
    have hwn : 0 < w n := hw n (Nat.lt_succ_self n)
    have hne : (welford x w n).1 + w n ≠ 0 := ne_of_gt (add_pos_of_nonneg_of_pos hT hwn)
    simp only [welford]
    refine ⟨?_, ?_, ?_⟩
    · rw [h1]
      simp [two_pass_total, Finset.sum_range_succ]
    · rw [Finset.sum_range_succ, ← h2]
      field_simp
      ring
    · rw [Finset.sum_range_succ, h3]
      field_simp
      ring

/-- The weighted sum of squared deviations around a value `m` with
`total * m` equal to the weighted sum of the values. -/
theorem sum_sq_dev (x w : Nat → ℚ) (n : Nat) (m : ℚ)
    (hm : two_pass_total w n * m = ∑ i ∈ Finset.range n, w i * x i) :
    ∑ i ∈ Finset.range n, w i * (x i - m) ^ 2 =
      (∑ i ∈ Finset.range n, w i * x i ^ 2) - two_pass_total w n * m ^ 2 := by
  have hexp : ∀ i ∈ Finset.range n,
      w i * (x i - m) ^ 2 = w i * x i ^ 2 - 2 * m * (w i * x i) + m ^ 2 * w i := by
    intro i _
    ring
  rw [Finset.sum_congr rfl hexp, Finset.sum_add_distrib, Finset.sum_sub_distrib,
    ← Finset.mul_sum, ← Finset.mul_sum, ← hm]
  unfold two_pass_total
  ring

/-- Under positive weights on a non-empty sequence the recurrence ends with the
total weight, the two-pass mean, and the two-pass variance times the total. -/
theorem welford_two_pass (x w : Nat → ℚ) (n : Nat) (hn : 0 < n)
    (hw : ∀ i, i < n → 0 < w i) :
    (welford x w n).1 = two_pass_total w n ∧
    (welford x w n).2.1 = two_pass_mean x w n ∧
    (welford x w n).2.2 / two_pass_total w n = two_pass_var x w n := by
  obtain ⟨h1, h2, h3⟩ := welford_invariant x w n hw
  have hpos := two_pass_total_pos w n hn hw
  have hmean : (welford x w n).2.1 = two_pass_mean x w n := by
    unfold two_pass_mean
    rw [← h2, h1]
    field_simp
  refine ⟨h1, hmean, ?_⟩
  unfold two_pass_var
  rw [sum_sq_dev x w n (two_pass_mean x w n) (by rw [← hmean, ← h1]; exact h2), h3, h1, hmean]

/-- Scaling the values of a feature by `c` scales the two-pass mean by `c` and
the two-pass variance by `c ^ 2`. -/
theorem two_pass_scaled (x y w : Nat → ℚ) (n : Nat) (c : ℚ)
    (hy : ∀ i, i < n → y i = x i * c) :
    two_pass_mean y w n = two_pass_mean x w n * c ∧
    two_pass_var y w n = two_pass_var x w n * c ^ 2 := by
  have hmean : two_pass_mean y w n = two_pass_mean x w n * c := by
    unfold two_pass_mean
    have : ∀ i ∈ Finset.range n, w i * y i = (w i * x i) * c := by
      intro i hi
      rw [hy i (Finset.mem_range.mp hi)]
      ring
    rw [Finset.sum_congr rfl this, ← Finset.sum_mul]
    ring
  refine ⟨hmean, ?_⟩
  unfold two_pass_var
  rw [hmean]
  have : ∀ i ∈ Finset.range n, w i * (y i - two_pass_mean x w n * c) ^ 2 =
      (w i * (x i - two_pass_mean x w n) ^ 2) * c ^ 2 := by
    intro i hi
    rw [hy i (Finset.mem_range.mp hi)]
    ring
  rw [Finset.sum_congr rfl this, ← Finset.sum_mul]
  ring

/-! ## `stats` and the bandwidth rules in closed form -/

/-- C12: over exact arithmetic (rationals; `sqrt` is the function of the
environment), for exemplars with strictly positive weights, total weight at
least 1e-6 (so there is an exemplar) and a scale with `mult[j] > 0`, where
`x j i` is the raw value of feature `j` of exemplar `i` (the feature vector
holds `x j i * mult[j]`): `stats` returns F means and F standard deviations;
the mean of feature `j` is `Σ wᵢ·xᵢⱼ / W`, the two-pass weighted mean of the raw
values, in which `mult` does not occur; its standard deviation is
`sqrt(v · mult[j]²) / mult[j]` for `v = Σ wᵢ·(xᵢⱼ − meanⱼ)² / W`, the two-pass
population variance of the raw values; and its square is `v` wherever `sqrt`
squares back to its argument `v · mult[j]²`. -/
theorem stats_is_two_pass (E : Env) (self : MeanShift) (x : Nat → Nat → ℚ)
    (hw : ∀ i, i < E.DataMatrix_exemplars self.dm → 0 < weight_at E self.dm i)
    (hW : 1 / 1000000 ≤
      two_pass_total (weight_at E self.dm) (E.DataMatrix_exemplars self.dm))
    (hm : ∀ j, j < E.DataMatrix_features self.dm → 0 < self.dm.mult.getD j 0)
    (hx : ∀ j, j < E.DataMatrix_features self.dm → ∀ i, i < E.DataMatrix_exemplars self.dm →
      fv_at E self.dm j i = x j i * self.dm.mult.getD j 0) :
    (MeanShift_stats_py E self).1.length = E.DataMatrix_features self.dm ∧
    (MeanShift_stats_py E self).2.length = E.DataMatrix_features self.dm ∧
    ∀ j, j < E.DataMatrix_features self.dm →
      (MeanShift_stats_py E self).1.getD j 0 =
        two_pass_mean (x j) (weight_at E self.dm) (E.DataMatrix_exemplars self.dm) ∧
      (MeanShift_stats_py E self).2.getD j 0 =
        E.sqrt (two_pass_var (x j) (weight_at E self.dm) (E.DataMatrix_exemplars self.dm) *
          self.dm.mult.getD j 0 ^ 2) / self.dm.mult.getD j 0 ∧
      (E.sqrt (two_pass_var (x j) (weight_at E self.dm) (E.DataMatrix_exemplars self.dm) *
            self.dm.mult.getD j 0 ^ 2) *
          E.sqrt (two_pass_var (x j) (weight_at E self.dm) (E.DataMatrix_exemplars self.dm) *
            self.dm.mult.getD j 0 ^ 2) =
          two_pass_var (x j) (weight_at E self.dm) (E.DataMatrix_exemplars self.dm) *
            self.dm.mult.getD j 0 ^ 2 →
        (MeanShift_stats_py E self).2.getD j 0 ^ 2 =
          two_pass_var (x j) (weight_at E self.dm) (E.DataMatrix_exemplars self.dm)) := by
  have hn : 0 < E.DataMatrix_exemplars self.dm := by
    rcases Nat.eq_zero_or_pos (E.DataMatrix_exemplars self.dm) with h0 | h0
    · rw [h0] at hW
      simp [two_pass_total] at hW
      norm_num at hW
    · exact h0
  refine ⟨by simp [MeanShift_stats_py], by simp [MeanShift_stats_py], ?_⟩
  intro j hj
  obtain ⟨c1, c2, c3⟩ := single_pass_component E self.dm (E.DataMatrix_features self.dm) j hj
    (E.DataMatrix_exemplars self.dm)
  obtain ⟨t1, t2, t3⟩ := welford_two_pass (fv_at E self.dm j) (weight_at E self.dm)
    (E.DataMatrix_exemplars self.dm) hn hw
  obtain ⟨s1, s2⟩ := two_pass_scaled (x j) (fv_at E self.dm j) (weight_at E self.dm)
    (E.DataMatrix_exemplars self.dm) (self.dm.mult.getD j 0) (hx j hj)
  have hmj : self.dm.mult.getD j 0 ≠ 0 := ne_of_gt (hm j hj)
  have htot : ¬ (single_pass E self.dm (E.DataMatrix_exemplars self.dm)
      (E.DataMatrix_features self.dm)).1 < 1 / 1000000 := by
    rw [c1, t1]
    exact not_lt.mpr hW
  have hsd : (MeanShift_stats_py E self).2.getD j 0 =
      E.sqrt (two_pass_var (x j) (weight_at E self.dm) (E.DataMatrix_exemplars self.dm) *
        self.dm.mult.getD j 0 ^ 2) / self.dm.mult.getD j 0 := by
    unfold MeanShift_stats_py
    simp only [if_neg htot]
    rw [getD_map_range _ _ j hj, c1, c3, t1, t3, s2]
  refine ⟨?_, hsd, fun hsqrt => ?_⟩
  · unfold MeanShift_stats_py
    simp only [if_neg htot]
    rw [getD_map_range _ _ j hj, c2, t2, s1]
    exact mul_div_cancel_right₀ _ hmj
  · rw [hsd, div_pow, sq (E.sqrt _), hsqrt]
    exact mul_div_cancel_right₀ _ (pow_ne_zero 2 hmj)

/-- Witness of C12 on the sample façade with the scale (2, 1/2): the raw
values are 0, 2 for the first and 1, 5 for the second feature, both weights
are 1; the square root of the environment is exact at the two variances of the
scaled values, 4 and 1. -/
theorem stats_is_two_pass_witness :
    (∀ i, i < exactEnv.DataMatrix_exemplars sampleScaled.dm →
      0 < weight_at exactEnv sampleScaled.dm i) ∧
    1 / 1000000 ≤ two_pass_total (weight_at exactEnv sampleScaled.dm)
      (exactEnv.DataMatrix_exemplars sampleScaled.dm) ∧
    (∀ j, j < exactEnv.DataMatrix_features sampleScaled.dm →
      0 < sampleScaled.dm.mult.getD j 0) ∧
    (MeanShift_stats_py exactEnv sampleScaled).1.length =
      exactEnv.DataMatrix_features sampleScaled.dm ∧
    (MeanShift_stats_py exactEnv sampleScaled).2.length =
      exactEnv.DataMatrix_features sampleScaled.dm ∧
    ∀ j, j < exactEnv.DataMatrix_features sampleScaled.dm →
      (MeanShift_stats_py exactEnv sampleScaled).1.getD j 0 =
        two_pass_mean (sampleRaw j) (weight_at exactEnv sampleScaled.dm)
          (exactEnv.DataMatrix_exemplars sampleScaled.dm) ∧
      (MeanShift_stats_py exactEnv sampleScaled).2.getD j 0 =
        exactEnv.sqrt (two_pass_var (sampleRaw j) (weight_at exactEnv sampleScaled.dm)
          (exactEnv.DataMatrix_exemplars sampleScaled.dm) * sampleScaled.dm.mult.getD j 0 ^ 2) /
          sampleScaled.dm.mult.getD j 0 ∧
      (MeanShift_stats_py exactEnv sampleScaled).2.getD j 0 ^ 2 =
        two_pass_var (sampleRaw j) (weight_at exactEnv sampleScaled.dm)
          (exactEnv.DataMatrix_exemplars sampleScaled.dm) :=
  have hn : exactEnv.DataMatrix_exemplars sampleScaled.dm = 2 := by decide
  have hF : exactEnv.DataMatrix_features sampleScaled.dm = 2 := by decide
  have hwt : ∀ i, weight_at exactEnv sampleScaled.dm i = 1 := fun _ => rfl
  have hw : ∀ i, i < exactEnv.DataMatrix_exemplars sampleScaled.dm →
      0 < weight_at exactEnv sampleScaled.dm i := by
    intro i _
    rw [hwt]
    norm_num
  have hW : 1 / 1000000 ≤ two_pass_total (weight_at exactEnv sampleScaled.dm)
      (exactEnv.DataMatrix_exemplars sampleScaled.dm) := by
    rw [hn]
    simp only [two_pass_total, Finset.sum_range_succ, Finset.sum_range_zero, hwt]
    norm_num
  have hm : ∀ j, j < exactEnv.DataMatrix_features sampleScaled.dm →
      0 < sampleScaled.dm.mult.getD j 0 := by
    rw [hF]
    intro j hj
    interval_cases j <;> norm_num [sampleScaled, sampleDataMatrix]
  have hx2 : ∀ j, j < 2 → ∀ i, i < 2 →
      fv_at exactEnv sampleScaled.dm j i = sampleRaw j i * sampleScaled.dm.mult.getD j 0 := by
    intro j hj i hi
    interval_cases j <;> interval_cases i <;>
      norm_num [fv_at, sampleRaw, exactEnv, sampleEnv, sampleScaled, sampleDataMatrix,
        sampleArray, List.range_succ]
  have hx : ∀ j, j < exactEnv.DataMatrix_features sampleScaled.dm →
      ∀ i, i < exactEnv.DataMatrix_exemplars sampleScaled.dm →
      fv_at exactEnv sampleScaled.dm j i = sampleRaw j i * sampleScaled.dm.mult.getD j 0 := by
    rw [hF, hn]
    exact hx2
  have hsqrt : ∀ j, j < exactEnv.DataMatrix_features sampleScaled.dm →
      exactEnv.sqrt (two_pass_var (sampleRaw j) (weight_at exactEnv sampleScaled.dm)
            (exactEnv.DataMatrix_exemplars sampleScaled.dm) * sampleScaled.dm.mult.getD j 0 ^ 2) *
          exactEnv.sqrt (two_pass_var (sampleRaw j) (weight_at exactEnv sampleScaled.dm)
            (exactEnv.DataMatrix_exemplars sampleScaled.dm) * sampleScaled.dm.mult.getD j 0 ^ 2) =
        two_pass_var (sampleRaw j) (weight_at exactEnv sampleScaled.dm)
            (exactEnv.DataMatrix_exemplars sampleScaled.dm) * sampleScaled.dm.mult.getD j 0 ^ 2 := by
    rw [hF, hn]
    intro j hj
    have hv : two_pass_var (sampleRaw j) (weight_at exactEnv sampleScaled.dm) 2 *
        sampleScaled.dm.mult.getD j 0 ^ 2 = if j = 0 then 4 else 1 := by
      simp only [two_pass_var, two_pass_mean, two_pass_total, Finset.sum_range_succ,
        Finset.sum_range_zero, hwt]
      interval_cases j <;> norm_num [sampleRaw, sampleArray, sampleScaled, sampleDataMatrix]
    rw [hv]
    have hs : exactEnv.sqrt = sample_sqrt := rfl
    rw [hs]
    interval_cases j <;> norm_num [sample_sqrt]
  have hthm := stats_is_two_pass exactEnv sampleScaled sampleRaw hw hW hm hx
  ⟨hw, hW, hm, hthm.1, hthm.2.1, fun j hj =>
    ⟨(hthm.2.2 j hj).1, (hthm.2.2 j hj).2.1, (hthm.2.2 j hj).2.2 (hsqrt j hj)⟩⟩

/-- The scale vector of a bandwidth rule in closed form: for each feature the
inverse of the square root of the two-pass variance times the constant of the
rule at the total weight. -/
theorem rule_scale_closed (E : Env) (rule : ℚ → Nat → ℚ) (dm : DataMatrix) (n F : Nat)
    (hn : 0 < n) (hw : ∀ i, i < n → 0 < weight_at E dm i) :
    rule_scale E rule dm n F =
      (List.range F).map fun j =>
        1 / (E.sqrt (two_pass_var (fv_at E dm j) (weight_at E dm) n) *
          rule (two_pass_total (weight_at E dm) n) F) := by
  simp only [rule_scale]
  apply List.map_congr_left
  intro j hj
  have hj' : j < F := List.mem_range.mp hj
  obtain ⟨c1, _, c3⟩ := single_pass_component E dm F j hj' n
  obtain ⟨t1, _, t3⟩ := welford_two_pass (fv_at E dm j) (weight_at E dm) n hn hw
  rw [getD_map_range _ _ j hj', c1, c3, t1, t3]

/-- C13: over exact arithmetic, with the square root and the power function of
the environment and a `DataMatrix_set_scale` that stores what it is handed,
for a non-empty exemplar set with positive weights: `scale_scott` leaves
`mult[j] = 1 / (sd[j]·c)` with `c = W^(−1/(F+4))` and `scale_silverman` leaves
`mult[j] = 1 / (sd[j]·c)` with `c = (W·(F+2)/4)^(−1/(F+4))`, where `sd[j]` is the
square root of the two-pass weighted population variance of feature `j` as the
data matrix presents it at unit scale (the raw values), W is the total weight
and F the feature count; the weight scale is what it was. -/
theorem scale_rules_closed_form (E : Env) (hS : E.SetScaleStores) (self : MeanShift)
    (hn : 0 < E.DataMatrix_exemplars self.dm)
    (hw : ∀ i, i < E.DataMatrix_exemplars self.dm →
      0 < weight_at E (unit_scaled E self.dm) i) :
    ((MeanShift_scale_scott_py E self).2.dm.mult =
        (List.range (E.DataMatrix_features self.dm)).map (fun j =>
          1 / (E.sqrt (two_pass_var (fv_at E (unit_scaled E self.dm) j)
              (weight_at E (unit_scaled E self.dm)) (E.DataMatrix_exemplars self.dm)) *
            E.pow (two_pass_total (weight_at E (unit_scaled E self.dm))
                (E.DataMatrix_exemplars self.dm))
              (-1 / ((E.DataMatrix_features self.dm : ℚ) + 4)))) ∧
      (MeanShift_scale_scott_py E self).2.dm.weight_scale = self.dm.weight_scale) ∧
    ((MeanShift_scale_silverman_py E self).2.dm.mult =
        (List.range (E.DataMatrix_features self.dm)).map (fun j =>
          1 / (E.sqrt (two_pass_var (fv_at E (unit_scaled E self.dm) j)
              (weight_at E (unit_scaled E self.dm)) (E.DataMatrix_exemplars self.dm)) *
            E.pow (two_pass_total (weight_at E (unit_scaled E self.dm))
                (E.DataMatrix_exemplars self.dm) * ((E.DataMatrix_features self.dm : ℚ) + 2) / 4)
              (-1 / ((E.DataMatrix_features self.dm : ℚ) + 4)))) ∧
      (MeanShift_scale_silverman_py E self).2.dm.weight_scale = self.dm.weight_scale) := by
  have hscott := rule_scale_closed E (scott_mult E) (unit_scaled E self.dm)
    (E.DataMatrix_exemplars self.dm) (E.DataMatrix_features self.dm) hn hw
  have hsilver := rule_scale_closed E (silverman_mult E) (unit_scaled E self.dm)
    (E.DataMatrix_exemplars self.dm) (E.DataMatrix_features self.dm) hn hw
  refine ⟨⟨?_, ?_⟩, ⟨?_, ?_⟩⟩
  · simp only [MeanShift_scale_scott_py, trash_scaled_dm, hS.mult]
    exact hscott
  · simp only [MeanShift_scale_scott_py, trash_scaled_dm, hS.weight_scale]
  · simp only [MeanShift_scale_silverman_py, trash_scaled_dm, hS.mult]
    exact hsilver
  · simp only [MeanShift_scale_silverman_py, trash_scaled_dm, hS.weight_scale]

/-- The environment `exactEnv` stores the scale it is handed. -/
theorem exactEnv_setScaleStores : exactEnv.SetScaleStores :=
  ⟨fun _ _ _ => rfl, fun _ _ _ => rfl⟩

/-- Witness of C13 on the sample façade with the scale (2, 1/2), two exemplars
of weight 1. -/
theorem scale_rules_closed_form_witness :
    exactEnv.SetScaleStores ∧ 0 < exactEnv.DataMatrix_exemplars sampleScaled.dm ∧
    (∀ i, i < exactEnv.DataMatrix_exemplars sampleScaled.dm →
      0 < weight_at exactEnv (unit_scaled exactEnv sampleScaled.dm) i) ∧
    ((MeanShift_scale_scott_py exactEnv sampleScaled).2.dm.mult =
        (List.range (exactEnv.DataMatrix_features sampleScaled.dm)).map (fun j =>
          1 / (exactEnv.sqrt (two_pass_var (fv_at exactEnv (unit_scaled exactEnv sampleScaled.dm) j)
              (weight_at exactEnv (unit_scaled exactEnv sampleScaled.dm))
              (exactEnv.DataMatrix_exemplars sampleScaled.dm)) *
            exactEnv.pow (two_pass_total (weight_at exactEnv (unit_scaled exactEnv sampleScaled.dm))
                (exactEnv.DataMatrix_exemplars sampleScaled.dm))
              (-1 / ((exactEnv.DataMatrix_features sampleScaled.dm : ℚ) + 4)))) ∧
      (MeanShift_scale_scott_py exactEnv sampleScaled).2.dm.weight_scale
        = sampleScaled.dm.weight_scale) ∧
    ((MeanShift_scale_silverman_py exactEnv sampleScaled).2.dm.mult =
        (List.range (exactEnv.DataMatrix_features sampleScaled.dm)).map (fun j =>
          1 / (exactEnv.sqrt (two_pass_var (fv_at exactEnv (unit_scaled exactEnv sampleScaled.dm) j)
              (weight_at exactEnv (unit_scaled exactEnv sampleScaled.dm))
              (exactEnv.DataMatrix_exemplars sampleScaled.dm)) *
            exactEnv.pow (two_pass_total (weight_at exactEnv (unit_scaled exactEnv sampleScaled.dm))
                (exactEnv.DataMatrix_exemplars sampleScaled.dm) *
                ((exactEnv.DataMatrix_features sampleScaled.dm : ℚ) + 2) / 4)
              (-1 / ((exactEnv.DataMatrix_features sampleScaled.dm : ℚ) + 4)))) ∧
      (MeanShift_scale_silverman_py exactEnv sampleScaled).2.dm.weight_scale
        = sampleScaled.dm.weight_scale) :=
  have hn : 0 < exactEnv.DataMatrix_exemplars sampleScaled.dm := by decide
  have hw : ∀ i, i < exactEnv.DataMatrix_exemplars sampleScaled.dm →
      0 < weight_at exactEnv (unit_scaled exactEnv sampleScaled.dm) i := by
    intro i _
    have h1 : weight_at exactEnv (unit_scaled exactEnv sampleScaled.dm) i = 1 := rfl
    rw [h1]
    norm_num
  ⟨exactEnv_setScaleStores, hn, hw,
    scale_rules_closed_form exactEnv exactEnv_setScaleStores sampleScaled hn hw⟩

/-! ## The methods embedded one by one stay within the reachable states -/

/-- `cluster` takes a reachable state to a reachable state. -/
theorem cluster_reachable (E : Env) (h : Heap) (s : MeanShift) (hs : Reachable E s) :
    Reachable E (MeanShift_cluster_py E h s).2 :=
  Reachable.cluster _ hs

/-- `assign_cluster` and `assign_clusters` take a reachable state to a
reachable state. -/
theorem assign_cluster_reachable (E : Env) (h : Heap) (s : MeanShift) (start : PyArray)
    (hs : Reachable E s) :
    Reachable E (MeanShift_assign_cluster_py E h s start).2 ∧
    Reachable E (MeanShift_assign_clusters_py E h s start).2 := by
  constructor
  · unfold MeanShift_assign_cluster_py
    simp only
    split_ifs
    · exact hs
    · cases hb : s.balls with
      | none => exact hs
      | some b => exact Reachable.indexed hs
  · unfold MeanShift_assign_clusters_py
    simp only
    split_ifs
    · exact hs
    · cases hb : s.balls with
      | none => exact hs
      | some b => exact Reachable.indexed hs

/-! ## The kernel name -/

/-- The branch for a matching entry leaves the name override that `get_kernel`
reads: the whole string for a kernel with a configuration template, none
otherwise. -/
theorem set_kernel_found_name (E : Env) (kname : CStr) (h : Heap) (self : MeanShift)
    (k : Kernel) (hv : (set_kernel_found E kname h self k).1.value ≠ none) :
    (set_kernel_found E kname h self k).2.2.name =
      (match (set_kernel_found E kname h self k).2.2.kernel.configuration with
        | some _ => some kname
        | none => none) := by
  unfold set_kernel_found at hv ⊢
  cases hc : k.config_verify (E.DataMatrix_features self.dm) (List.drop k.name.length kname) with
  | some e => simp [hc, Ret.fail] at hv
  | none =>
    by_cases hn : self.name = none <;> cases hk : k.configuration <;> simp [hc, hn, hk]

theorem set_kernel_loop_name (E : Env) (kname : CStr) (h : Heap) (self : MeanShift)
    (L : List Kernel) (hv : (set_kernel_loop E kname h self L).1.value ≠ none) :
    (set_kernel_loop E kname h self L).2.2.name =
      (match (set_kernel_loop E kname h self L).2.2.kernel.configuration with
        | some _ => some kname
        | none => none) := by
  induction L with
  | nil => simp [set_kernel_loop, Ret.fail] at hv
  | cons k rest ih =>
    unfold set_kernel_loop at hv ⊢
    split_ifs at hv ⊢ with hm
    · exact set_kernel_found_name E kname h self k hv
    · exact ih hv

/-- C21: after a `set_kernel(s)` that does not fail, `get_kernel` returns the
whole string `s` when the kernel now in place has a configuration template and
the registered name of that kernel when it has none; on a new façade
`get_kernel` returns the name of the uniform kernel; and after
`copy_kernel(other)`, `get_kernel` on `self` returns what `get_kernel` on
`other` returns (`other` may be `self`). -/
theorem get_kernel_round_trip (E : Env) (h : Heap) (self : MeanShift) (kname : CStr)
    (mem : Nat → MeanShift) (a b : Nat) :
    ((MeanShift_set_kernel_py E h self kname).1.value ≠ none →
      MeanShift_get_kernel_py (MeanShift_set_kernel_py E h self kname).2.2 =
        ⟨some (PyObj.Str
          (match (MeanShift_set_kernel_py E h self kname).2.2.kernel.configuration with
            | some _ => kname
            | none => (MeanShift_set_kernel_py E h self kname).2.2.kernel.name)), none⟩) ∧
    MeanShift_get_kernel_py (MeanShift_new E) = ⟨some (PyObj.Str E.Uniform.name), none⟩ ∧
    MeanShift_get_kernel_py ((MeanShift_copy_kernel_py h mem a b).2.2 a) =
      MeanShift_get_kernel_py ((MeanShift_copy_kernel_py h mem a b).2.2 b) ∧
    (b ≠ a → MeanShift_get_kernel_py ((MeanShift_copy_kernel_py h mem a b).2.2 a) =
      MeanShift_get_kernel_py (mem b)) := by
  refine ⟨?_, rfl, ?_, ?_⟩
  · intro hv
    have hn := set_kernel_loop_name E kname h self E.ListKernel hv
    unfold MeanShift_set_kernel_py at hv ⊢
    unfold MeanShift_get_kernel_py
    rw [hn]
    cases (set_kernel_loop E kname h self E.ListKernel).2.2.kernel.configuration <;> rfl
  · by_cases hab : b = a
    · rw [hab]
    · unfold MeanShift_copy_kernel_py MeanShift_get_kernel_py
      by_cases h1 : (mem a).name = none <;> cases h2 : (mem b).name <;>
        simp [h1, h2, hab, Function.update]
  · intro hab
    unfold MeanShift_copy_kernel_py MeanShift_get_kernel_py
    by_cases h1 : (mem a).name = none <;> cases h2 : (mem b).name <;>
      simp [h1, h2, hab, Function.update]

/-- Witness of C21: `set_kernel("fisher(4)")` and `set_kernel("uniform")` on the
sample façade. -/
theorem get_kernel_round_trip_witness :
    (MeanShift_set_kernel_py sampleEnv [] sampleState
      ['f', 'i', 's', 'h', 'e', 'r', '(', '4', ')']).1.value ≠ none ∧
    MeanShift_get_kernel_py (MeanShift_set_kernel_py sampleEnv [] sampleState
        ['f', 'i', 's', 'h', 'e', 'r', '(', '4', ')']).2.2 =
      ⟨some (PyObj.Str ['f', 'i', 's', 'h', 'e', 'r', '(', '4', ')']), none⟩ ∧
    MeanShift_get_kernel_py (MeanShift_set_kernel_py sampleEnv sampleHeap sampleFisherState
        ['u', 'n', 'i', 'f', 'o', 'r', 'm']).2.2 =
      ⟨some (PyObj.Str ['u', 'n', 'i', 'f', 'o', 'r', 'm']), none⟩ ∧
    MeanShift_get_kernel_py ((MeanShift_copy_kernel_py sampleHeap sampleMem 0 1).2.2 0) =
      MeanShift_get_kernel_py (sampleMem 1) :=
  have hv : (MeanShift_set_kernel_py sampleEnv [] sampleState
      ['f', 'i', 's', 'h', 'e', 'r', '(', '4', ')']).1.value ≠ none := by decide
  have hu : (MeanShift_set_kernel_py sampleEnv sampleHeap sampleFisherState
      ['u', 'n', 'i', 'f', 'o', 'r', 'm']).1.value ≠ none := by decide
  ⟨hv,
    (get_kernel_round_trip sampleEnv [] sampleState
      ['f', 'i', 's', 'h', 'e', 'r', '(', '4', ')'] sampleMem 0 1).1 hv,
    (get_kernel_round_trip sampleEnv sampleHeap sampleFisherState
      ['u', 'n', 'i', 'f', 'o', 'r', 'm'] sampleMem 0 1).1 hu,
    (get_kernel_round_trip sampleEnv sampleHeap sampleFisherState
      ['u', 'n', 'i', 'f', 'o', 'r', 'm'] sampleMem 0 1).2.2.2 (by decide)⟩

/-! ## Signs of the scale -/

/-- C22, counterexample: `sampleBadScaled` is reached from a new façade by
`set_data` and `set_scale`; the `set_scale` call, given the scale (-1, 0) and
the weight scale -2, returns `None` with no error, and in the state it leaves
the scale vector is (-1, 0) and the weight scale is -2. -/
theorem set_scale_takes_nonpositive_scale :
    Reachable exactEnv sampleBadScaled ∧
    (MeanShift_set_scale_py exactEnv
      (MeanShift_set_data_py exactEnv sampleJunk (MeanShift_new exactEnv) sampleArray ['d', 'f']
        none).2 sampleBadScale (-2)).1 = ⟨some PyObj.None, none⟩ ∧
    sampleBadScaled.dm.mult = [-1, 0] ∧ sampleBadScaled.dm.weight_scale = -2 ∧
    ¬ (0 < sampleBadScaled.dm.mult.getD 0 0) ∧ ¬ (0 < sampleBadScaled.dm.mult.getD 1 0) ∧
    ¬ (0 < sampleBadScaled.dm.weight_scale) := by
  have hm : sampleBadScaled.dm.mult = [-1, 0] := by decide
  have hws : sampleBadScaled.dm.weight_scale = -2 := by decide
  refine ⟨Reachable.set_scale _ _ (Reachable.set_data _ _ _ _ Reachable.new), by decide,
    hm, hws, ?_, ?_, ?_⟩
  · rw [hm]; norm_num
  · rw [hm]; norm_num
  · rw [hws]; norm_num

/-- C22, amended: `set_scale` does not look at signs. For every façade, every
one-dimensional array whose length is the feature count and every weight
scale, positive or not, the call returns `None` with no error and the data
matrix in place is the one `DataMatrix_set_scale` makes of the entries of the
array and of the weight scale as given (the caches are dropped). -/
theorem set_scale_unchecked (E : Env) (self : MeanShift) (scale : PyArray) (ws : ℚ)
    (hnd : PyArray_NDIM scale = 1) (hlen : scale.dims.getD 0 0 = E.DataMatrix_features self.dm) :
    MeanShift_set_scale_py E self scale ws =
      (⟨some PyObj.None, none⟩,
        trash_all { self with
          dm := (E.DataMatrix_set_scale self.dm
            ((List.range (scale.dims.getD 0 0)).map fun i => scale.data.getD i 0) ws) }) := by
  have hc : ¬ (PyArray_NDIM scale ≠ 1 ∨ scale.dims.getD 0 0 ≠ E.DataMatrix_features self.dm) := by
    rintro (h1 | h1)
    · exact h1 hnd
    · exact h1 hlen
  unfold MeanShift_set_scale_py
  rw [if_neg hc]
  rfl

/-- Witness of the amended C22: the scale (-1, 0) with the weight scale -2 on
the sample façade. -/
theorem set_scale_unchecked_witness :
    PyArray_NDIM sampleBadScale = 1 ∧
    sampleBadScale.dims.getD 0 0 = exactEnv.DataMatrix_features sampleState.dm ∧
    MeanShift_set_scale_py exactEnv sampleState sampleBadScale (-2) =
      (⟨some PyObj.None, none⟩,
        trash_all { sampleState with
          dm := (exactEnv.DataMatrix_set_scale sampleState.dm
            ((List.range (sampleBadScale.dims.getD 0 0)).map fun i =>
              sampleBadScale.data.getD i 0) (-2)) }) :=
  have hnd : PyArray_NDIM sampleBadScale = 1 := by decide
  have hlen : sampleBadScale.dims.getD 0 0 = exactEnv.DataMatrix_features sampleState.dm := by
    decide
  ⟨hnd, hlen, set_scale_unchecked exactEnv sampleState sampleBadScale (-2) hnd hlen⟩

/-! ## The weight index read back, and the scratch buffers of `manifolds_data` -/

/-- C23, the code at the failing input: after `set_data` with the sample array,
the type string `df` and the weight index 1, the data matrix holds the weight
index 1, and `get_weight_dim` returns a Python float whose value is what the
variadic read of a `double` gives, whatever that is: it does not return the
integer 1. After `set_data` without weight index it returns `None`. -/
theorem get_weight_dim_builds_float (va_double : Int → ℚ) :
    (MeanShift_set_data_py sampleEnv sampleJunk sampleState sampleArray ['d', 'f']
      (some (PyObj.Int 1))).1 = ⟨some PyObj.None, none⟩ ∧
    (MeanShift_set_data_py sampleEnv sampleJunk sampleState sampleArray ['d', 'f']
      (some (PyObj.Int 1))).2.dm.weight_index = 1 ∧
    MeanShift_get_weight_dim_py va_double
        (MeanShift_set_data_py sampleEnv sampleJunk sampleState sampleArray ['d', 'f']
          (some (PyObj.Int 1))).2 = ⟨some (PyObj.Float (va_double 1)), none⟩ ∧
    MeanShift_get_weight_dim_py va_double
        (MeanShift_set_data_py sampleEnv sampleJunk sampleState sampleArray ['d', 'f']
          (some (PyObj.Int 1))).2 ≠ ⟨some (PyObj.Int 1), none⟩ ∧
    MeanShift_get_weight_dim_py va_double
        (MeanShift_set_data_py sampleEnv sampleJunk sampleState sampleArray ['d', 'f']
          none).2 = ⟨some PyObj.None, none⟩ := by
  have hw : (MeanShift_set_data_py sampleEnv sampleJunk sampleState sampleArray ['d', 'f']
      (some (PyObj.Int 1))).2.dm.weight_index = 1 := by decide
  have hn : (MeanShift_set_data_py sampleEnv sampleJunk sampleState sampleArray ['d', 'f']
      none).2.dm.weight_index = -1 := by decide
  have hget : MeanShift_get_weight_dim_py va_double
      (MeanShift_set_data_py sampleEnv sampleJunk sampleState sampleArray ['d', 'f']
        (some (PyObj.Int 1))).2 = ⟨some (PyObj.Float (va_double 1)), none⟩ := by
    unfold MeanShift_get_weight_dim_py
    rw [hw]
    simp
  refine ⟨by decide, hw, hget, ?_, ?_⟩
  · rw [hget]
    simp
  · unfold MeanShift_get_weight_dim_py
    rw [hn]
    simp [Ret.none_with]

/-- C24, the code at the failing inputs. For an array of two by three exemplars
of four features (tags `ddf`), F is 4 and `modes_data` sizes its buffer by
`dims[nd-1] = 4`, but `manifolds_data` sizes `grad` and `eigen_val` by
`dims[1] = 3` and `hess` and `eigen_vec` by 9. For an array with a single
FEATURE axis, `dims` has one entry and `dims[1]` is not one of them. For the
sample array (tags `df`) `dims[1]` is F. -/
theorem manifolds_data_scratch_sizes :
    sampleEnv.DataMatrix_features sampleImageState.dm = 4 ∧
    data_dims sampleEnv sampleImageState.dm = [2, 3, 4] ∧
    modes_data_temp sampleEnv sampleImageState = 4 ∧
    manifolds_data_scratch sampleEnv sampleImageState = some (3, 9, 9, 3) ∧
    sampleEnv.DataMatrix_features samplePointState.dm = 4 ∧
    data_dims sampleEnv samplePointState.dm = [4] ∧
    modes_data_temp sampleEnv samplePointState = 4 ∧
    manifolds_data_dims1 sampleEnv samplePointState = none ∧
    sampleEnv.DataMatrix_features sampleState.dm = 2 ∧
    manifolds_data_scratch sampleEnv sampleState = some (2, 4, 4, 2) := by
  refine ⟨by decide, by decide, by decide, by decide, by decide, by decide, by decide, by decide,
    by decide, by decide⟩

/-! ## Division in the single pass -/

/-- C25, the code at the failing input: the sample array with its first column
as weight channel gives two exemplars of weights 0 and 2, all weights
non-negative and one strictly positive. The divisor of the step for the first
exemplar is 0, in `stats` and in the bandwidth rules (which run on the data
matrix at unit scale); the accumulated total weight, the final divisor, is
2. -/
theorem single_pass_divides_by_zero :
    weightedEnv.DataMatrix_exemplars sampleWeighted.dm = 2 ∧
    weight_at weightedEnv sampleWeighted.dm 0 = 0 ∧
    weight_at weightedEnv sampleWeighted.dm 1 = 2 ∧
    pass_divisor weightedEnv sampleWeighted.dm
      (weightedEnv.DataMatrix_features sampleWeighted.dm) 0 = 0 ∧
    pass_divisor weightedEnv (unit_scaled weightedEnv sampleWeighted.dm)
      (weightedEnv.DataMatrix_features sampleWeighted.dm) 0 = 0 ∧
    (single_pass weightedEnv sampleWeighted.dm 2
      (weightedEnv.DataMatrix_features sampleWeighted.dm)).1 = 2 := by
  have hdm : sampleWeighted.dm =
      { array := some sampleArray, dt := [DimType.DIM_DATA, DimType.DIM_FEATURE],
        weight_index := 0, mult := [1], weight_scale := 1, feats := 1 } := by decide
  have hfv : ∀ dm i, weightedEnv.DataMatrix_fv dm i = weighted_fv dm i := fun _ _ => rfl
  have hw0 : weight_at weightedEnv sampleWeighted.dm 0 = 0 := by
    rw [hdm]
    norm_num [weight_at, hfv, weighted_fv, sampleArray, List.range_succ]
  have hw1 : weight_at weightedEnv sampleWeighted.dm 1 = 2 := by
    rw [hdm]
    norm_num [weight_at, hfv, weighted_fv, sampleArray, List.range_succ]
  have hu0 : weight_at weightedEnv (unit_scaled weightedEnv sampleWeighted.dm) 0 = 0 := by
    rw [hdm]
    norm_num [weight_at, hfv, weighted_fv, unit_scaled, sampleArray, List.range_succ]
  refine ⟨by decide, hw0, hw1, ?_, ?_, ?_⟩
  · have h0 := hw0
    unfold weight_at at h0
    simp [pass_divisor, single_pass, h0]
  · have h0 := hu0
    unfold weight_at at h0
    simp [pass_divisor, single_pass, h0]
  · have h0 := hw0
    have h1 := hw1
    unfold weight_at at h0 h1
    rw [single_pass_succ, single_pass_succ]
    simp [single_pass, h0, h1]

/-! ## Coherence of the spatial index -/

theorem set_kernel_loop_type (E : Env) (kname : CStr) (h : Heap) (self : MeanShift)
    (L : List Kernel) :
    (set_kernel_loop E kname h self L).2.2.spatial_type = self.spatial_type := by
  induction L with
  | nil => rfl
  | cons k rest ih =>
    unfold set_kernel_loop
    split_ifs with hm
    · unfold set_kernel_found
      cases hc : k.config_verify (E.DataMatrix_features self.dm) (List.drop k.name.length kname)
        with
      | some e => simp [hc]
      | none =>
        by_cases hn : self.name = none <;> by_cases hk : k.configuration = none <;>
          simp [hc, hn, hk]
    · exact ih

theorem copy_kernel_type (h : Heap) (mem : Nat → MeanShift) (self other : Nat) :
    ((MeanShift_copy_kernel_py h mem self other).2.2 self).spatial_type
      = (mem self).spatial_type := by
  unfold MeanShift_copy_kernel_py
  by_cases h1 : (mem self).name = none <;> by_cases ho : other = self <;>
    by_cases h2 : (mem other).name = none <;> simp [h1, h2, ho, Function.update]

/-- `set_spatial` changes nothing or leaves no spatial instance. -/
theorem set_spatial_loop_cases (sname : CStr) (self : MeanShift) (L : List SpatialType) :
    (set_spatial_loop sname self L).2 = self ∨ (set_spatial_loop sname self L).2.spatial = none := by
  induction L with
  | nil => exact Or.inl rfl
  | cons u rest ih =>
    unfold set_spatial_loop
    by_cases hm : strcmp_eq0 u.name sname = true
    · right
      by_cases hs : self.spatial = none <;> simp [hm, hs]
    · rw [if_neg hm]; exact ih

theorem set_balls_loop_spatial (bname : CStr) (self : MeanShift) (L : List BallsType) :
    (set_balls_loop bname self L).2.spatial = self.spatial ∧
    (set_balls_loop bname self L).2.spatial_type = self.spatial_type := by
  induction L with
  | nil => simp [set_balls_loop]
  | cons u rest ih =>
    unfold set_balls_loop
    by_cases hm : strcmp_eq0 u.name bname = true
    · by_cases hs : self.balls = none <;> simp [hm, hs]
    · rw [if_neg hm]; exact ih

theorem spatialCoherent_of_none (E : Env) (s : MeanShift) (hn : s.spatial = none) :
    SpatialCoherent E s := by
  intro sp hsp
  rw [hn] at hsp
  cases hsp

/-- A state with the spatial instance, the spatial type and the data matrix of
a coherent state is coherent. -/
theorem spatialCoherent_of_eq (E : Env) (s s' : MeanShift) (hc : SpatialCoherent E s)
    (h1 : s'.spatial = s.spatial) (h2 : s'.spatial_type = s.spatial_type) (h3 : s'.dm = s.dm) :
    SpatialCoherent E s' := by
  intro sp hsp
  rw [h2, h3]
  exact hc sp (h1 ▸ hsp)

theorem spatialCoherent_ensure_spatial (E : Env) (s : MeanShift) (hc : SpatialCoherent E s) :
    SpatialCoherent E (ensure_spatial E s) := by
  intro sp hsp
  unfold ensure_spatial at hsp
  simp only [Option.some.injEq] at hsp
  rw [← hsp]
  unfold the_spatial
  cases hs : s.spatial with
  | none => rfl
  | some sp0 => exact hc sp0 hs

theorem ensure_norm_spatial (E : Env) (h : Heap) (s : MeanShift) :
    (ensure_norm E h s).spatial = s.spatial ∧
    (ensure_norm E h s).spatial_type = s.spatial_type ∧ (ensure_norm E h s).dm = s.dm := by
  unfold ensure_norm MeanShift_weight
  by_cases hn : s.norm < 0 <;> by_cases hw : s.weight < 0 <;> simp [hn, hw]

theorem weight_spatial (E : Env) (s : MeanShift) :
    (MeanShift_weight E s).1.spatial = s.spatial ∧
    (MeanShift_weight E s).1.spatial_type = s.spatial_type ∧ (MeanShift_weight E s).1.dm = s.dm := by
  unfold MeanShift_weight
  by_cases hw : s.weight < 0 <;> simp [hw]

/-- In every state a façade can reach, a spatial instance in place is the one
built from the spatial type and the data matrix in place. -/
theorem reachable_spatialCoherent (E : Env) (s : MeanShift) (hs : Reachable E s) :
    SpatialCoherent E s := by
  induction hs with
  | new => exact spatialCoherent_of_none E _ rfl
  | @set_kernel s0 h kname _ ih =>
    have hf := set_kernel_loop_frame E kname h s0 E.ListKernel
    exact spatialCoherent_of_eq E s0 _ ih hf.1 (set_kernel_loop_type E kname h s0 E.ListKernel)
      hf.2.2.2.1
  | @copy_kernel s0 h mem self other hm _ ih =>
    have hf := copy_kernel_frame h mem self other
    refine spatialCoherent_of_eq E s0 _ ih ?_ ?_ ?_
    · rw [hf.2.2.2.1, hm]
    · rw [copy_kernel_type, hm]
    · rw [hf.2.2.1, hm]
  | @set_spatial s0 sname _ ih =>
    rcases set_spatial_loop_cases sname s0 E.ListSpatial with hc | hc
    · unfold MeanShift_set_spatial_py; rw [hc]; exact ih
    · exact spatialCoherent_of_none E _ hc
  | @set_balls s0 bname _ ih =>
    have hf := set_balls_loop_spatial bname s0 E.ListBalls
    exact spatialCoherent_of_eq E s0 _ ih hf.1 hf.2 (set_balls_loop_frame bname s0 E.ListBalls).2
  | @set_data s0 junk data dim_types wi _ ih =>
    rcases set_data_cases E junk s0 data dim_types wi with hc | ⟨s', hc⟩
    · rw [hc]; exact ih
    · rw [hc]; exact spatialCoherent_of_none E _ (trash_all_spatial s')
  | @set_scale s0 scale ws _ ih =>
    rcases set_scale_cases E s0 scale ws with hc | ⟨s', hc⟩
    · rw [hc]; exact ih
    · rw [hc]; exact spatialCoherent_of_none E _ (trash_all_spatial s')
  | @weight s0 _ ih =>
    have hf := weight_spatial E s0
    exact spatialCoherent_of_eq E s0 _ ih hf.1 hf.2.1 hf.2.2
  | @scale_silverman s0 _ ih =>
    exact spatialCoherent_of_none E _ (by simp [MeanShift_scale_silverman_py, trash_scaled_spatial])
  | @scale_scott s0 _ ih =>
    exact spatialCoherent_of_none E _ (by simp [MeanShift_scale_scott_py, trash_scaled_spatial])
  | @prob s0 h start _ ih =>
    have hf := ensure_norm_spatial E h (ensure_spatial E s0)
    rcases prob_cases E h s0 start with hc | hc
    · rw [hc]; exact ih
    · rw [hc]
      exact spatialCoherent_of_eq E _ _ (spatialCoherent_ensure_spatial E s0 ih) hf.1 hf.2.1 hf.2.2
  | @loo_nll s0 h limit _ ih =>
    have hf := ensure_norm_spatial E h (ensure_spatial E s0)
    exact spatialCoherent_of_eq E _ _ (spatialCoherent_ensure_spatial E s0 ih) hf.1 hf.2.1 hf.2.2
  | @density s0 h _ ih =>
    have hf := ensure_norm_spatial E h (ensure_spatial E s0)
    exact spatialCoherent_of_eq E _ _ (spatialCoherent_ensure_spatial E s0 ih) hf.1 hf.2.1 hf.2.2
  | @indexed s0 _ ih => exact spatialCoherent_ensure_spatial E s0 ih
  | @cluster s0 b _ ih =>
    exact spatialCoherent_of_eq E _ _ (spatialCoherent_ensure_spatial E s0 ih) rfl rfl rfl
  | @members s0 _ _ _ _ _ _ _ ih => exact spatialCoherent_of_eq E s0 _ ih rfl rfl rfl

/-- C26: in every state reachable from a new façade by the methods, a spatial
instance that is present is the one `Spatial_new` builds from the current
spatial type and the current data matrix (array, tags, weight index, scale and
weight scale). The methods that change the data matrix or the spatial type
leave no spatial instance behind: `set_data` and `set_scale` when the data
matrix after the call differs from the one before, `set_spatial` when the
spatial type differs, `scale_silverman` and `scale_scott` always. -/
theorem spatial_index_coherent (E : Env) (s : MeanShift) (hs : Reachable E s)
    (junk : Nat → DimType) (data : PyArray) (dim_types : CStr) (wi : Option PyObj)
    (scale : PyArray) (ws : ℚ) (sname : CStr) :
    (∀ sp, s.spatial = some sp → sp = E.Spatial_new s.spatial_type s.dm) ∧
    ((MeanShift_set_data_py E junk s data dim_types wi).2.dm ≠ s.dm →
      (MeanShift_set_data_py E junk s data dim_types wi).2.spatial = none) ∧
    ((MeanShift_set_scale_py E s scale ws).2.dm ≠ s.dm →
      (MeanShift_set_scale_py E s scale ws).2.spatial = none) ∧
    ((MeanShift_set_spatial_py E s sname).2.spatial_type ≠ s.spatial_type →
      (MeanShift_set_spatial_py E s sname).2.spatial = none) ∧
    (MeanShift_scale_silverman_py E s).2.spatial = none ∧
    (MeanShift_scale_scott_py E s).2.spatial = none := by
  refine ⟨reachable_spatialCoherent E s hs, ?_, ?_, ?_, ?_, ?_⟩
  · intro hne
    rcases set_data_cases E junk s data dim_types wi with hc | ⟨s', hc⟩
    · rw [hc] at hne; exact absurd rfl hne
    · rw [hc]; exact trash_all_spatial s'
  · intro hne
    rcases set_scale_cases E s scale ws with hc | ⟨s', hc⟩
    · rw [hc] at hne; exact absurd rfl hne
    · rw [hc]; exact trash_all_spatial s'
  · intro hne
    rcases set_spatial_loop_cases sname s E.ListSpatial with hc | hc
    · unfold MeanShift_set_spatial_py at hne
      rw [hc] at hne; exact absurd rfl hne
    · exact hc
  · simp [MeanShift_scale_silverman_py, trash_scaled_spatial]
  · simp [MeanShift_scale_scott_py, trash_scaled_spatial]

/-- Witness of C26 on `sampleReached`, which holds a spatial instance. -/
theorem spatial_index_coherent_witness :
    Reachable sampleEnv sampleReached ∧ sampleReached.spatial ≠ none ∧
    (∀ sp, sampleReached.spatial = some sp →
      sp = sampleEnv.Spatial_new sampleReached.spatial_type sampleReached.dm) ∧
    (MeanShift_set_scale_py sampleEnv sampleReached sampleScale 1).2.dm ≠ sampleReached.dm ∧
    (MeanShift_set_scale_py sampleEnv sampleReached sampleScale 1).2.spatial = none ∧
    (MeanShift_set_spatial_py sampleEnv sampleReached sampleBrute.name).2.spatial_type
      ≠ sampleReached.spatial_type ∧
    (MeanShift_set_spatial_py sampleEnv sampleReached sampleBrute.name).2.spatial = none :=
  have hthm := spatial_index_coherent sampleEnv sampleReached sampleReached_reachable sampleJunk
    sampleArray ['d', 'f'] none sampleScale 1 sampleBrute.name
  have hd : (MeanShift_set_scale_py sampleEnv sampleReached sampleScale 1).2.dm
      ≠ sampleReached.dm := by decide
  have ht : (MeanShift_set_spatial_py sampleEnv sampleReached sampleBrute.name).2.spatial_type
      ≠ sampleReached.spatial_type := by decide
  ⟨sampleReached_reachable, by decide, hthm.1, hd, hthm.2.2.1 hd, ht, hthm.2.2.2.1 ht⟩

/-! ## Coherence of the cached total weight -/

/-- C27: in every state reachable from a new façade by the methods, a cached
total weight that is set (`weight ≥ 0`) is `calc_weight` of the data matrix in
place, so `MeanShift_weight` returns the current total weight, and a second
call in a row returns the same value; the same holds in the states that
`scale_silverman` and `scale_scott` leave, which rewrite the scale and keep the
cache. It rests on the total weight not depending on the scale vector
(`Env.WeightIgnoresMult`). -/
theorem total_weight_cache_coherent (E : Env) (hE : E.WeightIgnoresMult) (s : MeanShift)
    (hs : Reachable E s) :
    (0 ≤ s.weight → s.weight = E.calc_weight s.dm) ∧
    (MeanShift_weight E s).2 = E.calc_weight s.dm ∧
    (MeanShift_weight E (MeanShift_weight E s).1).2 = (MeanShift_weight E s).2 ∧
    (0 ≤ (MeanShift_scale_silverman_py E s).2.weight →
      (MeanShift_scale_silverman_py E s).2.weight =
        E.calc_weight (MeanShift_scale_silverman_py E s).2.dm) ∧
    (MeanShift_weight E (MeanShift_scale_silverman_py E s).2).2 =
      E.calc_weight (MeanShift_scale_silverman_py E s).2.dm ∧
    (0 ≤ (MeanShift_scale_scott_py E s).2.weight →
      (MeanShift_scale_scott_py E s).2.weight =
        E.calc_weight (MeanShift_scale_scott_py E s).2.dm) ∧
    (MeanShift_weight E (MeanShift_scale_scott_py E s).2).2 =
      E.calc_weight (MeanShift_scale_scott_py E s).2.dm := by
  have key : ∀ t, Reachable E t →
      (0 ≤ t.weight → t.weight = E.calc_weight t.dm) ∧
      (MeanShift_weight E t).2 = E.calc_weight t.dm := by
    intro t ht
    have hc := reachable_weightCoherent E hE t ht
    refine ⟨fun h0 => ?_, (weightCoherent_weight E t hc).2.2.1⟩
    rcases hc with hc | hc
    · exact absurd hc (not_lt.mpr h0)
    · exact hc
  have h1 := key s hs
  have h2 := key _ (Reachable.weight hs)
  have h3 := key _ (Reachable.scale_silverman hs)
  have h4 := key _ (Reachable.scale_scott hs)
  refine ⟨h1.1, h1.2, ?_, h3.1, h3.2, h4.1, h4.2⟩
  rw [h2.2, h1.2, (weightCoherent_weight E s (reachable_weightCoherent E hE s hs)).2.1]

/-- Witness of C27 on `sampleReached`, whose cached total weight is set. -/
theorem total_weight_cache_coherent_witness :
    sampleEnv.WeightIgnoresMult ∧ Reachable sampleEnv sampleReached ∧
    0 ≤ sampleReached.weight ∧ sampleReached.weight = sampleEnv.calc_weight sampleReached.dm ∧
    (MeanShift_weight sampleEnv sampleReached).2 = sampleEnv.calc_weight sampleReached.dm ∧
    (MeanShift_weight sampleEnv (MeanShift_scale_silverman_py sampleEnv sampleReached).2).2 =
      sampleEnv.calc_weight (MeanShift_scale_silverman_py sampleEnv sampleReached).2.dm :=
  have hthm := total_weight_cache_coherent sampleEnv sampleEnv_weightIgnoresMult sampleReached
    sampleReached_reachable
  have h0 : 0 ≤ sampleReached.weight := by
    have hw : sampleReached.weight
        = ((axes_product [2, 2] sampleDataMatrix.dt fun t => t != DimType.DIM_FEATURE : ℕ) : ℚ)
          * 1 := rfl
    rw [hw]
    positivity
  ⟨sampleEnv_weightIgnoresMult, sampleReached_reachable, h0, hthm.1 h0, hthm.2.1,
    hthm.2.2.2.2.1⟩

/-! ## The bandwidth rules forget the scale in force -/

theorem reset_mult_length (k : Nat) (m : List ℚ) : (reset_mult k m).length = m.length := by
  unfold reset_mult
  induction k with
  | zero => rfl
  | succ k ih => rw [List.range_succ, List.foldl_append]; simpa using ih

theorem reset_mult_getElem (k : Nat) (m : List ℚ) (i : Nat) :
    (reset_mult k m)[i]? = if i < k ∧ i < m.length then some 1 else m[i]? := by
  induction k with
  | zero => simp [reset_mult]
  | succ k ih =>
    have hstep : reset_mult (k + 1) m = (reset_mult k m).set k 1 := by
      unfold reset_mult
      rw [List.range_succ, List.foldl_append]
      rfl
    rw [hstep, List.getElem?_set, reset_mult_length, ih]
    by_cases hki : k = i
    · subst hki
      by_cases hl : k < m.length
      · simp [hl]
      · simp [hl]; omega
    · simp only [if_neg hki]
      by_cases hl : i < m.length
      · have : (i < k + 1) ↔ i < k := by omega
        simp [hl, this]
      · simp [hl]

/-- The reset loop run over a scale vector with one entry per feature leaves the
vector of ones. -/
theorem reset_mult_full (F : Nat) (m : List ℚ) (hm : m.length = F) :
    reset_mult F m = List.replicate F 1 := by
  apply List.ext_getElem?
  intro i
  rw [reset_mult_getElem]
  by_cases hi : i < F
  · simp [hi, hm, List.getElem?_replicate]
  · have : m[i]? = none := by
      rw [List.getElem?_eq_none_iff]; omega
    simp [hi, this, List.getElem?_replicate]

theorem rule_scale_length (E : Env) (rule : ℚ → Nat → ℚ) (dm : DataMatrix) (n F : Nat) :
    (rule_scale E rule dm n F).length = F := by
  simp [rule_scale]

/-- The data matrix that `scale_silverman` leaves, for a façade whose data
matrix is `d` with a scale vector `m` of one entry per feature. -/
theorem scale_silverman_dm (E : Env) (hE : E.ShapeIgnoresMult) (s : MeanShift) (d : DataMatrix)
    (m : List ℚ) (hm : m.length = E.DataMatrix_features d) (hs : s.dm = { d with mult := m }) :
    (MeanShift_scale_silverman_py E s).2.dm =
      E.DataMatrix_set_scale { d with mult := List.replicate (E.DataMatrix_features d) 1 }
        (rule_scale E (silverman_mult E)
          { d with mult := List.replicate (E.DataMatrix_features d) 1 }
          (E.DataMatrix_exemplars d) (E.DataMatrix_features d)) d.weight_scale := by
  simp only [MeanShift_scale_silverman_py, trash_scaled_dm, hs, hE.features, hE.exemplars,
    reset_mult_full _ _ hm]

/-- The data matrix that `scale_scott` leaves, for a façade whose data matrix is
`d` with a scale vector `m` of one entry per feature. -/
theorem scale_scott_dm (E : Env) (hE : E.ShapeIgnoresMult) (s : MeanShift) (d : DataMatrix)
    (m : List ℚ) (hm : m.length = E.DataMatrix_features d) (hs : s.dm = { d with mult := m }) :
    (MeanShift_scale_scott_py E s).2.dm =
      E.DataMatrix_set_scale { d with mult := List.replicate (E.DataMatrix_features d) 1 }
        (rule_scale E (scott_mult E)
          { d with mult := List.replicate (E.DataMatrix_features d) 1 }
          (E.DataMatrix_exemplars d) (E.DataMatrix_features d)) d.weight_scale := by
  simp only [MeanShift_scale_scott_py, trash_scaled_dm, hs, hE.features, hE.exemplars,
    reset_mult_full _ _ hm]

/-- C28: over exact arithmetic the scale that `scale_silverman` and
`scale_scott` install does not depend on the scale in force before the call.
For every façade and any two prior scale vectors `m` and `m1` with one entry
per feature, the data matrix after the call, and so its `mult`, is the same;
and where `DataMatrix_set_scale` replaces the scale and the weight scale only,
a second call in a row leaves the data matrix of the first. The feature and
exemplar counts are those of the array and the tags (`Env.ShapeIgnoresMult`). -/
theorem scale_rules_forget_prior_scale (E : Env) (hE : E.ShapeIgnoresMult) (s : MeanShift)
    (m m1 : List ℚ) (hm : m.length = E.DataMatrix_features s.dm)
    (hm1 : m1.length = E.DataMatrix_features s.dm) :
    (MeanShift_scale_silverman_py E { s with dm := { s.dm with mult := m } }).2.dm.mult =
      (MeanShift_scale_silverman_py E { s with dm := { s.dm with mult := m1 } }).2.dm.mult ∧
    (MeanShift_scale_scott_py E { s with dm := { s.dm with mult := m } }).2.dm.mult =
      (MeanShift_scale_scott_py E { s with dm := { s.dm with mult := m1 } }).2.dm.mult ∧
    (E.SetScaleOnly →
      (MeanShift_scale_silverman_py E
          (MeanShift_scale_silverman_py E { s with dm := { s.dm with mult := m } }).2).2.dm.mult =
        (MeanShift_scale_silverman_py E { s with dm := { s.dm with mult := m } }).2.dm.mult ∧
      (MeanShift_scale_scott_py E
          (MeanShift_scale_scott_py E { s with dm := { s.dm with mult := m } }).2).2.dm.mult =
        (MeanShift_scale_scott_py E { s with dm := { s.dm with mult := m } }).2.dm.mult) := by
  have a1 := scale_silverman_dm E hE { s with dm := { s.dm with mult := m } } s.dm m hm rfl
  have a2 := scale_silverman_dm E hE { s with dm := { s.dm with mult := m1 } } s.dm m1 hm1 rfl
  have b1 := scale_scott_dm E hE { s with dm := { s.dm with mult := m } } s.dm m hm rfl
  have b2 := scale_scott_dm E hE { s with dm := { s.dm with mult := m1 } } s.dm m1 hm1 rfl
  refine ⟨by rw [a1, a2], by rw [b1, b2], fun hS => ⟨?_, ?_⟩⟩
  · have hpost := a1
    rw [hS.eq] at hpost
    have a3 := scale_silverman_dm E hE
      (MeanShift_scale_silverman_py E { s with dm := { s.dm with mult := m } }).2 s.dm _
      (rule_scale_length E (silverman_mult E) _ (E.DataMatrix_exemplars s.dm)
        (E.DataMatrix_features s.dm)) hpost
    rw [a3, a1]
  · have hpost := b1
    rw [hS.eq] at hpost
    have b3 := scale_scott_dm E hE
      (MeanShift_scale_scott_py E { s with dm := { s.dm with mult := m } }).2 s.dm _
      (rule_scale_length E (scott_mult E) _ (E.DataMatrix_exemplars s.dm)
        (E.DataMatrix_features s.dm)) hpost
    rw [b3, b1]

/-- The sample environments take the feature and exemplar counts from the array
and the tags. -/
theorem exactEnv_shapeIgnoresMult : exactEnv.ShapeIgnoresMult :=
  ⟨fun _ _ => rfl, fun _ _ => rfl⟩

/-- The environment `exactEnv` replaces the scale and the weight scale only. -/
theorem exactEnv_setScaleOnly : exactEnv.SetScaleOnly := ⟨fun _ _ _ => rfl⟩

/-- Witness of C28 on the sample façade, with the prior scales (2, 1/2) and
(3, 5). -/
theorem scale_rules_forget_prior_scale_witness :
    exactEnv.ShapeIgnoresMult ∧ exactEnv.SetScaleOnly ∧
    ([2, 1 / 2] : List ℚ).length = exactEnv.DataMatrix_features sampleState.dm ∧
    ([3, 5] : List ℚ).length = exactEnv.DataMatrix_features sampleState.dm ∧
    (MeanShift_scale_silverman_py exactEnv
        { sampleState with dm := { sampleState.dm with mult := [2, 1 / 2] } }).2.dm.mult =
      (MeanShift_scale_silverman_py exactEnv
        { sampleState with dm := { sampleState.dm with mult := [3, 5] } }).2.dm.mult ∧
    (MeanShift_scale_scott_py exactEnv
        (MeanShift_scale_scott_py exactEnv
          { sampleState with dm := { sampleState.dm with mult := [2, 1 / 2] } }).2).2.dm.mult =
      (MeanShift_scale_scott_py exactEnv
        { sampleState with dm := { sampleState.dm with mult := [2, 1 / 2] } }).2.dm.mult :=
  have hthm := scale_rules_forget_prior_scale exactEnv exactEnv_shapeIgnoresMult sampleState
    [2, 1 / 2] [3, 5] (by decide) (by decide)
  ⟨exactEnv_shapeIgnoresMult, exactEnv_setScaleOnly, by decide, by decide, hthm.1,
    (hthm.2.2 exactEnv_setScaleOnly).2⟩

/-! ## One multiplicand: the sampling parameters play no part -/

/-- C30: `copy_kernel` run with `other = self` on a façade that alone holds its
configuration acquires a configuration that has been freed. On the heap
`sampleHeap` the façade at address 1 of `sampleMem` holds the configuration at
address 0 with share count 1; `config_release` brings the count to 0 and frees
the cell; `self->config = other->config` reads the same pointer back; the
heap after the call has that cell freed with share count 1, the façade still
points to it, and its name is `NULL`. -/
theorem copy_kernel_self_acquires_freed :
    (sampleMem 1).config = some 0 ∧
    sampleHeap.get? 0 = some { share := 1, live := true, dims := 2, param := ['(', '4', ')'] } ∧
    ((sampleMem 1).kernel.config_release (sampleMem 1).config sampleHeap).get? 0 =
      some { share := 0, live := false, dims := 2, param := ['(', '4', ')'] } ∧
    (MeanShift_copy_kernel_py sampleHeap sampleMem 1 1).2.1 =
      [{ share := 1, live := false, dims := 2, param := ['(', '4', ')'] }] ∧
    ((MeanShift_copy_kernel_py sampleHeap sampleMem 1 1).2.2 1).config = some 0 ∧
    (sampleMem 1).name ≠ none ∧
    ((MeanShift_copy_kernel_py sampleHeap sampleMem 1 1).2.2 1).name = none := by
  refine ⟨by decide, by decide, by decide, by decide, by decide, by decide, by decide⟩

end Helit
